import Mathlib

/-! # hwc-vhal: remote display session, layer state and composition engine

A shallow embedding of `common/RemoteDisplay.cpp`, `hwc2/Hwc2Layer.cpp` and
`hwc2/Hwc2Display.cpp`.

* The kernel side of the socket is explicit state (`Socket`): a script of the
  results the coming system calls will give, the inbound byte stream, and a
  trace of the system calls performed.
* Listener callbacks are recorded in a call log (`RemoteDisplay.calls`).
* `display-protocol.h`, `RemoteDisplay.h`, `Hwc2Layer.h` and `Hwc2Display.h` are
  not among the sources.  Struct sizes, message codes and struct decoders are
  the fields of `Protocol`; the inline accessors of the class headers are
  modelled from their names and uses.
* Every non-null `RemoteDisplay*` held by a display or by one of its layers
  points to the one session object that is passed along explicitly.
* The build options `ENABLE_HWC_UIO`, `ENABLE_LAYER_DUMP` and `DEBUG_LAYER` are off.
-/

namespace HwcVhal

/-! ## Protocol constants and wire structs -/

/-- A `buffer_handle_t`: the pointer value (`addr`, 0 for `nullptr`) together with
the fields of the `native_handle_t` it points to. -/
structure buffer_handle_t where
  addr : Nat
  numFds : Nat
  numInts : Nat
  data : List Int
  deriving DecidableEq, Repr

/-- An IEEE-754 single precision value, given by its 32 bits. -/
structure F32 where
  bits : Nat
  deriving DecidableEq, Repr

/-- Exponent field of a float. -/
def F32.expo (x : F32) : Nat := (x.bits / 2 ^ 23) % 256

/-- Fraction field of a float. -/
def F32.frac (x : F32) : Nat := x.bits % 2 ^ 23

/-- Sign bit of a float. -/
def F32.neg (x : F32) : Bool := (x.bits / 2 ^ 31) % 2 == 1

/-- Whether the value is a NaN. -/
def F32.isNaN (x : F32) : Bool := x.expo == 255 && x.frac != 0

/-- Whether the value is +0 or -0. -/
def F32.isZero (x : F32) : Bool := x.expo == 0 && x.frac == 0

/-- The C++ operator `!=` on floats: NaN differs from everything, +0 equals -0. -/
def F32.ne (x y : F32) : Bool :=
  x.isNaN || y.isNaN ||
    (!(x.isZero && y.isZero) && (x.bits % 2 ^ 32 != y.bits % 2 ^ 32))

/-- The cast `(int)x`: truncation toward zero.  The conversion of a NaN or of a value
outside the range of `int` is undefined in C++; the embedding gives `INT_MIN`, as the
x86 conversion instruction does. -/
def F32.toInt (x : F32) : Int :=
  if x.expo ≥ 158 then
    -(2 ^ 31 : Int)
  else if x.expo < 127 then
    0
  else
    let mag : Nat :=
      if x.expo ≥ 150 then (2 ^ 23 + x.frac) * 2 ^ (x.expo - 150)
      else (2 ^ 23 + x.frac) / 2 ^ (150 - x.expo)
    if x.neg then -(mag : Int) else (mag : Int)

/-- The `hwc_color_t` of the host: four 8-bit channels. -/
structure hwc_color_t where
  r : Nat
  g : Nat
  b : Nat
  a : Nat
  deriving DecidableEq, Repr

/-- The `hwc_rect_t` of the host (also the `rect_t` of the wire format). -/
structure hwc_rect_t where
  left : Int
  top : Int
  right : Int
  bottom : Int
  deriving DecidableEq, Repr

/-- The `hwc_frect_t` of the host. -/
structure hwc_frect_t where
  left : F32
  top : F32
  right : F32
  bottom : F32
  deriving DecidableEq, Repr

/-- The wire record `layer_info_t` shipped in UpdateLayers. -/
structure layer_info_t where
  layerId : Nat
  stackId : Nat
  taskId : Nat
  userId : Nat
  index : Nat
  srcCrop : hwc_rect_t
  dstFrame : hwc_rect_t
  transform : Int
  z : Nat
  blendMode : Int
  planeAlpha : F32
  color : Nat
  changed : Bool
  deriving DecidableEq, Repr

/-- The wire record `layer_buffer_info_t` shipped in PresentLayersRequest. -/
structure layer_buffer_info_t where
  layerId : Nat
  bufferId : Nat
  fence : Int
  changed : Bool
  deriving DecidableEq, Repr

/-- The common message header `display_event_t`. -/
structure display_event_t where
  type : Nat
  size : Nat
  id : Int
  deriving DecidableEq, Repr

/-- The payload `display_info_t` of a DisplayInfoAck. -/
structure display_info_t where
  width : Int
  height : Int
  fps : Int
  xdpi : Int
  ydpi : Int
  flags : Nat
  deriving DecidableEq, Repr

/-- The payload `buffer_info_t`. -/
structure buffer_info_t where
  bufferId : Nat
  deriving DecidableEq, Repr

/-- The part of `present_layers_ack_event_t` that follows the header. -/
structure present_ack_t where
  flags : Nat
  numLayers : Nat
  releaseFence : Int
  deriving DecidableEq, Repr

/-- The contents of `display-protocol.h`, which is not among the sources: the message
type codes, the sizes of the wire structs, and how received bytes are read as a struct. -/
structure Protocol where
  DD_EVENT_DISPINFO_REQ : Nat
  DD_EVENT_DISPINFO_ACK : Nat
  DD_EVENT_CREATE_BUFFER : Nat
  DD_EVENT_REMOVE_BUFFER : Nat
  DD_EVENT_DISPLAY_REQ : Nat
  DD_EVENT_DISPLAY_ACK : Nat
  DD_EVENT_SET_ROTATION : Nat
  DD_EVENT_CREATE_LAYER : Nat
  DD_EVENT_REMOVE_LAYER : Nat
  DD_EVENT_UPDATE_LAYERS : Nat
  DD_EVENT_PRESENT_LAYERS_REQ : Nat
  DD_EVENT_PRESENT_LAYERS_ACK : Nat
  sizeof_display_event_t : Nat
  sizeof_display_info_t : Nat
  sizeof_buffer_info_t : Nat
  sizeof_buffer_info_event_t : Nat
  sizeof_native_handle_t : Nat
  sizeof_rotation_event_t : Nat
  sizeof_create_layer_event_t : Nat
  sizeof_remove_layer_event_t : Nat
  sizeof_update_layers_event_t : Nat
  sizeof_layer_info_t : Nat
  sizeof_present_layers_req_event_t : Nat
  sizeof_layer_buffer_info_t : Nat
  sizeof_present_layers_ack_event_t : Nat
  read_display_event_t : List Nat → display_event_t
  read_display_info_t : List Nat → display_info_t
  read_buffer_info_t : List Nat → buffer_info_t
  read_present_ack_t : List Nat → present_ack_t
  read_layer_buffer_info_t : List Nat → layer_buffer_info_t
  flags_version : Nat → Nat
  flags_mode : Nat → Nat

/-- Every struct of the protocol occupies at least one byte. -/
def Protocol.sizesPositive (p : Protocol) : Prop :=
  0 < p.sizeof_display_event_t ∧ 0 < p.sizeof_display_info_t ∧
  0 < p.sizeof_buffer_info_t ∧ 0 < p.sizeof_buffer_info_event_t ∧
  0 < p.sizeof_native_handle_t ∧ 0 < p.sizeof_rotation_event_t ∧
  0 < p.sizeof_create_layer_event_t ∧ 0 < p.sizeof_remove_layer_event_t ∧
  0 < p.sizeof_update_layers_event_t ∧ 0 < p.sizeof_layer_info_t ∧
  0 < p.sizeof_present_layers_req_event_t ∧ 0 < p.sizeof_layer_buffer_info_t ∧
  0 < p.sizeof_present_layers_ack_event_t

instance (p : Protocol) : Decidable p.sizesPositive := by
  unfold Protocol.sizesPositive; infer_instance

/-! ## The socket and the transport channel -/

/-- What a buffer handed to `send` holds. -/
inductive Payload where
  | display_event (type size : Nat) (id : Int)
  | buffer_info (bufferId : Nat)
  | buffer_info_event (type size bufferId : Nat)
  | native_handle (buffer : buffer_handle_t)
  | rotation_event (type size : Nat) (rotation : Int)
  | create_layer_event (type size layerId : Nat)
  | remove_layer_event (type size layerId : Nat)
  | update_layers_event (type size numLayers : Nat)
  | layer_infos (layers : List layer_info_t)
  | present_layers_req_event (type size numLayers : Nat)
  | layer_buffer_infos (layers : List layer_buffer_info_t)
  deriving DecidableEq, Repr

/-- A system call on the socket, with its arguments. -/
inductive SysOp where
  | send (buf : Payload) (n : Nat)
  | recv (n : Nat)
  | sendmsg (fds : List Int) (iovLen : Nat)
  deriving DecidableEq, Repr

/-- A performed system call and the result the kernel gave. -/
structure SysCall where
  op : SysOp
  ret : Int
  deriving DecidableEq, Repr

/-- The kernel side of `mSocketFd`.  `script` holds the results of the coming system
calls, oldest first; past its end every call transfers in full.  `rx` is the rest of
the inbound byte stream, after which the peer has closed.  `trace` lists the system
calls performed so far. -/
structure Socket where
  script : List Int
  rx : List Nat
  trace : List SysCall
  deriving DecidableEq, Repr

/-- The system call `send(fd, buf, n, 0)`. -/
def Socket.send (s : Socket) (buf : Payload) (n : Nat) : Int × Socket :=
  match s.script with
  | r :: rest => (r, { s with script := rest, trace := s.trace ++ [⟨SysOp.send buf n, r⟩] })
  | [] => ((n : Int), { s with trace := s.trace ++ [⟨SysOp.send buf n, (n : Int)⟩] })

/-- The system call `sendmsg(fd, &msg, 0)` with one iovec of `iovLen` bytes and the
descriptors `fds` as ancillary data. -/
def Socket.sendmsg (s : Socket) (fds : List Int) (iovLen : Nat) : Int × Socket :=
  match s.script with
  | r :: rest =>
    (r, { s with script := rest, trace := s.trace ++ [⟨SysOp.sendmsg fds iovLen, r⟩] })
  | [] =>
    ((iovLen : Int), { s with trace := s.trace ++ [⟨SysOp.sendmsg fds iovLen, (iovLen : Int)⟩] })

/-- The system call `recv(fd, buf, n, 0)`: the result, the bytes stored in `buf`, and the
socket afterwards.  A scripted result `r ≤ 0` is an error or an end of stream; a scripted
`r > 0` limits the bytes delivered by this call; at most `n` bytes and at most the bytes
still inbound are delivered. -/
def Socket.recv (s : Socket) (n : Nat) : Int × List Nat × Socket :=
  match s.script with
  | r :: rest =>
    if r ≤ 0 then
      (r, [], { s with script := rest, trace := s.trace ++ [⟨SysOp.recv n, r⟩] })
    else
      let k := min (min r.toNat n) s.rx.length
      ((k : Int), s.rx.take k,
        { script := rest, rx := s.rx.drop k, trace := s.trace ++ [⟨SysOp.recv n, (k : Int)⟩] })
  | [] =>
    let k := min n s.rx.length
    ((k : Int), s.rx.take k,
      { s with rx := s.rx.drop k, trace := s.trace ++ [⟨SysOp.recv n, (k : Int)⟩] })

/-- A call made on a registered listener. -/
inductive Callback where
  | onConnect (fd : Int)
  | onDisconnect (fd : Int)
  | onBufferDisplayed (info : buffer_info_t)
  | onPresented (layerBuffers : List layer_buffer_info_t) (releaseFence : Int)
  deriving DecidableEq, Repr

/-- The class `RemoteDisplay`.  `mStatusListener` and `mEventListener` say whether the
pointer is non-null.  `sock` is the kernel side of the socket, `calls` the listener calls
made so far, `allocs` the outcomes of the coming `malloc` calls (past its end every
allocation succeeds).  `uninit` gives, oldest first, the bytes that the coming local
variables declared without an initialiser hold before anything is stored in them (past its
end such a variable holds zero bytes). -/
structure RemoteDisplay where
  mSocketFd : Int
  mDisconnected : Bool
  mStatusListener : Bool
  mEventListener : Bool
  mWidth : Int
  mHeight : Int
  mFramerate : Int
  mXDpi : Int
  mYDpi : Int
  mDisplayFlags : Nat
  sock : Socket
  calls : List Callback
  allocs : List Bool
  uninit : List (List Nat)
  deriving DecidableEq, Repr

/-- The three lines that follow a failed system call: mark the channel disconnected and
notify the status listener when there is one. -/
def RemoteDisplay.disconnect (rd : RemoteDisplay) (sock : Socket) : RemoteDisplay :=
  { rd with
    sock := sock
    mDisconnected := true
    calls := if rd.mStatusListener then rd.calls ++ [Callback.onDisconnect rd.mSocketFd]
             else rd.calls }

/-- The method `RemoteDisplay::_send(buf, n)`; `buf = none` is a null pointer. -/
def RemoteDisplay._send (rd : RemoteDisplay) (buf : Option Payload) (n : Nat) :
    Int × RemoteDisplay :=
  if rd.mDisconnected then (-1, rd)
  else
    match buf with
    | none => (0, rd)
    | some b =>
      if n = 0 then (0, rd)
      else
        let res := rd.sock.send b n
        if res.1 ≤ 0 then (-1, rd.disconnect res.2)
        else (0, { rd with sock := res.2 })

/-- The method `RemoteDisplay::_recv(buf, n)`: the result, the bytes stored in `buf`
(none when nothing was read), and the object afterwards; `buf = false` is a null
pointer. -/
def RemoteDisplay._recv (rd : RemoteDisplay) (buf : Bool) (n : Nat) :
    Int × List Nat × RemoteDisplay :=
  if rd.mDisconnected then (-1, [], rd)
  else if !buf || n == 0 then (0, [], rd)
  else
    let res := rd.sock.recv n
    if res.1 ≤ 0 then (-1, [], rd.disconnect res.2.2)
    else (0, res.2.1, { rd with sock := res.2.2 })

/-- The method `RemoteDisplay::_sendFds(pfd, fdlen)`; `fds` are the `fdlen` descriptors
`pfd[0..fdlen)`, sent with a 16-byte payload. -/
def RemoteDisplay._sendFds (rd : RemoteDisplay) (fds : List Int) : Int × RemoteDisplay :=
  if rd.mDisconnected then (-1, rd)
  else
    let res := rd.sock.sendmsg fds 16
    if res.1 ≤ 0 then (-1, rd.disconnect res.2)
    else (0, { rd with sock := res.2 })

/-- One call on the transport channel. -/
inductive ChannelCall where
  | send (buf : Option Payload) (n : Nat)
  | recv (buf : Bool) (n : Nat)
  | sendFds (fds : List Int)
  deriving DecidableEq, Repr

/-- Perform one channel call: the value it returns and the object afterwards. -/
def RemoteDisplay.call (rd : RemoteDisplay) : ChannelCall → Int × RemoteDisplay
  | ChannelCall.send buf n => rd._send buf n
  | ChannelCall.recv buf n => ((rd._recv buf n).1, (rd._recv buf n).2.2)
  | ChannelCall.sendFds fds => rd._sendFds fds

/-- Perform a sequence of channel calls: the values returned, in order, and the object
afterwards. -/
def RemoteDisplay.calls_run (rd : RemoteDisplay) : List ChannelCall → List Int × RemoteDisplay
  | [] => ([], rd)
  | c :: cs =>
    let r := rd.call c
    let rs := RemoteDisplay.calls_run r.2 cs
    (r.1 :: rs.1, rs.2)

/-! ## Outbound session operations -/

/-- The method `RemoteDisplay::getConfigs`; `containerId` is `atoi` of the property
`sys.container.id`. -/
def RemoteDisplay.getConfigs (p : Protocol) (rd : RemoteDisplay) (containerId : Int) :
    Int × RemoteDisplay :=
  let r := rd._send
    (some (Payload.display_event p.DD_EVENT_DISPINFO_REQ (p.sizeof_display_event_t % 2 ^ 32)
      containerId))
    p.sizeof_display_event_t
  if r.1 < 0 then (-1, r.2) else (0, r.2)

/-- The statements of `RemoteDisplay::createBuffer`, for a handle that points to a
`native_handle_t`. -/
def RemoteDisplay.createBufferSends (p : Protocol) (rd : RemoteDisplay)
    (buffer : buffer_handle_t) : Int × RemoteDisplay :=
  let size := (p.sizeof_buffer_info_event_t + p.sizeof_native_handle_t +
    (buffer.numFds + buffer.numInts) * 4) % 2 ^ 32
  let r1 := rd._send (some (Payload.display_event p.DD_EVENT_CREATE_BUFFER size 0))
    p.sizeof_display_event_t
  if r1.1 < 0 then (-1, r1.2)
  else
    let r2 := r1.2._send (some (Payload.buffer_info buffer.addr)) p.sizeof_buffer_info_t
    if r2.1 < 0 then (-1, r2.2)
    else
      let r3 := r2.2._send (some (Payload.native_handle buffer))
        (p.sizeof_native_handle_t + (buffer.numFds + buffer.numInts) * 4)
      if r3.1 < 0 then (-1, r3.2)
      else if buffer.numFds > 0 then
        let r4 := r3.2._sendFds (buffer.data.take buffer.numFds)
        if r4.1 < 0 then (-1, r4.2) else (0, r4.2)
      else (0, r3.2)

/-- The method `RemoteDisplay::createBuffer`.  Before it sends anything, and before the
channel is looked at, it reads `buffer->numFds` and `buffer->numInts` for the size of the
message: for a null handle the call dereferences a null pointer and has no outcome
(none). -/
def RemoteDisplay.createBuffer (p : Protocol) (rd : RemoteDisplay) (buffer : buffer_handle_t) :
    Option (Int × RemoteDisplay) :=
  if buffer.addr = 0 then none else some (rd.createBufferSends p buffer)

/-- The method `RemoteDisplay::removeBuffer`. -/
def RemoteDisplay.removeBuffer (p : Protocol) (rd : RemoteDisplay) (buffer : buffer_handle_t) :
    Int × RemoteDisplay :=
  let r1 := rd._send
    (some (Payload.display_event p.DD_EVENT_REMOVE_BUFFER (p.sizeof_buffer_info_event_t % 2 ^ 32) 0))
    p.sizeof_display_event_t
  if r1.1 < 0 then (-1, r1.2)
  else
    let r2 := r1.2._send (some (Payload.buffer_info buffer.addr)) p.sizeof_buffer_info_t
    if r2.1 < 0 then (-1, r2.2) else (0, r2.2)

/-- The method `RemoteDisplay::displayBuffer`. -/
def RemoteDisplay.displayBuffer (p : Protocol) (rd : RemoteDisplay) (buffer : buffer_handle_t) :
    Int × RemoteDisplay :=
  let r := rd._send
    (some (Payload.buffer_info_event p.DD_EVENT_DISPLAY_REQ
      (p.sizeof_buffer_info_event_t % 2 ^ 32) buffer.addr))
    p.sizeof_buffer_info_event_t
  if r.1 < 0 then (-1, r.2) else (0, r.2)

/-- The method `RemoteDisplay::setRotation`. -/
def RemoteDisplay.setRotation (p : Protocol) (rd : RemoteDisplay) (rotation : Int) :
    Int × RemoteDisplay :=
  let r := rd._send
    (some (Payload.rotation_event p.DD_EVENT_SET_ROTATION (p.sizeof_rotation_event_t % 2 ^ 32)
      rotation))
    p.sizeof_rotation_event_t
  if r.1 < 0 then (-1, r.2) else (0, r.2)

/-- The method `RemoteDisplay::createLayer`. -/
def RemoteDisplay.createLayer (p : Protocol) (rd : RemoteDisplay) (id : Nat) :
    Int × RemoteDisplay :=
  let r := rd._send
    (some (Payload.create_layer_event p.DD_EVENT_CREATE_LAYER
      (p.sizeof_create_layer_event_t % 2 ^ 32) id))
    p.sizeof_create_layer_event_t
  if r.1 < 0 then (-1, r.2) else (0, r.2)

/-- The method `RemoteDisplay::removeLayer`. -/
def RemoteDisplay.removeLayer (p : Protocol) (rd : RemoteDisplay) (id : Nat) :
    Int × RemoteDisplay :=
  let r := rd._send
    (some (Payload.remove_layer_event p.DD_EVENT_REMOVE_LAYER
      (p.sizeof_remove_layer_event_t % 2 ^ 32) id))
    p.sizeof_remove_layer_event_t
  if r.1 < 0 then (-1, r.2) else (0, r.2)

/-- One `malloc` call: whether it succeeds, and the object with the outcome consumed. -/
def RemoteDisplay.malloc (rd : RemoteDisplay) : Bool × RemoteDisplay :=
  match rd.allocs with
  | ok :: rest => (ok, { rd with allocs := rest })
  | [] => (true, rd)

/-- The method `RemoteDisplay::updateLayers`. -/
def RemoteDisplay.updateLayers (p : Protocol) (rd : RemoteDisplay)
    (layerInfo : List layer_info_t) : Int × RemoteDisplay :=
  let numLayers := layerInfo.length % 2 ^ 32
  let a := if numLayers ≠ 0 then rd.malloc else (true, rd)
  if !a.1 then (-1, a.2)
  else
    let layers : Option Payload :=
      if numLayers ≠ 0 then some (Payload.layer_infos (layerInfo.take numLayers)) else none
    let r1 := a.2._send
      (some (Payload.update_layers_event p.DD_EVENT_UPDATE_LAYERS
        ((p.sizeof_update_layers_event_t + p.sizeof_layer_info_t * numLayers) % 2 ^ 32)
        numLayers))
      p.sizeof_update_layers_event_t
    if r1.1 < 0 then (-1, r1.2)
    else
      let r2 := r1.2._send layers (p.sizeof_layer_info_t * numLayers)
      if r2.1 < 0 then (-1, r2.2) else (0, r2.2)

/-- The method `RemoteDisplay::presentLayers`. -/
def RemoteDisplay.presentLayers (p : Protocol) (rd : RemoteDisplay)
    (layerBuffer : List layer_buffer_info_t) : Int × RemoteDisplay :=
  let numLayers := layerBuffer.length % 2 ^ 32
  let a := if numLayers ≠ 0 then rd.malloc else (true, rd)
  if !a.1 then (-1, a.2)
  else
    let layers : Option Payload :=
      if numLayers ≠ 0 then some (Payload.layer_buffer_infos (layerBuffer.take numLayers))
      else none
    let r1 := a.2._send
      (some (Payload.present_layers_req_event p.DD_EVENT_PRESENT_LAYERS_REQ
        ((p.sizeof_present_layers_req_event_t + p.sizeof_layer_buffer_info_t * numLayers)
          % 2 ^ 32)
        numLayers))
      p.sizeof_present_layers_req_event_t
    if r1.1 < 0 then (-1, r1.2)
    else
      let r2 := r1.2._send layers (p.sizeof_layer_buffer_info_t * numLayers)
      if r2.1 < 0 then (-1, r2.2) else (0, r2.2)

/-! ## Inbound event loop -/

/-- The contents of a buffer of `n` bytes after a read that stored the bytes `got` at its
start: `got`, followed by what the buffer held before from that position on.  `old` gives
the bytes held before; where it gives none, the byte is 0. -/
def bufferAfter (old : List Nat) (n : Nat) (got : List Nat) : List Nat :=
  (got ++ (old ++ List.replicate n 0).drop got.length).take n

/-- The declaration of a local variable without an initialiser: the bytes the variable
holds, and the session with that entry of `uninit` consumed.  The embedding consumes the
entry when the variable is first read, which is after the receive into it has returned. -/
def RemoteDisplay.declare (rd : RemoteDisplay) : List Nat × RemoteDisplay :=
  match rd.uninit with
  | g :: rest => (g, { rd with uninit := rest })
  | [] => ([], rd)

/-- The method `RemoteDisplay::onDisplayInfoAck`.  The local `info` is declared without an
initialiser, and `_recv` returns 0 for a read of any positive number of bytes: after a read
of fewer bytes than the struct, the members are read from what was received followed by
what `info` held before. -/
def RemoteDisplay.onDisplayInfoAck (p : Protocol) (rd : RemoteDisplay) : Int × RemoteDisplay :=
  let r := rd._recv true p.sizeof_display_info_t
  if r.1 < 0 then (-1, r.2.2)
  else
    let v := r.2.2.declare
    let info := p.read_display_info_t (bufferAfter v.1 p.sizeof_display_info_t r.2.1)
    let rd1 : RemoteDisplay :=
      { v.2 with
        mWidth := info.width
        mHeight := info.height
        mFramerate := info.fps
        mXDpi := info.xdpi
        mYDpi := info.ydpi
        mDisplayFlags := info.flags }
    (0, if rd1.mStatusListener then
          { rd1 with calls := rd1.calls ++ [Callback.onConnect rd1.mSocketFd] }
        else rd1)

/-- The method `RemoteDisplay::onDisplayBufferAck`.  The local `info` is declared without
an initialiser. -/
def RemoteDisplay.onDisplayBufferAck (p : Protocol) (rd : RemoteDisplay) : Int × RemoteDisplay :=
  let r := rd._recv true p.sizeof_buffer_info_t
  if r.1 < 0 then (-1, r.2.2)
  else
    let v := r.2.2.declare
    let info := p.read_buffer_info_t (bufferAfter v.1 p.sizeof_buffer_info_t r.2.1)
    (0, if v.2.mEventListener then
          { v.2 with calls := v.2.calls ++ [Callback.onBufferDisplayed info] }
        else v.2)

/-- The receive loop of `onPresentLayersAck`: `count` further records; `none` when a
receive fails.  The records are elements of a vector that `resize` has filled with zero
bytes. -/
def RemoteDisplay.recvLayerBuffers (p : Protocol) :
    Nat → RemoteDisplay → Option (List layer_buffer_info_t) × RemoteDisplay
  | 0, rd => (some [], rd)
  | count + 1, rd =>
    let r := rd._recv true p.sizeof_layer_buffer_info_t
    if r.1 < 0 then (none, r.2.2)
    else
      let rest := RemoteDisplay.recvLayerBuffers p count r.2.2
      (rest.1.map
        (fun ls =>
          p.read_layer_buffer_info_t (bufferAfter [] p.sizeof_layer_buffer_info_t r.2.1) :: ls),
        rest.2)

/-- The method `RemoteDisplay::onPresentLayersAck`.  The local `ack` is declared without an
initialiser; the read stores into the part of it that follows the header. -/
def RemoteDisplay.onPresentLayersAck (p : Protocol) (rd : RemoteDisplay) : Int × RemoteDisplay :=
  let r := rd._recv true (p.sizeof_present_layers_ack_event_t - p.sizeof_display_event_t)
  if r.1 < 0 then (-1, r.2.2)
  else
    let v := r.2.2.declare
    let ack := p.read_present_ack_t
      (bufferAfter v.1 (p.sizeof_present_layers_ack_event_t - p.sizeof_display_event_t) r.2.1)
    let rd1 : RemoteDisplay := { v.2 with mDisplayFlags := ack.flags }
    let ls := RemoteDisplay.recvLayerBuffers p ack.numLayers rd1
    match ls.1 with
    | none => (-1, ls.2)
    | some layerBuffers =>
      (0, if ls.2.mEventListener then
            { ls.2 with calls := ls.2.calls ++ [Callback.onPresented layerBuffers ack.releaseFence] }
          else ls.2)

/-- The method `RemoteDisplay::onDisplayEvent`.  The local `ev` is declared without an
initialiser: after a read of fewer bytes than the header, the `switch` is on what was
received followed by what `ev` held before. -/
def RemoteDisplay.onDisplayEvent (p : Protocol) (rd : RemoteDisplay) : Int × RemoteDisplay :=
  let r := rd._recv true p.sizeof_display_event_t
  if r.1 < 0 then (-1, r.2.2)
  else
    let v := r.2.2.declare
    let ev := p.read_display_event_t (bufferAfter v.1 p.sizeof_display_event_t r.2.1)
    if ev.type = p.DD_EVENT_DISPINFO_ACK then (0, (v.2.onDisplayInfoAck p).2)
    else if ev.type = p.DD_EVENT_DISPLAY_ACK then (0, (v.2.onDisplayBufferAck p).2)
    else if ev.type = p.DD_EVENT_PRESENT_LAYERS_ACK then (0, (v.2.onPresentLayersAck p).2)
    else (0, (v.2._recv true 1024).2.2)

/-! ## Layer state (Hwc2Layer) -/

/-- The enumeration `HWC2::Composition`, by its 32-bit code: a layer may hold any value the
host passes. -/
abbrev Composition := Int

/-- Code of `Composition::Invalid`. -/
def Composition.Invalid : Composition := 0

/-- Code of `Composition::Client`. -/
def Composition.Client : Composition := 1

/-- Code of `Composition::Device`. -/
def Composition.Device : Composition := 2

/-- Code of `Composition::SolidColor`. -/
def Composition.SolidColor : Composition := 3

/-- Code of `Composition::Cursor`. -/
def Composition.Cursor : Composition := 4

/-- Code of `Composition::Sideband`. -/
def Composition.Sideband : Composition := 5

/-- The enumeration `HWC2::Error`. -/
inductive Error where
  | None
  | BadConfig
  | BadDisplay
  | BadLayer
  | BadParameter
  | HasChanges
  | NoResources
  | NotValidated
  | Unsupported
  deriving DecidableEq, Repr

/-- The class `Hwc2Layer`.  `mBuffers` is the set of buffer handles this layer has
registered, `mRemoteDisplay` the session pointer (`none` for `nullptr`), `closed` the file
descriptors the layer has closed so far. -/
structure Hwc2Layer where
  mLayerID : Nat
  mInfo : layer_info_t
  mLayerBuffer : layer_buffer_info_t
  mAcquireFence : Int
  mReleaseFence : Int
  mBuffer : buffer_handle_t
  mBuffers : List Nat
  mRemoteDisplay : Option Nat
  mColor : hwc_color_t
  mType : Composition
  mValidatedType : Composition
  mDataspace : Int
  mDstFrame : hwc_rect_t
  mAlpha : F32
  mSrcCrop : hwc_frect_t
  mTransform : Int
  mZOrder : Nat
  mStackId : Nat
  mTaskId : Nat
  mUserId : Nat
  mIndex : Nat
  closed : List Int
  deriving DecidableEq, Repr

/-- A zero-filled `layer_info_t` (the result of `memset`). -/
def layer_info_t.zero : layer_info_t :=
  { layerId := 0, stackId := 0, taskId := 0, userId := 0, index := 0,
    srcCrop := ⟨0, 0, 0, 0⟩, dstFrame := ⟨0, 0, 0, 0⟩, transform := 0, z := 0,
    blendMode := 0, planeAlpha := ⟨0⟩, color := 0, changed := false }

/-- The constructor `Hwc2Layer::Hwc2Layer(idx)`.  The members it does not assign take the
in-class initialisers of `Hwc2Layer.h`, given by `init`. -/
def Hwc2Layer.ctor (init : Hwc2Layer) (idx : Nat) : Hwc2Layer :=
  { init with
    mLayerID := idx
    mInfo := { layer_info_t.zero with layerId := idx, changed := true }
    mLayerBuffer := { layerId := idx, bufferId := 0, fence := 0, changed := false } }

/-- Modelled from the spec: the accessor `Hwc2Layer::changed()` of `Hwc2Layer.h`, the
layer's attribute-changed flag. -/
def Hwc2Layer.changed (l : Hwc2Layer) : Bool := l.mInfo.changed

/-- Modelled from the spec: the accessor `Hwc2Layer::bufferChanged()` of `Hwc2Layer.h`, the
layer's buffer-changed flag. -/
def Hwc2Layer.bufferChanged (l : Hwc2Layer) : Bool := l.mLayerBuffer.changed

/-- Modelled from the spec: `Hwc2Layer::setUnchanged()` of `Hwc2Layer.h`, which clears the
layer's changed and buffer-changed flags. -/
def Hwc2Layer.setUnchanged (l : Hwc2Layer) : Hwc2Layer :=
  { l with
    mInfo := { l.mInfo with changed := false }
    mLayerBuffer := { l.mLayerBuffer with changed := false } }

/-- Modelled from the spec: the accessor `Hwc2Layer::info()` of `Hwc2Layer.h`, the wire
record of the layer's attributes. -/
def Hwc2Layer.info (l : Hwc2Layer) : layer_info_t := l.mInfo

/-- Modelled from the spec: the accessor `Hwc2Layer::layerBuffer()` of `Hwc2Layer.h`, the
wire record of the layer's buffer. -/
def Hwc2Layer.layerBuffer (l : Hwc2Layer) : layer_buffer_info_t := l.mLayerBuffer

/-- Modelled from the spec: the accessor `Hwc2Layer::type()` of `Hwc2Layer.h`, the
requested composition type. -/
def Hwc2Layer.type (l : Hwc2Layer) : Composition := l.mType

/-- Modelled from the spec: the accessor `Hwc2Layer::validatedType()` of `Hwc2Layer.h`. -/
def Hwc2Layer.validatedType (l : Hwc2Layer) : Composition := l.mValidatedType

/-- Modelled from the spec: `Hwc2Layer::setValidatedType` of `Hwc2Layer.h`, which stores the
validated composition type. -/
def Hwc2Layer.setValidatedType (l : Hwc2Layer) (t : Composition) : Hwc2Layer :=
  { l with mValidatedType := t }

/-- Modelled from the spec: `Hwc2Layer::setRemoteDisplay` of `Hwc2Layer.h`, which stores the
session pointer. -/
def Hwc2Layer.setRemoteDisplay (l : Hwc2Layer) (rd : Option Nat) : Hwc2Layer :=
  { l with mRemoteDisplay := rd }

/-- The method `Hwc2Layer::setBlendMode`. -/
def Hwc2Layer.setBlendMode (l : Hwc2Layer) (mode : Int) : Error × Hwc2Layer :=
  if l.mInfo.blendMode ≠ mode then
    (Error.None, { l with mInfo := { l.mInfo with blendMode := mode, changed := true } })
  else (Error.None, l)

/-- The method `Hwc2Layer::setBuffer`; `rd` is the session `mRemoteDisplay` points to when
it is not null.  The call has no outcome (none) when its call of `createBuffer` has
none. -/
def Hwc2Layer.setBuffer (p : Protocol) (l : Hwc2Layer) (rd : RemoteDisplay)
    (buffer : buffer_handle_t) (acquireFence : Int) :
    Option (Error × Hwc2Layer × RemoteDisplay) :=
  let l1 : Hwc2Layer :=
    if l.mAcquireFence ≥ 0 then { l with closed := l.closed ++ [l.mAcquireFence] } else l
  let l2 : Hwc2Layer := { l1 with mAcquireFence := acquireFence }
  if l2.mBuffer.addr ≠ buffer.addr then
    let reg : Option (Hwc2Layer × RemoteDisplay) :=
      if l2.mBuffers.count buffer.addr = 0 then
        if l2.mRemoteDisplay.isSome then
          (rd.createBuffer p buffer).map
            (fun r => ({ l2 with mBuffers := l2.mBuffers.insert buffer.addr }, r.2))
        else some ({ l2 with mBuffers := l2.mBuffers.insert buffer.addr }, rd)
      else some (l2, rd)
    reg.map
      (fun reg =>
        (Error.None,
          { reg.1 with
            mBuffer := buffer
            mAcquireFence := acquireFence
            mLayerBuffer :=
              { reg.1.mLayerBuffer with bufferId := buffer.addr, fence := acquireFence,
                                        changed := true } },
          reg.2))
  else some (Error.None, l2, rd)

/-- The layer as `setBuffer(buffer, acquireFence)` leaves it; the layer itself where the
call has no outcome. -/
def Hwc2Layer.afterSetBuffer (p : Protocol) (l : Hwc2Layer) (rd : RemoteDisplay)
    (buffer : buffer_handle_t) (acquireFence : Int) : Hwc2Layer :=
  match l.setBuffer p rd buffer acquireFence with
  | some r => r.2.1
  | none => l

/-- The method `Hwc2Layer::setColor`. -/
def Hwc2Layer.setColor (l : Hwc2Layer) (color : hwc_color_t) : Error × Hwc2Layer :=
  if l.mColor.r ≠ color.r ∨ l.mColor.g ≠ color.g ∨ l.mColor.b ≠ color.b ∨
      l.mColor.a ≠ color.a then
    (Error.None,
      { l with
        mColor := color
        mInfo :=
          { l.mInfo with
            color := (color.r ||| (color.g <<< 8) ||| (color.g <<< 16) ||| (color.a <<< 24))
              % 2 ^ 32
            changed := true } })
  else (Error.None, l)

/-- The method `Hwc2Layer::setCompositionType`. -/
def Hwc2Layer.setCompositionType (l : Hwc2Layer) (type : Int) : Error × Hwc2Layer :=
  (Error.None, { l with mType := type })

/-- The method `Hwc2Layer::setDataspace`. -/
def Hwc2Layer.setDataspace (l : Hwc2Layer) (dataspace : Int) : Error × Hwc2Layer :=
  (Error.None, { l with mDataspace := dataspace })

/-- The method `Hwc2Layer::setDisplayFrame`. -/
def Hwc2Layer.setDisplayFrame (l : Hwc2Layer) (frame : hwc_rect_t) : Error × Hwc2Layer :=
  if l.mDstFrame.left ≠ frame.left ∨ l.mDstFrame.top ≠ frame.top ∨
      l.mDstFrame.right ≠ frame.right ∨ l.mDstFrame.bottom ≠ frame.bottom then
    (Error.None,
      { l with
        mDstFrame := frame
        mInfo :=
          { l.mInfo with
            dstFrame :=
              { left := frame.left, top := frame.top, right := frame.right,
                bottom := frame.bottom }
            changed := true } })
  else (Error.None, l)

/-- The method `Hwc2Layer::setPlaneAlpha`. -/
def Hwc2Layer.setPlaneAlpha (l : Hwc2Layer) (alpha : F32) : Error × Hwc2Layer :=
  if l.mAlpha.ne alpha then
    (Error.None,
      { l with mAlpha := alpha, mInfo := { l.mInfo with planeAlpha := alpha, changed := true } })
  else (Error.None, l)

/-- The method `Hwc2Layer::setSourceCrop`. -/
def Hwc2Layer.setSourceCrop (l : Hwc2Layer) (crop : hwc_frect_t) : Error × Hwc2Layer :=
  if l.mSrcCrop.left.ne crop.left || l.mSrcCrop.top.ne crop.top ||
      l.mSrcCrop.right.ne crop.right || l.mSrcCrop.bottom.ne crop.bottom then
    (Error.None,
      { l with
        mSrcCrop := crop
        mInfo :=
          { l.mInfo with
            srcCrop :=
              { left := crop.left.toInt, top := crop.top.toInt, right := crop.right.toInt,
                bottom := crop.bottom.toInt }
            changed := true } })
  else (Error.None, l)

/-- The method `Hwc2Layer::setTransform`. -/
def Hwc2Layer.setTransform (l : Hwc2Layer) (transform : Int) : Error × Hwc2Layer :=
  if l.mTransform ≠ transform then
    (Error.None,
      { l with
        mTransform := transform
        mInfo := { l.mInfo with transform := transform, changed := true } })
  else (Error.None, l)

/-- The method `Hwc2Layer::setZOrder`. -/
def Hwc2Layer.setZOrder (l : Hwc2Layer) (order : Nat) : Error × Hwc2Layer :=
  (Error.None, { l with mZOrder := order, mInfo := { l.mInfo with z := order } })

/-- One call of an attribute setter, with its argument. -/
inductive Setter where
  | setBlendMode (mode : Int)
  | setColor (color : hwc_color_t)
  | setDisplayFrame (frame : hwc_rect_t)
  | setPlaneAlpha (alpha : F32)
  | setSourceCrop (crop : hwc_frect_t)
  | setTransform (transform : Int)
  | setZOrder (order : Nat)
  deriving DecidableEq, Repr

/-- Apply one attribute setter to a layer. -/
def Hwc2Layer.apply (l : Hwc2Layer) : Setter → Hwc2Layer
  | Setter.setBlendMode mode => (l.setBlendMode mode).2
  | Setter.setColor color => (l.setColor color).2
  | Setter.setDisplayFrame frame => (l.setDisplayFrame frame).2
  | Setter.setPlaneAlpha alpha => (l.setPlaneAlpha alpha).2
  | Setter.setSourceCrop crop => (l.setSourceCrop crop).2
  | Setter.setTransform transform => (l.setTransform transform).2
  | Setter.setZOrder order => (l.setZOrder order).2

/-- The stored attribute values of a layer: the members the setters keep, not the wire
record and not the changed flag. -/
def Hwc2Layer.stored (l : Hwc2Layer) :
    Int × hwc_color_t × hwc_rect_t × F32 × hwc_frect_t × Int × Nat :=
  (l.mInfo.blendMode, l.mColor, l.mDstFrame, l.mAlpha, l.mSrcCrop, l.mTransform, l.mZOrder)

/-! ## Composition engine (Hwc2Display) -/

/-- The container `std::map<hwc2_layer_t, Hwc2Layer>`: the entries in iteration order,
which is ascending key order. -/
abbrev LayerMap := List (Nat × Hwc2Layer)

/-- The call `std::map::emplace(k, v)`: insert at the place of `k` in ascending key order,
unless the key is present already. -/
def LayerMap.emplace : LayerMap → Nat → Hwc2Layer → LayerMap
  | [], k, v => [(k, v)]
  | e :: rest, k, v =>
    if k < e.1 then (k, v) :: e :: rest
    else if k = e.1 then e :: rest
    else e :: LayerMap.emplace rest k v

/-- Update in place the entry `std::map::at(k)` refers to. -/
def LayerMap.modify : LayerMap → Nat → (Hwc2Layer → Hwc2Layer) → LayerMap
  | [], _, _ => []
  | e :: rest, k, f =>
    if e.1 = k then (e.1, f e.2) :: rest else e :: LayerMap.modify rest k f

/-- The call `std::map::erase(k)`. -/
def LayerMap.erase (m : LayerMap) (k : Nat) : LayerMap :=
  m.filter (fun e => e.1 != k)

/-- The invariant of the map: keys strictly ascending. -/
def LayerMap.ordered (m : LayerMap) : Prop :=
  (m.map Prod.fst).Sorted (· < ·)

/-- The class `Hwc2Display`.  `mRemoteDisplay` is the session pointer (`none` for
`nullptr`), `mFbtBuffers` the client-target handles registered so far, `closed` the file
descriptors the display has closed. -/
structure Hwc2Display where
  mDisplayID : Nat
  mWidth : Int
  mHeight : Int
  mFramerate : Int
  mXDpi : Int
  mYDpi : Int
  mVersion : Nat
  mMode : Nat
  mConfig : Nat
  mLayers : LayerMap
  mLayerIndex : Nat
  mRemoteDisplay : Option Nat
  mFbTarget : buffer_handle_t
  mFbAcquireFenceFd : Int
  mFbtBuffers : List Nat
  mOutputBuffer : buffer_handle_t
  mOutputBufferFenceFd : Int
  mTransform : Nat
  mFrameNum : Int
  mColorMode : Int
  closed : List Int
  deriving DecidableEq, Repr

/-- The method `Hwc2Display::attach(rd)`; `ptr` is the pointer passed and `rd` the object it
points to. -/
def Hwc2Display.attach (p : Protocol) (d : Hwc2Display) (ptr : Option Nat) (rd : RemoteDisplay) :
    Int × Hwc2Display :=
  match ptr with
  | none => (-1, d)
  | some a =>
    (0,
      { d with
        mRemoteDisplay := some a
        mWidth := rd.mWidth
        mHeight := rd.mHeight
        mFramerate := rd.mFramerate
        mXDpi := rd.mXDpi
        mYDpi := rd.mYDpi
        mVersion := p.flags_version rd.mDisplayFlags
        mMode := p.flags_mode rd.mDisplayFlags })

/-- The method `Hwc2Display::detach(rd)`. -/
def Hwc2Display.detach (d : Hwc2Display) (ptr : Option Nat) : Int × Hwc2Display :=
  if ptr = d.mRemoteDisplay then
    (0, { d with mFbtBuffers := [], mTransform := 0, mRemoteDisplay := none })
  else (0, d)

/-- The method `Hwc2Display::createLayer`: the result, the id stored in `*layer`, the
display and the session afterwards.  `init` gives the in-class initialisers of
`Hwc2Layer.h`; the layer counter is a 64-bit unsigned integer. -/
def Hwc2Display.createLayer (p : Protocol) (init : Hwc2Layer) (d : Hwc2Display)
    (rd : RemoteDisplay) : Error × Nat × Hwc2Display × RemoteDisplay :=
  let rd1 :=
    if d.mRemoteDisplay.isSome ∧ d.mMode > 0 then (rd.createLayer p d.mLayerIndex).2 else rd
  let m1 := LayerMap.emplace d.mLayers d.mLayerIndex (Hwc2Layer.ctor init d.mLayerIndex)
  let m2 := LayerMap.modify m1 d.mLayerIndex (fun l => l.setRemoteDisplay d.mRemoteDisplay)
  (Error.None, d.mLayerIndex,
    { d with mLayers := m2, mLayerIndex := (d.mLayerIndex + 1) % 2 ^ 64 }, rd1)

/-- The method `Hwc2Display::destroyLayer`. -/
def Hwc2Display.destroyLayer (p : Protocol) (d : Hwc2Display) (rd : RemoteDisplay)
    (layer : Nat) : Error × Hwc2Display × RemoteDisplay :=
  let rd1 :=
    if d.mRemoteDisplay.isSome ∧ d.mMode > 0 then (rd.removeLayer p layer).2 else rd
  (Error.None, { d with mLayers := LayerMap.erase d.mLayers layer }, rd1)

/-- The method `Hwc2Display::setClientTarget`.  The call has no outcome (none) when its call
of `createBuffer` has none. -/
def Hwc2Display.setClientTarget (p : Protocol) (d : Hwc2Display) (rd : RemoteDisplay)
    (target : buffer_handle_t) (acquireFence : Int) :
    Option (Error × Hwc2Display × RemoteDisplay) :=
  let d1 : Hwc2Display :=
    { d with
      mFbTarget := target
      closed := if d.mFbAcquireFenceFd ≥ 0 then d.closed ++ [d.mFbAcquireFenceFd] else d.closed
      mFbAcquireFenceFd := acquireFence }
  if d1.mRemoteDisplay.isSome then
    let isNew := d1.mFbtBuffers.foldl (fun isNew fbt => if fbt = target.addr then false else isNew)
      true
    if isNew then
      (rd.createBuffer p target).map
        (fun r => (Error.None, { d1 with mFbtBuffers := d1.mFbtBuffers ++ [target.addr] }, r.2))
    else some (Error.None, d1, rd)
  else some (Error.None, d1, rd)

/-- The body of the loop of `Hwc2Display::validate` for one layer: the layer afterwards and
the 32-bit counter `*numTypes` afterwards. -/
def Hwc2Display.validateLayer (layer : Hwc2Layer) (numTypes : Nat) : Hwc2Layer × Nat :=
  if layer.type = Composition.Device then
    (layer.setValidatedType Composition.Client, (numTypes + 1) % 2 ^ 32)
  else if layer.type = Composition.SolidColor ∨ layer.type = Composition.Cursor ∨
      layer.type = Composition.Sideband then
    (layer.setValidatedType Composition.Client, (numTypes + 1) % 2 ^ 32)
  else
    (layer.setValidatedType layer.type, numTypes)

/-- The loop of `Hwc2Display::validate` over the layers, in iteration order. -/
def Hwc2Display.validateLoop : LayerMap → Nat → LayerMap × Nat
  | [], numTypes => ([], numTypes)
  | e :: rest, numTypes =>
    let r := Hwc2Display.validateLayer e.2 numTypes
    let rs := Hwc2Display.validateLoop rest r.2
    ((e.1, r.1) :: rs.1, rs.2)

/-- The method `Hwc2Display::validate`: the result, `*numTypes`, `*numRequests` and the
display afterwards. -/
def Hwc2Display.validate (d : Hwc2Display) : Error × Nat × Nat × Hwc2Display :=
  let r := Hwc2Display.validateLoop d.mLayers 0
  (if r.2 > 0 then Error.HasChanges else Error.None, r.2, 0, { d with mLayers := r.1 })

/-- The scan of `Hwc2Display::updateRotation`: the value of `tr` when the loop ends. -/
def Hwc2Display.scanTransform (mTransform : Nat) : LayerMap → Nat → Nat
  | [], tr => tr
  | e :: rest, _ =>
    let tr := (e.2.info.transform % 2 ^ 32).toNat
    if e.2.layerBuffer.bufferId ≠ 0 ∧ tr = mTransform then tr
    else Hwc2Display.scanTransform mTransform rest tr

/-- The method `Hwc2Display::updateRotation`. -/
def Hwc2Display.updateRotation (p : Protocol) (d : Hwc2Display) (rd : RemoteDisplay) :
    Int × Hwc2Display × RemoteDisplay :=
  if d.mRemoteDisplay.isNone then (0, d, rd)
  else
    let tr := Hwc2Display.scanTransform d.mTransform d.mLayers 0
    if tr ≠ d.mTransform then
      let rot : Int := if tr = 0 then 0 else if tr = 4 then 1 else if tr = 3 then 2 else 3
      (0, { d with mTransform := tr }, (rd.setRotation p rot).2)
    else (0, d, rd)

/-- The first block of `Hwc2Display::present`, run when a session is attached: in mode 0 or
2 with a client target, ship the client target and reconcile the rotation. -/
def Hwc2Display.presentTarget (p : Protocol) (d : Hwc2Display) (rd : RemoteDisplay) :
    Hwc2Display × RemoteDisplay :=
  if d.mMode = 0 ∨ d.mMode = 2 then
    if d.mFbTarget.addr ≠ 0 then
      (d.updateRotation p (rd.displayBuffer p d.mFbTarget).2).2
    else (d, rd)
  else (d, rd)

/-- The second block of `Hwc2Display::present`, run when a session is attached: in mode 1
or above, ship the changed layers and the layers whose buffer changed, then clear the flags
of every layer. -/
def Hwc2Display.presentBatches (p : Protocol) (d : Hwc2Display) (rd : RemoteDisplay) :
    Hwc2Display × RemoteDisplay :=
  if d.mMode > 0 then
    let forceUpdateAll := false
    let layerInfos := (d.mLayers.filter (fun e => forceUpdateAll || e.2.changed)).map
      (fun e => e.2.info)
    let rd1 := if layerInfos.length ≠ 0 then (rd.updateLayers p layerInfos).2 else rd
    let layerBuffers := (d.mLayers.filter (fun e => e.2.bufferChanged)).map
      (fun e => e.2.layerBuffer)
    let rd2 := if layerBuffers.length ≠ 0 then (rd1.presentLayers p layerBuffers).2 else rd1
    ({ d with mLayers := d.mLayers.map (fun e => (e.1, e.2.setUnchanged)) }, rd2)
  else (d, rd)

/-- The method `Hwc2Display::present`: the result, `*retireFence`, the display and the
session afterwards. -/
def Hwc2Display.present (p : Protocol) (d : Hwc2Display) (rd : RemoteDisplay) :
    Error × Int × Hwc2Display × RemoteDisplay :=
  let s : Hwc2Display × RemoteDisplay :=
    if d.mRemoteDisplay.isSome then
      let s1 := Hwc2Display.presentTarget p d rd
      Hwc2Display.presentBatches p s1.1 s1.2
    else (d, rd)
  (Error.None, -1, { s.1 with mFrameNum := s.1.mFrameNum + 1 }, s.2)

/-- Modelled from the spec: the lookup `Hwc2Display::getLayer` of `Hwc2Display.h`, which is
not among the sources; by section 7 a call on a layer id that does not exist changes
nothing.  With it, the dispatch of `setBuffer` by `Hwc2Device::LayerHook` to the layer `l` of
the display. -/
def Hwc2Display.layerSetBuffer (p : Protocol) (d : Hwc2Display) (rd : RemoteDisplay)
    (l : Nat) (buffer : buffer_handle_t) (acquireFence : Int) :
    Option (Hwc2Display × RemoteDisplay) :=
  match d.mLayers.find? (fun e => e.1 == l) with
  | none => some (d, rd)
  | some e =>
    (e.2.setBuffer p rd buffer acquireFence).map
      (fun r => ({ d with mLayers := LayerMap.modify d.mLayers l (fun _ => r.2.1) }, r.2.2))

/-- A sequence of `setBuffer` calls on layers of the display, each given by the layer id,
the buffer and the acquire fence; none when one of the calls has no outcome. -/
def Hwc2Display.layerSetBuffers (p : Protocol) :
    Hwc2Display → RemoteDisplay → List (Nat × buffer_handle_t × Int) →
      Option (Hwc2Display × RemoteDisplay)
  | d, rd, [] => some (d, rd)
  | d, rd, c :: cs =>
    match Hwc2Display.layerSetBuffer p d rd c.1 c.2.1 c.2.2 with
    | none => none
    | some s => Hwc2Display.layerSetBuffers p s.1 s.2 cs

/-! ## Concrete states used to evaluate the code -/

/-- A connected channel with a registered status listener whose second system call
fails. -/
def sampleChannel : RemoteDisplay :=
  { mSocketFd := 7, mDisconnected := false, mStatusListener := true, mEventListener := true,
    mWidth := 0, mHeight := 0, mFramerate := 0, mXDpi := 0, mYDpi := 0, mDisplayFlags := 0,
    sock := { script := [8, 0], rx := [1, 2, 3], trace := [] }, calls := [], allocs := [],
    uninit := [] }

/-- A connected channel with a registered status listener on which the next write
transfers 4 bytes. -/
def shortWriteChannel : RemoteDisplay :=
  { sampleChannel with sock := { script := [4], rx := [], trace := [] } }

/-- A connected session with a registered status listener, an empty inbound stream and
no scripted failure. -/
def sampleSession : RemoteDisplay :=
  { sampleChannel with sock := { script := [], rx := [], trace := [] } }

/-- Member values for a layer before its constructor runs: no fence, no buffer, no
session, everything else zero. -/
def sampleLayerInit : Hwc2Layer :=
  { mLayerID := 0, mInfo := layer_info_t.zero,
    mLayerBuffer := { layerId := 0, bufferId := 0, fence := 0, changed := false },
    mAcquireFence := -1, mReleaseFence := -1,
    mBuffer := { addr := 0, numFds := 0, numInts := 0, data := [] }, mBuffers := [],
    mRemoteDisplay := none, mColor := ⟨0, 0, 0, 0⟩, mType := Composition.Invalid,
    mValidatedType := Composition.Invalid, mDataspace := 0, mDstFrame := ⟨0, 0, 0, 0⟩,
    mAlpha := ⟨0⟩, mSrcCrop := ⟨⟨0⟩, ⟨0⟩, ⟨0⟩, ⟨0⟩⟩, mTransform := 0, mZOrder := 0,
    mStackId := 0, mTaskId := 0, mUserId := 0, mIndex := 0, closed := [] }

/-- A constructed layer with id 1 whose flags have been cleared by a present cycle. -/
def sampleLayer : Hwc2Layer := (Hwc2Layer.ctor sampleLayerInit 1).setUnchanged

/-- A display without a session and without layers. -/
def sampleDisplay : Hwc2Display :=
  { mDisplayID := 0, mWidth := 1280, mHeight := 720, mFramerate := 60, mXDpi := 160,
    mYDpi := 160, mVersion := 0, mMode := 0, mConfig := 0, mLayers := [], mLayerIndex := 0,
    mRemoteDisplay := none,
    mFbTarget := { addr := 0, numFds := 0, numInts := 0, data := [] },
    mFbAcquireFenceFd := -1, mFbtBuffers := [],
    mOutputBuffer := { addr := 0, numFds := 0, numInts := 0, data := [] },
    mOutputBufferFenceFd := -1, mTransform := 0, mFrameNum := 0, mColorMode := 0,
    closed := [] }

/-- A display with one layer whose requested composition type is Device. -/
def deviceLayerDisplay : Hwc2Display :=
  { sampleDisplay with
    mLayers := [(0, { Hwc2Layer.ctor sampleLayerInit 0 with mType := Composition.Device })]
    mLayerIndex := 1 }

/-- Whether validate turns a requested composition type into Client. -/
def Composition.fallsBack (t : Composition) : Bool :=
  t == Composition.Device || t == Composition.SolidColor || t == Composition.Cursor ||
    t == Composition.Sideband

/-- A connected channel with a registered status listener on which the next system call
fails. -/
def failingChannel : RemoteDisplay :=
  { sampleChannel with sock := { script := [-1], rx := [], trace := [] } }

/-- A little-endian 32-bit word at byte offset `off` of a buffer; bytes the buffer does not
hold read as 0. -/
def le32 (bytes : List Nat) (off : Nat) : Nat :=
  (bytes.getD off 0) % 256 + (bytes.getD (off + 1) 0) % 256 * 2 ^ 8 +
    (bytes.getD (off + 2) 0) % 256 * 2 ^ 16 + (bytes.getD (off + 3) 0) % 256 * 2 ^ 24

/-- A little-endian 64-bit word at byte offset `off`. -/
def le64 (bytes : List Nat) (off : Nat) : Nat :=
  le32 bytes off + le32 bytes (off + 4) * 2 ^ 32

/-- A 32-bit word read as a signed integer. -/
def asInt32 (w : Nat) : Int :=
  if w < 2 ^ 31 then (w : Int) else (w : Int) - 2 ^ 32

/-- The four bytes of a 32-bit word, little-endian. -/
def bytes32 (w : Nat) : List Nat :=
  [w % 256, w / 2 ^ 8 % 256, w / 2 ^ 16 % 256, w / 2 ^ 24 % 256]

/-- Modelled from the spec: the wire format of section 6 (`display-protocol.h` is not among
the sources), packed little-endian in the order the spec lists the fields, with the header
`{type: int32, size: uint32}` of 8 bytes.  The spec gives no numeric type code and no width
for the two fields of the flags word; the codes and the 16/16 split are sample values. -/
def sampleProtocol : Protocol :=
  { DD_EVENT_DISPINFO_REQ := 0x1000
    DD_EVENT_DISPINFO_ACK := 0x1001
    DD_EVENT_CREATE_BUFFER := 0x1002
    DD_EVENT_REMOVE_BUFFER := 0x1003
    DD_EVENT_DISPLAY_REQ := 0x1004
    DD_EVENT_DISPLAY_ACK := 0x1005
    DD_EVENT_SET_ROTATION := 0x1006
    DD_EVENT_CREATE_LAYER := 0x1007
    DD_EVENT_REMOVE_LAYER := 0x1008
    DD_EVENT_UPDATE_LAYERS := 0x1009
    DD_EVENT_PRESENT_LAYERS_REQ := 0x100a
    DD_EVENT_PRESENT_LAYERS_ACK := 0x100b
    sizeof_display_event_t := 8
    sizeof_display_info_t := 24
    sizeof_buffer_info_t := 8
    sizeof_buffer_info_event_t := 16
    sizeof_native_handle_t := 12
    sizeof_rotation_event_t := 12
    sizeof_create_layer_event_t := 16
    sizeof_remove_layer_event_t := 16
    sizeof_update_layers_event_t := 12
    sizeof_layer_info_t := 80
    sizeof_present_layers_req_event_t := 12
    sizeof_layer_buffer_info_t := 24
    sizeof_present_layers_ack_event_t := 20
    read_display_event_t := fun bs => { type := le32 bs 0, size := le32 bs 4, id := 0 }
    read_display_info_t := fun bs =>
      { width := asInt32 (le32 bs 0), height := asInt32 (le32 bs 4), fps := asInt32 (le32 bs 8),
        xdpi := asInt32 (le32 bs 12), ydpi := asInt32 (le32 bs 16), flags := le32 bs 20 }
    read_buffer_info_t := fun bs => { bufferId := le64 bs 0 }
    read_present_ack_t := fun bs =>
      { flags := le32 bs 0, numLayers := le32 bs 4, releaseFence := asInt32 (le32 bs 8) }
    read_layer_buffer_info_t := fun bs =>
      { layerId := le64 bs 0, bufferId := le64 bs 8, fence := asInt32 (le32 bs 16),
        changed := le32 bs 20 % 2 == 1 }
    flags_version := fun v => v % 2 ^ 16
    flags_mode := fun v => v / 2 ^ 16 % 2 ^ 16 }

/-- A buffer handle with one descriptor-free native handle at address 0x5000. -/
def sampleBuffer : buffer_handle_t := { addr := 0x5000, numFds := 0, numInts := 2, data := [11, 12] }

/-- Whether a system call is a `send` of the `buffer_info_t` part that carries the buffer
id `b` (the part of a CreateBuffer message that names the buffer). -/
def SysCall.namesBuffer (b : Nat) (c : SysCall) : Bool :=
  match c.op with
  | SysOp.send (Payload.buffer_info id) _ => id == b
  | _ => false

/-- The number of `buffer_info_t` parts naming buffer `b` sent so far on the session. -/
def RemoteDisplay.bufferSends (rd : RemoteDisplay) (b : Nat) : Nat :=
  rd.sock.trace.countP (SysCall.namesBuffer b)

/-- The number of layers of the display that have not registered buffer `b`. -/
def Hwc2Display.layersLacking (d : Hwc2Display) (b : Nat) : Nat :=
  d.mLayers.countP (fun e => decide (b ∉ e.2.mBuffers))

/-- A display attached to the session at address 1 in mode 0, with two layers created
after the attachment. -/
def twoLayerDisplay : Hwc2Display :=
  let d0 := (Hwc2Display.attach sampleProtocol sampleDisplay (some 1) sampleSession).2
  let d1 := (Hwc2Display.createLayer sampleProtocol sampleLayerInit d0 sampleSession).2.2.1
  (Hwc2Display.createLayer sampleProtocol sampleLayerInit d1 sampleSession).2.2.1

/-- A well-formed DisplayInfoAck message of the sample protocol: header (type, size 32) and
payload width 1920, height 1080, fps 60, xdpi 160, ydpi 160, flags (version 1, mode 1). -/
def sampleAckMessage : List Nat :=
  bytes32 sampleProtocol.DD_EVENT_DISPINFO_ACK ++ bytes32 32 ++ bytes32 1920 ++ bytes32 1080 ++
    bytes32 60 ++ bytes32 160 ++ bytes32 160 ++ bytes32 (1 + 1 * 2 ^ 16)

/-- A message of the unrecognized type 0x7777 with declared size 16: the 8-byte header and
8 further bytes. -/
def sampleUnknownMessage : List Nat :=
  bytes32 0x7777 ++ bytes32 16 ++ [1, 2, 3, 4, 5, 6, 7, 8]

/-- A connected session whose inbound stream holds an unrecognized message followed by a
well-formed DisplayInfoAck. -/
def unknownThenAckSession : RemoteDisplay :=
  { sampleSession with
    sock := { script := [], rx := sampleUnknownMessage ++ sampleAckMessage, trace := [] } }

/-- A connected session whose inbound stream holds an unrecognized message with declared
size 1108 (the 8-byte header and 1100 further bytes) followed by a well-formed
DisplayInfoAck. -/
def longUnknownSession : RemoteDisplay :=
  { sampleSession with
    sock :=
      { script := [],
        rx := bytes32 0x7777 ++ bytes32 1108 ++ List.replicate 1100 0 ++ sampleAckMessage,
        trace := [] } }

/-- A connected session whose inbound stream holds the DisplayInfoAck alone. -/
def ackOnlySession : RemoteDisplay :=
  { sampleSession with sock := { script := [], rx := sampleAckMessage, trace := [] } }

/-- A session on which the coming writes and allocations all succeed: the channel is
connected, every scripted system call result is positive and every scripted allocation
succeeds. -/
def RemoteDisplay.healthy (rd : RemoteDisplay) : Prop :=
  rd.mDisconnected = false ∧ (∀ r ∈ rd.sock.script, 0 < r) ∧ (∀ a ∈ rd.allocs, a = true)

instance (rd : RemoteDisplay) : Decidable rd.healthy := by
  unfold RemoteDisplay.healthy; infer_instance

/-- The system calls of one UpdateLayers message carrying the records `infos`: the
header-and-count struct, then the record array. -/
def Protocol.updateLayersOps (p : Protocol) (infos : List layer_info_t) : List SysOp :=
  [SysOp.send
    (Payload.update_layers_event p.DD_EVENT_UPDATE_LAYERS
      ((p.sizeof_update_layers_event_t + p.sizeof_layer_info_t * infos.length) % 2 ^ 32)
      infos.length)
    p.sizeof_update_layers_event_t,
   SysOp.send (Payload.layer_infos infos) (p.sizeof_layer_info_t * infos.length)]

/-- The system calls of one PresentLayersRequest message carrying the records `bufs`: the
header-and-count struct, then the record array. -/
def Protocol.presentLayersOps (p : Protocol) (bufs : List layer_buffer_info_t) : List SysOp :=
  [SysOp.send
    (Payload.present_layers_req_event p.DD_EVENT_PRESENT_LAYERS_REQ
      ((p.sizeof_present_layers_req_event_t + p.sizeof_layer_buffer_info_t * bufs.length)
        % 2 ^ 32)
      bufs.length)
    p.sizeof_present_layers_req_event_t,
   SysOp.send (Payload.layer_buffer_infos bufs) (p.sizeof_layer_buffer_info_t * bufs.length)]

/-- The system calls performed so far on the session, without their results. -/
def RemoteDisplay.ops (rd : RemoteDisplay) : List SysOp :=
  rd.sock.trace.map (fun c => c.op)

/-- A display attached in mode 1 with two layers: layer 0 has only its attribute-changed
flag set, layer 1 only its buffer-changed flag. -/
def modeOneDisplay : Hwc2Display :=
  { twoLayerDisplay with
    mMode := 1
    mLayers :=
      [(0, Hwc2Layer.ctor sampleLayerInit 0),
       (1, ((Hwc2Layer.ctor sampleLayerInit 1).setUnchanged.afterSetBuffer sampleProtocol
              sampleSession sampleBuffer (-1)))] }

/-- The layer on which the scan of `Hwc2Display::updateRotation` ends: the first layer that
has a buffer and whose transform equals the cached transform, else the last layer of the
collection; none for an empty collection. -/
def Hwc2Display.scanEnd (mTransform : Nat) : LayerMap → Option (Nat × Hwc2Layer)
  | [] => none
  | e :: rest =>
    if e.2.layerBuffer.bufferId ≠ 0 ∧ (e.2.info.transform % 2 ^ 32).toNat = mTransform then
      some e
    else
      match rest with
      | [] => some e
      | _ :: _ => Hwc2Display.scanEnd mTransform rest

/-- The system call that writes a SetRotation message with rotation code `rot`. -/
def Protocol.setRotationOp (p : Protocol) (rot : Int) : SysOp :=
  SysOp.send
    (Payload.rotation_event p.DD_EVENT_SET_ROTATION (p.sizeof_rotation_event_t % 2 ^ 32) rot)
    p.sizeof_rotation_event_t

/-- A display attached to the session at address 1 in mode 0, with cached transform 0 and
one layer that has a buffer and the transform `t`. -/
def rotationDisplay (t : Int) : Hwc2Display :=
  { twoLayerDisplay with
    mLayers :=
      [(0, (((Hwc2Layer.ctor sampleLayerInit 0).setTransform t).2.afterSetBuffer sampleProtocol
              sampleSession sampleBuffer (-1)))] }

/-- A connected session whose inbound stream holds the payload of the sample
DisplayInfoAck, its header already read. -/
def ackPayloadSession : RemoteDisplay :=
  { sampleSession with sock := { script := [], rx := sampleAckMessage.drop 8, trace := [] } }

/-- A connected session on which the next write fails. -/
def failingWriteSession : RemoteDisplay :=
  { sampleSession with sock := { script := [-1], rx := [], trace := [] } }

/-- A connected session on which the next allocation fails. -/
def failingAllocSession : RemoteDisplay :=
  { sampleSession with allocs := [false] }

/-- A session whose channel is marked disconnected. -/
def disconnectedSession : RemoteDisplay :=
  { sampleSession with mDisconnected := true }

/-- The bytes a system call hands to the transport in band: the length of a `send`.  The
descriptor transfer by `sendmsg`, with its 16-byte sentinel payload, is the out-of-band
transfer of section 6 and counts for nothing here. -/
def SysOp.inBandBytes : SysOp → Nat
  | SysOp.send _ n => n
  | SysOp.recv _ => 0
  | SysOp.sendmsg _ _ => 0

/-- The type and size fields of the common header a payload begins with; none for a payload
that does not begin with a header. -/
def Payload.header : Payload → Option (Nat × Nat)
  | Payload.display_event type size _ => some (type, size)
  | Payload.buffer_info_event type size _ => some (type, size)
  | Payload.rotation_event type size _ => some (type, size)
  | Payload.create_layer_event type size _ => some (type, size)
  | Payload.remove_layer_event type size _ => some (type, size)
  | Payload.update_layers_event type size _ => some (type, size)
  | Payload.present_layers_req_event type size _ => some (type, size)
  | Payload.buffer_info _ => none
  | Payload.native_handle _ => none
  | Payload.layer_infos _ => none
  | Payload.layer_buffer_infos _ => none

/-- Whether the system calls of one message are framed by its header: the first call sends
a payload that begins with a header whose type is `code` and whose size is the number of
in-band bytes of all the calls together. -/
def SysOp.framed (code : Nat) (ops : List SysOp) : Bool :=
  match ops with
  | SysOp.send pl _ :: _ => pl.header == some (code, (ops.map SysOp.inBandBytes).sum)
  | _ => false

/-- Whether the first system call of a message sends a payload that begins with a header
whose type is `code`. -/
def SysOp.typed (code : Nat) (ops : List SysOp) : Bool :=
  match ops with
  | SysOp.send pl _ :: _ => pl.header.map (fun h => h.1) == some code
  | _ => false

/-- The system calls performed on the session between the states `before` and `after`. -/
def RemoteDisplay.opsSince (before after : RemoteDisplay) : List SysOp :=
  after.ops.drop before.ops.length

/-- The fixed-size messages fit the 32-bit size field. -/
def Protocol.sizesFit (p : Protocol) : Prop :=
  p.sizeof_display_event_t < 2 ^ 32 ∧ p.sizeof_buffer_info_event_t < 2 ^ 32 ∧
  p.sizeof_rotation_event_t < 2 ^ 32 ∧ p.sizeof_create_layer_event_t < 2 ^ 32 ∧
  p.sizeof_remove_layer_event_t < 2 ^ 32

instance (p : Protocol) : Decidable p.sizesFit := by
  unfold Protocol.sizesFit; infer_instance

/-- A buffer handle with one descriptor and one integer at address 0x6000. -/
def fdBuffer : buffer_handle_t := { addr := 0x6000, numFds := 1, numInts := 1, data := [9, 42] }

/-- The display info a session holds: width, height, frame rate, x-dpi, y-dpi and the flags
word. -/
def RemoteDisplay.displayInfo (rd : RemoteDisplay) : Int × Int × Int × Int × Int × Nat :=
  (rd.mWidth, rd.mHeight, rd.mFramerate, rd.mXDpi, rd.mYDpi, rd.mDisplayFlags)

/-- A second well-formed DisplayInfoAck message of the sample protocol: 1280 x 720, 30 fps,
240 x 240 dpi, flags (version 1, mode 2). -/
def secondAckMessage : List Nat :=
  bytes32 sampleProtocol.DD_EVENT_DISPINFO_ACK ++ bytes32 32 ++ bytes32 1280 ++ bytes32 720 ++
    bytes32 30 ++ bytes32 240 ++ bytes32 240 ++ bytes32 (1 + 2 * 2 ^ 16)

/-- A well-formed PresentLayersAck message of the sample protocol with no layer record:
flags 0x20001 (version 1, mode 2), zero layers, release fence -1. -/
def samplePresentAckMessage : List Nat :=
  bytes32 sampleProtocol.DD_EVENT_PRESENT_LAYERS_ACK ++ bytes32 20 ++ bytes32 (1 + 2 * 2 ^ 16) ++
    bytes32 0 ++ bytes32 (2 ^ 32 - 1)

/-- A connected session whose inbound stream holds a DisplayInfoAck followed by a second
DisplayInfoAck with other values. -/
def twoAcksSession : RemoteDisplay :=
  { sampleSession with
    sock := { script := [], rx := sampleAckMessage ++ secondAckMessage, trace := [] } }

/-- A connected session whose inbound stream holds a DisplayInfoAck followed by a
PresentLayersAck. -/
def ackThenPresentAckSession : RemoteDisplay :=
  { sampleSession with
    sock := { script := [], rx := sampleAckMessage ++ samplePresentAckMessage, trace := [] } }

/-- Whether a system call writes a DisplayRequest message: the struct `buffer_info_event_t`,
which only `displayBuffer` sends. -/
def SysOp.isDisplayRequest : SysOp → Bool
  | SysOp.send (Payload.buffer_info_event _ _ _) _ => true
  | _ => false

/-- Whether a system call writes a SetRotation message. -/
def SysOp.isSetRotation : SysOp → Bool
  | SysOp.send (Payload.rotation_event _ _ _) _ => true
  | _ => false

/-- Whether a system call writes a part of an UpdateLayers message. -/
def SysOp.isUpdateLayers : SysOp → Bool
  | SysOp.send (Payload.update_layers_event _ _ _) _ => true
  | SysOp.send (Payload.layer_infos _) _ => true
  | _ => false

/-- Whether a system call writes a part of a PresentLayersRequest message. -/
def SysOp.isPresentLayers : SysOp → Bool
  | SysOp.send (Payload.present_layers_req_event _ _ _) _ => true
  | SysOp.send (Payload.layer_buffer_infos _) _ => true
  | _ => false

/-- The system call that writes a DisplayRequest message for the buffer `b`. -/
def Protocol.displayRequestOp (p : Protocol) (b : buffer_handle_t) : SysOp :=
  SysOp.send
    (Payload.buffer_info_event p.DD_EVENT_DISPLAY_REQ (p.sizeof_buffer_info_event_t % 2 ^ 32)
      b.addr)
    p.sizeof_buffer_info_event_t

/-- The rotation code `updateRotation` maps a transform value to. -/
def Hwc2Display.rotationCode (tr : Nat) : Int :=
  if tr = 0 then 0 else if tr = 4 then 1 else if tr = 3 then 2 else 3

/-- A display attached in mode 2 with the client target `sampleBuffer`, cached transform 0
and two layers: layer 0 has no flag set and no buffer; layer 1 has the transform 4, a buffer,
and both flags set. -/
def hybridDisplay : Hwc2Display :=
  { twoLayerDisplay with
    mMode := 2
    mFbTarget := sampleBuffer
    mLayers :=
      [(0, (Hwc2Layer.ctor sampleLayerInit 0).setUnchanged),
       (1, (((Hwc2Layer.ctor sampleLayerInit 1).setTransform 4).2.afterSetBuffer sampleProtocol
              sampleSession fdBuffer (-1)))] }

/-- The session on which `updateLayers` and `presentLayers` start their sends for a batch of
`n` records: after the allocation of the scratch array when the 32-bit count is not 0. -/
def RemoteDisplay.afterAlloc (rd : RemoteDisplay) (n : Nat) : RemoteDisplay :=
  if n % 2 ^ 32 ≠ 0 then rd.malloc.2 else rd

/-- The header-and-count struct `update_layers_event_t` of a batch of `n` records. -/
def Protocol.updateLayersHeader (p : Protocol) (n : Nat) : Payload :=
  Payload.update_layers_event p.DD_EVENT_UPDATE_LAYERS
    ((p.sizeof_update_layers_event_t + p.sizeof_layer_info_t * n) % 2 ^ 32) n

/-- The header-and-count struct `present_layers_req_event_t` of a batch of `n` records. -/
def Protocol.presentLayersHeader (p : Protocol) (n : Nat) : Payload :=
  Payload.present_layers_req_event p.DD_EVENT_PRESENT_LAYERS_REQ
    ((p.sizeof_present_layers_req_event_t + p.sizeof_layer_buffer_info_t * n) % 2 ^ 32) n

/-- The first `_send` of `updateLayers`, of the header-and-count struct. -/
def RemoteDisplay.updateLayersHeaderSend (p : Protocol) (rd : RemoteDisplay)
    (layerInfo : List layer_info_t) : Int × RemoteDisplay :=
  (rd.afterAlloc layerInfo.length)._send
    (some (p.updateLayersHeader (layerInfo.length % 2 ^ 32))) p.sizeof_update_layers_event_t

/-- The second `_send` of `updateLayers`, of the record array, on the session as the first
left it. -/
def RemoteDisplay.updateLayersArraySend (p : Protocol) (rd : RemoteDisplay)
    (layerInfo : List layer_info_t) : Int × RemoteDisplay :=
  (rd.updateLayersHeaderSend p layerInfo).2._send
    (if layerInfo.length % 2 ^ 32 ≠ 0 then
      some (Payload.layer_infos (layerInfo.take (layerInfo.length % 2 ^ 32)))
     else none)
    (p.sizeof_layer_info_t * (layerInfo.length % 2 ^ 32))

/-- The first `_send` of `presentLayers`, of the header-and-count struct. -/
def RemoteDisplay.presentLayersHeaderSend (p : Protocol) (rd : RemoteDisplay)
    (layerBuffer : List layer_buffer_info_t) : Int × RemoteDisplay :=
  (rd.afterAlloc layerBuffer.length)._send
    (some (p.presentLayersHeader (layerBuffer.length % 2 ^ 32)))
    p.sizeof_present_layers_req_event_t

/-- The second `_send` of `presentLayers`, of the record array, on the session as the first
left it. -/
def RemoteDisplay.presentLayersArraySend (p : Protocol) (rd : RemoteDisplay)
    (layerBuffer : List layer_buffer_info_t) : Int × RemoteDisplay :=
  (rd.presentLayersHeaderSend p layerBuffer).2._send
    (if layerBuffer.length % 2 ^ 32 ≠ 0 then
      some (Payload.layer_buffer_infos (layerBuffer.take (layerBuffer.length % 2 ^ 32)))
     else none)
    (p.sizeof_layer_buffer_info_t * (layerBuffer.length % 2 ^ 32))

/-- The system calls performed on the session between the states `before` and `after`, with
their results. -/
def RemoteDisplay.traceSince (before after : RemoteDisplay) : List SysCall :=
  after.sock.trace.drop before.sock.trace.length

/-- The header of a CreateBuffer message for the buffer `b`. -/
def Protocol.createBufferHeader (p : Protocol) (b : buffer_handle_t) : Payload :=
  Payload.display_event p.DD_EVENT_CREATE_BUFFER
    ((p.sizeof_buffer_info_event_t + p.sizeof_native_handle_t +
      (b.numFds + b.numInts) * 4) % 2 ^ 32) 0

/-- The system calls of a complete CreateBuffer message for the buffer `b`: the three
in-band writes (header, buffer id, native handle), then the descriptor transfer when the
buffer has descriptors. -/
def Protocol.createBufferOps (p : Protocol) (b : buffer_handle_t) : List SysOp :=
  [SysOp.send (p.createBufferHeader b) p.sizeof_display_event_t,
   SysOp.send (Payload.buffer_info b.addr) p.sizeof_buffer_info_t,
   SysOp.send (Payload.native_handle b)
    (p.sizeof_native_handle_t + (b.numFds + b.numInts) * 4)] ++
  (if b.numFds > 0 then [SysOp.sendmsg (b.data.take b.numFds) 16] else [])

/-- Whether a system call is a descriptor transfer. -/
def SysOp.isSendmsg : SysOp → Bool
  | SysOp.sendmsg _ _ => true
  | _ => false

/-- A connected session on which the first two writes succeed and the third fails. -/
def thirdWriteFailsSession : RemoteDisplay :=
  { sampleSession with sock := { script := [8, 8, -1], rx := [], trace := [] } }

/-- A call of the host on the layer collection of a display. -/
inductive LayerCall where
  | create
  | destroy (layer : Nat)
  deriving DecidableEq, Repr

/-- Perform a sequence of `createLayer` and `destroyLayer` calls: the ids the `createLayer`
calls returned, in order, and the display and the session afterwards. -/
def Hwc2Display.layerCalls (p : Protocol) (init : Hwc2Layer) :
    Hwc2Display → RemoteDisplay → List LayerCall → List Nat × Hwc2Display × RemoteDisplay
  | d, rd, [] => ([], d, rd)
  | d, rd, LayerCall.create :: cs =>
    let r := Hwc2Display.createLayer p init d rd
    let rs := Hwc2Display.layerCalls p init r.2.2.1 r.2.2.2 cs
    (r.2.1 :: rs.1, rs.2)
  | d, rd, LayerCall.destroy l :: cs =>
    let r := Hwc2Display.destroyLayer p d rd l
    Hwc2Display.layerCalls p init r.2.1 r.2.2 cs

/-- The keys of the layer collection, in iteration order. -/
def Hwc2Display.layerIds (d : Hwc2Display) : List Nat := d.mLayers.map Prod.fst

/-- Every key of the layer collection is below the layer counter, as it is on a display
whose collection is empty. -/
def Hwc2Display.idsBelowCounter (d : Hwc2Display) : Prop :=
  ∀ k ∈ d.layerIds, k < d.mLayerIndex

instance (d : Hwc2Display) : Decidable d.idsBelowCounter := by
  unfold Hwc2Display.idsBelowCounter; infer_instance

/-- A connected session whose inbound stream holds the header of a DisplayInfoAck and
nothing after it. -/
def headerOnlySession : RemoteDisplay :=
  { sampleSession with sock := { script := [], rx := sampleAckMessage.take 8, trace := [] } }

/-- The three inbound message codes the event loop knows are pairwise different. -/
def Protocol.acksDistinct (p : Protocol) : Prop :=
  p.DD_EVENT_DISPINFO_ACK ≠ p.DD_EVENT_DISPLAY_ACK ∧
  p.DD_EVENT_DISPINFO_ACK ≠ p.DD_EVENT_PRESENT_LAYERS_ACK ∧
  p.DD_EVENT_DISPLAY_ACK ≠ p.DD_EVENT_PRESENT_LAYERS_ACK

instance (p : Protocol) : Decidable p.acksDistinct := by
  unfold Protocol.acksDistinct; infer_instance

/-- The session that has received the sample DisplayInfoAck: connected, with the flags
(version 1, mode 1). -/
def modeOneSession : RemoteDisplay := (ackOnlySession.onDisplayEvent sampleProtocol).2

/-- The display and the session after `createLayer` on the sample display, `attach` of the
mode-one session and `setBuffer(sampleBuffer)` on the layer: the layer was created before the
session was attached.  The handle is not null, so `setBuffer` returns. -/
def lateAttachRun : Hwc2Display × RemoteDisplay :=
  let c := Hwc2Display.createLayer sampleProtocol sampleLayerInit sampleDisplay modeOneSession
  let d1 := (Hwc2Display.attach sampleProtocol c.2.2.1 (some 1) c.2.2.2).2
  (Hwc2Display.layerSetBuffer sampleProtocol d1 c.2.2.2 c.2.1 sampleBuffer (-1)).getD
    (d1, c.2.2.2)

/-- The same calls with the attachment first: `attach`, `createLayer`, `setBuffer`. -/
def earlyAttachRun : Hwc2Display × RemoteDisplay :=
  let d1 := (Hwc2Display.attach sampleProtocol sampleDisplay (some 1) modeOneSession).2
  let c := Hwc2Display.createLayer sampleProtocol sampleLayerInit d1 modeOneSession
  (Hwc2Display.layerSetBuffer sampleProtocol c.2.2.1 c.2.2.2 c.2.1 sampleBuffer (-1)).getD
    (c.2.2.1, c.2.2.2)

/-- A layer bound to the session at address 1 that was given `sampleBuffer` with the acquire
fence 5. -/
def fencedLayer : Hwc2Layer :=
  (((Hwc2Layer.ctor sampleLayerInit 0).setRemoteDisplay (some 1)).afterSetBuffer sampleProtocol
    sampleSession sampleBuffer 5)

/-- A display attached in mode 1 whose one layer was given `sampleBuffer` with the acquire
fence 5 and then the same buffer again with the acquire fence 9. -/
def refencedDisplay : Hwc2Display :=
  { twoLayerDisplay with
    mMode := 1
    mLayers := [(0, (fencedLayer.afterSetBuffer sampleProtocol sampleSession sampleBuffer 9))] }

/-- Code of `HWC2::Attribute::Width` in the host header `hwcomposer2.h`. -/
def Attribute.Width : Int := 1

/-- Code of `HWC2::Attribute::Height`. -/
def Attribute.Height : Int := 2

/-- Code of `HWC2::Attribute::VsyncPeriod`. -/
def Attribute.VsyncPeriod : Int := 3

/-- Code of `HWC2::Attribute::DpiX`. -/
def Attribute.DpiX : Int := 4

/-- Code of `HWC2::Attribute::DpiY`. -/
def Attribute.DpiY : Int := 5

/-- The C++ quotient `a / b` of two `int` values, truncating toward zero; none when the
divisor is 0 or the quotient is outside the range of `int`, where the behaviour is
undefined. -/
def intDiv (a b : Int) : Option Int :=
  if b = 0 then none
  else if a.tdiv b < -(2 ^ 31) ∨ 2 ^ 31 ≤ a.tdiv b then none
  else some (a.tdiv b)

/-- The C++ product `a * b` of two `int` values; none when it is outside the range of
`int`, where the behaviour is undefined. -/
def intMul (a b : Int) : Option Int :=
  if a * b < -(2 ^ 31) ∨ 2 ^ 31 ≤ a * b then none else some (a * b)

/-- The method `Hwc2Display::getAttribute(config, attribute, value)`, with `attr` the
attribute code: the result and the value stored in `*value`, if one is stored;
`value = false` is a null pointer.  The outcome is none when the behaviour of the call is
undefined. -/
def Hwc2Display.getAttribute (d : Hwc2Display) (config : Nat) (attr : Int) (value : Bool) :
    Option (Error × Option Int) :=
  if config ≠ d.mConfig ∨ !value then some (Error.BadConfig, none)
  else if attr = Attribute.Width then some (Error.None, some d.mWidth)
  else if attr = Attribute.Height then some (Error.None, some d.mHeight)
  else if attr = Attribute.VsyncPeriod then
    (intDiv (1000 * 1000 * 1000) d.mFramerate).map (fun v => (Error.None, some v))
  else if attr = Attribute.DpiX then
    (intMul d.mXDpi 1000).map (fun v => (Error.None, some v))
  else if attr = Attribute.DpiY then
    (intMul d.mYDpi 1000).map (fun v => (Error.None, some v))
  else some (Error.BadConfig, some (-1))

/-- The method `Hwc2Display::getVsyncPeriod(period)` for a non-null `period`: the result and
the 32-bit unsigned value stored in `*period`; none when the behaviour of the call is
undefined. -/
def Hwc2Display.getVsyncPeriod (d : Hwc2Display) : Option (Error × Nat) :=
  (intDiv (1000 * 1000 * 1000) d.mFramerate).map
    (fun v => (Error.None, (v % 2 ^ 32).toNat))

/-- A DisplayInfoAck message of the sample protocol that reports a frame rate of 0:
1920 x 1080, fps 0, 160 x 160 dpi, flags (version 1, mode 1). -/
def zeroFpsAckMessage : List Nat :=
  bytes32 sampleProtocol.DD_EVENT_DISPINFO_ACK ++ bytes32 32 ++ bytes32 1920 ++ bytes32 1080 ++
    bytes32 0 ++ bytes32 160 ++ bytes32 160 ++ bytes32 (1 + 1 * 2 ^ 16)

/-- A connected session whose inbound stream holds the DisplayInfoAck with frame rate 0. -/
def zeroFpsSession : RemoteDisplay :=
  { sampleSession with sock := { script := [], rx := zeroFpsAckMessage, trace := [] } }

/-- The sample display after the session has read the DisplayInfoAck with frame rate 0 and
has been attached. -/
def zeroFpsDisplay : Hwc2Display :=
  (Hwc2Display.attach sampleProtocol sampleDisplay (some 1)
    (zeroFpsSession.onDisplayEvent sampleProtocol).2).2

/-- The struct `ev` of `onDisplayEvent` as it stands after the read of the header: the bytes
received, followed by what `ev` held before. -/
def RemoteDisplay.headerRead (p : Protocol) (rd : RemoteDisplay) : display_event_t :=
  p.read_display_event_t
    (bufferAfter (rd._recv true p.sizeof_display_event_t).2.2.declare.1
      p.sizeof_display_event_t (rd._recv true p.sizeof_display_event_t).2.1)

/-- The session on which `onDisplayEvent` dispatches: the one the read of the header
left. -/
def RemoteDisplay.afterHeader (p : Protocol) (rd : RemoteDisplay) : RemoteDisplay :=
  (rd._recv true p.sizeof_display_event_t).2.2.declare.2

/-- The struct `info` of `onDisplayInfoAck` as it stands after the read of the payload. -/
def RemoteDisplay.infoRead (p : Protocol) (rd : RemoteDisplay) : display_info_t :=
  p.read_display_info_t
    (bufferAfter (rd._recv true p.sizeof_display_info_t).2.2.declare.1
      p.sizeof_display_info_t (rd._recv true p.sizeof_display_info_t).2.1)

/-- The members of `ack` that follow its header, as they stand after the first read of
`onPresentLayersAck`. -/
def RemoteDisplay.ackRead (p : Protocol) (rd : RemoteDisplay) : present_ack_t :=
  p.read_present_ack_t
    (bufferAfter
      (rd._recv true
        (p.sizeof_present_layers_ack_event_t - p.sizeof_display_event_t)).2.2.declare.1
      (p.sizeof_present_layers_ack_event_t - p.sizeof_display_event_t)
      (rd._recv true (p.sizeof_present_layers_ack_event_t - p.sizeof_display_event_t)).2.1)

/-- A connected session whose inbound stream holds the header of a DisplayInfoAck and only
the first four bytes of its payload (the width 1920), and on which the next local variable
declared without an initialiser holds the byte 7 throughout. -/
def shortAckSession : RemoteDisplay :=
  { sampleSession with
    sock := { script := [], rx := sampleAckMessage.take 12, trace := [] }
    uninit := [List.replicate 8 7, List.replicate 24 7] }

/-- The null handle. -/
def nullBuffer : buffer_handle_t := { addr := 0, numFds := 0, numInts := 0, data := [] }

/-- A batch of 2 ^ 26 layer records, all zero. -/
def largeBatch : List layer_info_t := List.replicate (2 ^ 26) layer_info_t.zero

/-! # Theorems -/

/-! ## Lemmas on the transport channel -/

theorem Socket.send_trace (s : Socket) (b : Payload) (n : Nat) :
    (s.send b n).2.trace = s.trace ++ [⟨SysOp.send b n, (s.send b n).1⟩] := by
  unfold Socket.send; cases s.script <;> rfl

theorem Socket.sendmsg_trace (s : Socket) (fds : List Int) (n : Nat) :
    (s.sendmsg fds n).2.trace = s.trace ++ [⟨SysOp.sendmsg fds n, (s.sendmsg fds n).1⟩] := by
  unfold Socket.sendmsg; cases s.script <;> rfl

theorem Socket.recv_trace (s : Socket) (n : Nat) :
    (s.recv n).2.2.trace = s.trace ++ [⟨SysOp.recv n, (s.recv n).1⟩] := by
  unfold Socket.recv
  cases s.script with
  | nil => rfl
  | cons r rest => by_cases h : r ≤ 0 <;> simp [h]

/-- What one channel call can do: nothing at all, one successful system call, or one failed
system call followed by the disconnect. -/
theorem RemoteDisplay.call_cases (rd : RemoteDisplay) (c : ChannelCall) :
    (rd.call c).2 = rd ∨
    (∃ sc : SysCall, 0 < sc.ret ∧ rd.mDisconnected = false ∧
      (rd.call c).2 = { rd with sock := (rd.call c).2.sock } ∧
      (rd.call c).2.sock.trace = rd.sock.trace ++ [sc]) ∨
    (∃ sc : SysCall, sc.ret ≤ 0 ∧ rd.mDisconnected = false ∧ (rd.call c).1 = -1 ∧
      (rd.call c).2 = rd.disconnect (rd.call c).2.sock ∧
      (rd.call c).2.sock.trace = rd.sock.trace ++ [sc]) := by
  cases c with
  | send buf n =>
    simp only [RemoteDisplay.call, RemoteDisplay._send]
    by_cases hd : rd.mDisconnected = true
    · simp [hd]
    · cases buf with
      | none => simp [hd]
      | some b =>
        by_cases hn : n = 0
        · simp [hd, hn]
        · by_cases hr : (rd.sock.send b n).1 ≤ 0
          · right; right
            refine ⟨⟨SysOp.send b n, (rd.sock.send b n).1⟩, hr, by simpa using hd, ?_⟩
            simp [hd, hn, hr, RemoteDisplay.disconnect, Socket.send_trace]
          · right; left
            refine ⟨⟨SysOp.send b n, (rd.sock.send b n).1⟩, by simpa using hr, by simpa using hd, ?_⟩
            simp [hd, hn, hr, Socket.send_trace]
  | recv buf n =>
    simp only [RemoteDisplay.call, RemoteDisplay._recv]
    by_cases hd : rd.mDisconnected = true
    · simp [hd]
    · by_cases hb : (!buf || n == 0) = true
      · simp [hd, hb]
      · by_cases hr : (rd.sock.recv n).1 ≤ 0
        · right; right
          refine ⟨⟨SysOp.recv n, (rd.sock.recv n).1⟩, hr, by simpa using hd, ?_⟩
          simp [hd, hb, hr, RemoteDisplay.disconnect, Socket.recv_trace]
        · right; left
          refine ⟨⟨SysOp.recv n, (rd.sock.recv n).1⟩, by simpa using hr, by simpa using hd, ?_⟩
          simp [hd, hb, hr, Socket.recv_trace]
  | sendFds fds =>
    simp only [RemoteDisplay.call, RemoteDisplay._sendFds]
    by_cases hd : rd.mDisconnected = true
    · simp [hd]
    · by_cases hr : (rd.sock.sendmsg fds 16).1 ≤ 0
      · right; right
        refine ⟨⟨SysOp.sendmsg fds 16, (rd.sock.sendmsg fds 16).1⟩, hr, by simpa using hd, ?_⟩
        simp [hd, hr, RemoteDisplay.disconnect, Socket.sendmsg_trace]
      · right; left
        refine ⟨⟨SysOp.sendmsg fds 16, (rd.sock.sendmsg fds 16).1⟩, by simpa using hr,
          by simpa using hd, ?_⟩
        simp [hd, hr, Socket.sendmsg_trace]

theorem RemoteDisplay.call_disconnected (rd : RemoteDisplay) (c : ChannelCall)
    (h : rd.mDisconnected = true) : rd.call c = (-1, rd) := by
  cases c <;> simp [RemoteDisplay.call, RemoteDisplay._send, RemoteDisplay._recv,
    RemoteDisplay._sendFds, h]

theorem RemoteDisplay.calls_run_disconnected (rd : RemoteDisplay) (cs : List ChannelCall)
    (h : rd.mDisconnected = true) :
    rd.calls_run cs = (List.replicate cs.length (-1), rd) := by
  induction cs with
  | nil => rfl
  | cons c cs ih =>
    simp [RemoteDisplay.calls_run, RemoteDisplay.call_disconnected rd c h, ih,
      List.replicate_succ]

theorem RemoteDisplay.calls_run_append (rd : RemoteDisplay) (xs ys : List ChannelCall) :
    rd.calls_run (xs ++ ys) =
      ((rd.calls_run xs).1 ++ ((rd.calls_run xs).2.calls_run ys).1,
        ((rd.calls_run xs).2.calls_run ys).2) := by
  induction xs generalizing rd with
  | nil => rfl
  | cons c cs ih => simp [RemoteDisplay.calls_run, ih]

/-- While the channel is still connected after a run of calls, no listener was called during
the run; the listener and the descriptor never change. -/
theorem RemoteDisplay.calls_run_connected (rd : RemoteDisplay) (cs : List ChannelCall) :
    (rd.calls_run cs).2.mStatusListener = rd.mStatusListener ∧
    (rd.calls_run cs).2.mSocketFd = rd.mSocketFd ∧
    ((rd.calls_run cs).2.mDisconnected = false → (rd.calls_run cs).2.calls = rd.calls) := by
  induction cs generalizing rd with
  | nil => simp [RemoteDisplay.calls_run]
  | cons c cs ih =>
    simp only [RemoteDisplay.calls_run]
    rcases RemoteDisplay.call_cases rd c with h | ⟨sc, _, _, h, _⟩ | ⟨sc, _, _, _, h, _⟩
    · rw [h]; exact ih rd
    · have := ih (rd.call c).2
      rw [h] at this ⊢
      simpa using this
    · have hd : (rd.call c).2.mDisconnected = true := by rw [h]; rfl
      rw [RemoteDisplay.calls_run_disconnected _ cs hd]
      rw [h]
      simp [RemoteDisplay.disconnect]

/-- C1. Once a system call of the channel (send, recv or sendmsg) has returned a result
that is not positive, the call that made it returns -1, every later `_send`, `_recv` and
`_sendFds` call returns -1 without making a system call, and over the whole sequence the
listener call log gains exactly one `onDisconnect` when a status listener is registered
(and nothing otherwise). -/
theorem channel_failure_is_permanent (rd : RemoteDisplay) (pre post : List ChannelCall)
    (c : ChannelCall) (sc : SysCall)
    (hsys : ((rd.calls_run pre).2.call c).2.sock.trace =
      (rd.calls_run pre).2.sock.trace ++ [sc])
    (hfail : sc.ret ≤ 0) :
    ((rd.calls_run pre).2.call c).1 = -1 ∧
    (((rd.calls_run pre).2.call c).2.calls_run post).1 = List.replicate post.length (-1) ∧
    (((rd.calls_run pre).2.call c).2.calls_run post).2.sock.trace =
      ((rd.calls_run pre).2.call c).2.sock.trace ∧
    (rd.calls_run (pre ++ c :: post)).2.calls =
      rd.calls ++ (if rd.mStatusListener then [Callback.onDisconnect rd.mSocketFd] else []) := by
  obtain ⟨hl, hfd, hc⟩ := RemoteDisplay.calls_run_connected rd pre
  rcases RemoteDisplay.call_cases (rd.calls_run pre).2 c with h | ⟨sc1, h1, _, _, h2⟩ |
      ⟨sc1, _, hconn, hret, h, _⟩
  · rw [h] at hsys
    simp at hsys
  · rw [h2] at hsys
    have : sc1 = sc := by simpa using hsys
    subst this
    omega
  · have hd : ((rd.calls_run pre).2.call c).2.mDisconnected = true := by rw [h]; rfl
    refine ⟨hret, ?_, ?_, ?_⟩
    · rw [RemoteDisplay.calls_run_disconnected _ post hd]
    · rw [RemoteDisplay.calls_run_disconnected _ post hd]
    · rw [RemoteDisplay.calls_run_append]
      simp only [RemoteDisplay.calls_run]
      rw [RemoteDisplay.calls_run_disconnected _ post hd]
      simp only
      rw [h]
      simp only [RemoteDisplay.disconnect, hl, hfd, hc hconn]
      split <;> simp

theorem channel_failure_is_permanent_witness :
    ((sampleChannel.calls_run [ChannelCall.send (some (Payload.buffer_info 5)) 8]).2.call
        (ChannelCall.send (some (Payload.buffer_info 6)) 8)).1 = -1 ∧
    (((sampleChannel.calls_run [ChannelCall.send (some (Payload.buffer_info 5)) 8]).2.call
        (ChannelCall.send (some (Payload.buffer_info 6)) 8)).2.calls_run
          [ChannelCall.recv true 4, ChannelCall.sendFds [3]]).1 = List.replicate 2 (-1) ∧
    (((sampleChannel.calls_run [ChannelCall.send (some (Payload.buffer_info 5)) 8]).2.call
        (ChannelCall.send (some (Payload.buffer_info 6)) 8)).2.calls_run
          [ChannelCall.recv true 4, ChannelCall.sendFds [3]]).2.sock.trace =
      ((sampleChannel.calls_run [ChannelCall.send (some (Payload.buffer_info 5)) 8]).2.call
        (ChannelCall.send (some (Payload.buffer_info 6)) 8)).2.sock.trace ∧
    (sampleChannel.calls_run ([ChannelCall.send (some (Payload.buffer_info 5)) 8] ++
        ChannelCall.send (some (Payload.buffer_info 6)) 8 ::
          [ChannelCall.recv true 4, ChannelCall.sendFds [3]])).2.calls =
      sampleChannel.calls ++
        (if sampleChannel.mStatusListener then [Callback.onDisconnect sampleChannel.mSocketFd]
         else []) :=
  channel_failure_is_permanent sampleChannel
    [ChannelCall.send (some (Payload.buffer_info 5)) 8]
    [ChannelCall.recv true 4, ChannelCall.sendFds [3]]
    (ChannelCall.send (some (Payload.buffer_info 6)) 8)
    ⟨SysOp.send (Payload.buffer_info 6) 8, 0⟩ (by decide) (by decide)

/-- C2, as the code has it. On a connected channel, for a non-null payload of `n > 0`
bytes: when the underlying write returns a result that is not positive, `_send` marks the
channel disconnected, calls `onDisconnect` when a status listener is registered and returns
-1; when the write returns any positive result, a short write included, `_send` returns 0,
leaves the channel connected and calls no listener. -/
theorem send_outcome (rd : RemoteDisplay) (b : Payload) (n : Nat)
    (hconn : rd.mDisconnected = false) (hn : 0 < n) :
    ((rd.sock.send b n).1 ≤ 0 →
      (rd._send (some b) n).1 = -1 ∧ (rd._send (some b) n).2.mDisconnected = true ∧
      (rd._send (some b) n).2.calls =
        rd.calls ++ (if rd.mStatusListener then [Callback.onDisconnect rd.mSocketFd] else [])) ∧
    (0 < (rd.sock.send b n).1 →
      (rd._send (some b) n).1 = 0 ∧ (rd._send (some b) n).2.mDisconnected = false ∧
      (rd._send (some b) n).2.calls = rd.calls) := by
  have hn0 : n ≠ 0 := by omega
  constructor
  · intro h
    cases hl : rd.mStatusListener <;>
      simp [RemoteDisplay._send, hconn, hn0, h, RemoteDisplay.disconnect, hl]
  · intro h
    have h2 : ¬ (rd.sock.send b n).1 ≤ 0 := by omega
    simp [RemoteDisplay._send, hconn, hn0, h2]

theorem send_outcome_witness :
    (failingChannel._send (some (Payload.buffer_info 5)) 8).1 = -1 ∧
    (failingChannel._send (some (Payload.buffer_info 5)) 8).2.mDisconnected = true ∧
    (failingChannel._send (some (Payload.buffer_info 5)) 8).2.calls =
      failingChannel.calls ++
        (if failingChannel.mStatusListener then [Callback.onDisconnect failingChannel.mSocketFd]
         else []) :=
  (send_outcome failingChannel (Payload.buffer_info 5) 8 (by decide) (by decide)).1 (by decide)

/-- C2 fails for a short write: on a connected channel with a status listener, a write
that transfers 4 of the 10 bytes makes `_send` return 0, the channel stays connected and
the listener is not called. -/
theorem send_short_write_succeeds :
    shortWriteChannel.mDisconnected = false ∧ shortWriteChannel.mStatusListener = true ∧
    (shortWriteChannel._send (some (Payload.buffer_info 5)) 10).2.sock.trace =
      [⟨SysOp.send (Payload.buffer_info 5) 10, 4⟩] ∧
    (shortWriteChannel._send (some (Payload.buffer_info 5)) 10).1 = 0 ∧
    (shortWriteChannel._send (some (Payload.buffer_info 5)) 10).2.mDisconnected = false ∧
    (shortWriteChannel._send (some (Payload.buffer_info 5)) 10).2.calls = [] := by
  decide

/-! ## Layer setters -/

/-- C3 fails on `setZOrder`: on a layer whose changed flag is clear, `setZOrder 5` changes
the stored z-order and its wire mirror from 0 to 5 and leaves the changed flag clear; for
every layer and every order `setZOrder` leaves the flag as it was. -/
theorem setZOrder_never_marks_changed :
    sampleLayer.changed = false ∧ sampleLayer.mZOrder = 0 ∧
    (sampleLayer.apply (Setter.setZOrder 5)).mZOrder = 5 ∧
    (sampleLayer.apply (Setter.setZOrder 5)).mInfo.z = 5 ∧
    (sampleLayer.apply (Setter.setZOrder 5)).stored ≠ sampleLayer.stored ∧
    (sampleLayer.apply (Setter.setZOrder 5)).changed = false ∧
    (∀ (l : Hwc2Layer) (order : Nat), (l.setZOrder order).2.changed = l.changed) := by
  refine ⟨by decide, by decide, by decide, by decide, by decide, by decide, ?_⟩
  intro l order
  rfl

/-- C4. Each integer-valued setter is idempotent on the whole layer state: applying it
with the same value a second time changes nothing (stored value, wire mirror, changed
flag); and applying it with the value the layer already stores leaves the layer as it is,
so a clear changed flag stays clear. -/
theorem integer_setters_idempotent (l : Hwc2Layer) :
    (∀ mode, ((l.setBlendMode mode).2.setBlendMode mode).2 = (l.setBlendMode mode).2) ∧
    (∀ color, ((l.setColor color).2.setColor color).2 = (l.setColor color).2) ∧
    (∀ frame, ((l.setDisplayFrame frame).2.setDisplayFrame frame).2 =
      (l.setDisplayFrame frame).2) ∧
    (∀ transform, ((l.setTransform transform).2.setTransform transform).2 =
      (l.setTransform transform).2) ∧
    (∀ order, ((l.setZOrder order).2.setZOrder order).2 = (l.setZOrder order).2) ∧
    (l.setBlendMode l.mInfo.blendMode).2 = l ∧
    (l.setColor l.mColor).2 = l ∧
    (l.setDisplayFrame l.mDstFrame).2 = l ∧
    (l.setTransform l.mTransform).2 = l ∧
    (l.setZOrder l.mZOrder).2.changed = l.changed ∧
    (l.setZOrder l.mZOrder).2.stored = l.stored := by
  refine ⟨?_, ?_, ?_, ?_, ?_, ?_, ?_, ?_, ?_, ?_, ?_⟩
  · intro mode
    by_cases h : l.mInfo.blendMode = mode <;> simp [Hwc2Layer.setBlendMode, h]
  · intro color
    by_cases h : l.mColor.r ≠ color.r ∨ l.mColor.g ≠ color.g ∨ l.mColor.b ≠ color.b ∨
        l.mColor.a ≠ color.a
    · simp [Hwc2Layer.setColor, h]
    · simp [Hwc2Layer.setColor, h]
  · intro frame
    by_cases h : l.mDstFrame.left ≠ frame.left ∨ l.mDstFrame.top ≠ frame.top ∨
        l.mDstFrame.right ≠ frame.right ∨ l.mDstFrame.bottom ≠ frame.bottom
    · simp [Hwc2Layer.setDisplayFrame, h]
    · simp [Hwc2Layer.setDisplayFrame, h]
  · intro transform
    by_cases h : l.mTransform = transform <;> simp [Hwc2Layer.setTransform, h]
  · intro order
    rfl
  · simp [Hwc2Layer.setBlendMode]
  · simp [Hwc2Layer.setColor]
  · simp [Hwc2Layer.setDisplayFrame]
  · simp [Hwc2Layer.setTransform]
  · rfl
  · rfl

/-! ## Buffer registration -/

/-- C5 fails across layers: on a display with two layers bound to one session, assigning
the same buffer to both layers sends two CreateBuffer messages for it. -/
theorem setBuffer_registers_once_per_layer_only :
    (twoLayerDisplay.mLayers.map (fun e => (e.1, e.2.mRemoteDisplay))) = [(0, some 1), (1, some 1)] ∧
    ((Hwc2Display.layerSetBuffers sampleProtocol twoLayerDisplay sampleSession
        [(0, sampleBuffer, -1), (1, sampleBuffer, -1)]).map
          (fun s => s.2.sock.trace.map (fun c => c.op))) =
      some [SysOp.send (Payload.display_event sampleProtocol.DD_EVENT_CREATE_BUFFER 36 0) 8,
       SysOp.send (Payload.buffer_info sampleBuffer.addr) 8,
       SysOp.send (Payload.native_handle sampleBuffer) 20,
       SysOp.send (Payload.display_event sampleProtocol.DD_EVENT_CREATE_BUFFER 36 0) 8,
       SysOp.send (Payload.buffer_info sampleBuffer.addr) 8,
       SysOp.send (Payload.native_handle sampleBuffer) 20] ∧
    (Hwc2Display.layerSetBuffers sampleProtocol twoLayerDisplay sampleSession
        [(0, sampleBuffer, -1), (1, sampleBuffer, -1)]).map
          (fun s => s.2.bufferSends sampleBuffer.addr) = some 2 := by
  decide

theorem RemoteDisplay._send_trace (rd : RemoteDisplay) (buf : Option Payload) (n : Nat) :
    (rd._send buf n).2.sock.trace = rd.sock.trace ∨
    ∃ b r, buf = some b ∧ (rd._send buf n).2.sock.trace = rd.sock.trace ++ [⟨SysOp.send b n, r⟩] := by
  unfold RemoteDisplay._send
  by_cases hd : rd.mDisconnected = true
  · simp [hd]
  · cases buf with
    | none => simp [hd]
    | some b =>
      by_cases hn : n = 0
      · simp [hd, hn]
      · right
        refine ⟨b, (rd.sock.send b n).1, rfl, ?_⟩
        by_cases hr : (rd.sock.send b n).1 ≤ 0 <;>
          simp [hd, hn, hr, RemoteDisplay.disconnect, Socket.send_trace]

theorem RemoteDisplay._sendFds_trace (rd : RemoteDisplay) (fds : List Int) :
    (rd._sendFds fds).2.sock.trace = rd.sock.trace ∨
    ∃ r, (rd._sendFds fds).2.sock.trace = rd.sock.trace ++ [⟨SysOp.sendmsg fds 16, r⟩] := by
  unfold RemoteDisplay._sendFds
  by_cases hd : rd.mDisconnected = true
  · simp [hd]
  · right
    refine ⟨(rd.sock.sendmsg fds 16).1, ?_⟩
    by_cases hr : (rd.sock.sendmsg fds 16).1 ≤ 0 <;>
      simp [hd, hr, RemoteDisplay.disconnect, Socket.sendmsg_trace]

theorem RemoteDisplay._send_bufferSends_le (rd : RemoteDisplay) (buf : Option Payload) (n b : Nat) :
    (rd._send buf n).2.bufferSends b ≤ rd.bufferSends b + 1 := by
  unfold RemoteDisplay.bufferSends
  rcases RemoteDisplay._send_trace rd buf n with h | ⟨x, r, _, h⟩
  · rw [h]; omega
  · rw [h, List.countP_append]
    have : List.countP (SysCall.namesBuffer b) [(⟨SysOp.send x n, r⟩ : SysCall)] ≤ 1 :=
      List.countP_le_length _
    omega

theorem RemoteDisplay._send_bufferSends_eq (rd : RemoteDisplay) (buf : Option Payload) (n b : Nat)
    (h : buf ≠ some (Payload.buffer_info b)) :
    (rd._send buf n).2.bufferSends b = rd.bufferSends b := by
  unfold RemoteDisplay.bufferSends
  rcases RemoteDisplay._send_trace rd buf n with h1 | ⟨x, r, hx, h1⟩
  · rw [h1]
  · rw [h1, List.countP_append]
    subst hx
    have : SysCall.namesBuffer b ⟨SysOp.send x n, r⟩ = false := by
      cases x <;> simp [SysCall.namesBuffer]
      rename_i id
      intro hid
      exact h (by rw [hid])
    simp [this]

theorem RemoteDisplay._sendFds_bufferSends (rd : RemoteDisplay) (fds : List Int) (b : Nat) :
    (rd._sendFds fds).2.bufferSends b = rd.bufferSends b := by
  unfold RemoteDisplay.bufferSends
  rcases RemoteDisplay._sendFds_trace rd fds with h | ⟨r, h⟩
  · rw [h]
  · rw [h, List.countP_append]
    simp [SysCall.namesBuffer]

/-- The statements of `createBuffer` send at most one part naming the buffer they are run
for, and none naming another buffer. -/
theorem RemoteDisplay.createBufferSends_bufferSends (p : Protocol) (rd : RemoteDisplay)
    (x : buffer_handle_t) (b : Nat) :
    (rd.createBufferSends p x).2.bufferSends b ≤ rd.bufferSends b + (if x.addr = b then 1 else 0) := by
  have e1 := RemoteDisplay._send_bufferSends_eq rd
    (some (Payload.display_event p.DD_EVENT_CREATE_BUFFER
      ((p.sizeof_buffer_info_event_t + p.sizeof_native_handle_t +
        (x.numFds + x.numInts) * 4) % 2 ^ 32) 0))
    p.sizeof_display_event_t b (by simp)
  generalize hr1 : rd._send
    (some (Payload.display_event p.DD_EVENT_CREATE_BUFFER
      ((p.sizeof_buffer_info_event_t + p.sizeof_native_handle_t +
        (x.numFds + x.numInts) * 4) % 2 ^ 32) 0))
    p.sizeof_display_event_t = r1 at e1
  have e2 : (r1.2._send (some (Payload.buffer_info x.addr)) p.sizeof_buffer_info_t).2.bufferSends b
      ≤ r1.2.bufferSends b + (if x.addr = b then 1 else 0) := by
    by_cases hx : x.addr = b
    · simp only [hx, if_true]
      exact RemoteDisplay._send_bufferSends_le _ _ _ _
    · simp only [hx, if_false, Nat.add_zero]
      exact le_of_eq (RemoteDisplay._send_bufferSends_eq _ _ _ _ (by simpa using hx))
  generalize hr2 : r1.2._send (some (Payload.buffer_info x.addr)) p.sizeof_buffer_info_t = r2 at e2
  have e3 := RemoteDisplay._send_bufferSends_eq r2.2
    (some (Payload.native_handle x))
    (p.sizeof_native_handle_t + (x.numFds + x.numInts) * 4) b (by simp)
  generalize hr3 : r2.2._send (some (Payload.native_handle x))
    (p.sizeof_native_handle_t + (x.numFds + x.numInts) * 4) = r3 at e3
  have e4 := RemoteDisplay._sendFds_bufferSends r3.2 (x.data.take x.numFds) b
  simp only [RemoteDisplay.createBufferSends, hr1, hr2, hr3]
  generalize (if x.addr = b then 1 else 0) = c at e2 ⊢
  split_ifs <;> dsimp only <;> omega

theorem RemoteDisplay.createBuffer_some (p : Protocol) (rd : RemoteDisplay)
    (b : buffer_handle_t) (hb : b.addr ≠ 0) :
    rd.createBuffer p b = some (rd.createBufferSends p b) := by
  simp [RemoteDisplay.createBuffer, hb]

theorem RemoteDisplay.createBuffer_none (p : Protocol) (rd : RemoteDisplay)
    (b : buffer_handle_t) (hb : b.addr = 0) : rd.createBuffer p b = none := by
  simp [RemoteDisplay.createBuffer, hb]

/-- One `createBuffer` call that returns sends at most one part naming the buffer it is
called for, and none naming another buffer. -/
theorem RemoteDisplay.createBuffer_bufferSends (p : Protocol) (rd : RemoteDisplay)
    (x : buffer_handle_t) (b : Nat) (r : Int × RemoteDisplay)
    (h : rd.createBuffer p x = some r) :
    r.2.bufferSends b ≤ rd.bufferSends b + (if x.addr = b then 1 else 0) := by
  by_cases hx : x.addr = 0
  · rw [RemoteDisplay.createBuffer_none p rd x hx] at h
    exact absurd h (by simp)
  · rw [RemoteDisplay.createBuffer_some p rd x hx] at h
    rw [← Option.some.inj h]
    exact RemoteDisplay.createBufferSends_bufferSends p rd x b

/-- One `setBuffer` call on a layer that returns: a part naming `b` is sent only when the
layer had not registered `b` and has registered it afterwards. -/
theorem Hwc2Layer.setBuffer_bufferSends (p : Protocol) (l : Hwc2Layer) (rd : RemoteDisplay)
    (x : buffer_handle_t) (f : Int) (b : Nat) (r : Error × Hwc2Layer × RemoteDisplay)
    (h : l.setBuffer p rd x f = some r) :
    r.2.2.bufferSends b + (if b ∉ r.2.1.mBuffers then 1 else 0) ≤
      rd.bufferSends b + (if b ∉ l.mBuffers then 1 else 0) := by
  unfold Hwc2Layer.setBuffer at h
  by_cases hne : l.mBuffer.addr = x.addr
  · have h2 : r.2.2 = rd ∧ r.2.1.mBuffers = l.mBuffers := by
      by_cases hf : l.mAcquireFence ≥ 0 <;> simp [hne, hf] at h <;>
        subst h <;> exact ⟨rfl, rfl⟩
    rw [h2.1, h2.2]
  · by_cases hcount : List.count x.addr l.mBuffers = 0
    · have hx : x.addr ∉ l.mBuffers := List.count_eq_zero.mp hcount
      by_cases hr : l.mRemoteDisplay.isSome = true
      · cases hcb : rd.createBuffer p x with
        | none =>
          by_cases hf : l.mAcquireFence ≥ 0 <;> simp [hne, hf, hcount, hr, hcb] at h
        | some c =>
          have hc := RemoteDisplay.createBuffer_bufferSends p rd x b c hcb
          have h2 : r.2.2 = c.2 ∧ r.2.1.mBuffers = List.insert x.addr l.mBuffers := by
            by_cases hf : l.mAcquireFence ≥ 0 <;> simp [hne, hf, hcount, hr, hcb] at h <;>
              subst h <;> exact ⟨rfl, rfl⟩
          rw [h2.1, h2.2]
          by_cases hxb : x.addr = b
          · have hb : b ∉ l.mBuffers := hxb ▸ hx
            have hin : b ∈ List.insert x.addr l.mBuffers := by
              rw [List.mem_insert_iff]; exact Or.inl hxb.symm
            simp only [hxb, if_true] at hc
            simp [hin, hb]
            omega
          · have hiff : b ∈ List.insert x.addr l.mBuffers ↔ b ∈ l.mBuffers := by
              rw [List.mem_insert_iff]
              constructor
              · rintro (h | h)
                · exact absurd h.symm hxb
                · exact h
              · exact Or.inr
            simp only [hxb, if_false, Nat.add_zero] at hc
            by_cases hb : b ∈ l.mBuffers <;> simp [hiff, hb] <;> omega
      · have h2 : r.2.2 = rd ∧ r.2.1.mBuffers = List.insert x.addr l.mBuffers := by
          by_cases hf : l.mAcquireFence ≥ 0 <;> simp [hne, hf, hcount, hr] at h <;>
            subst h <;> exact ⟨rfl, rfl⟩
        rw [h2.1, h2.2]
        by_cases hb : b ∈ l.mBuffers
        · have hin : b ∈ List.insert x.addr l.mBuffers := by
            rw [List.mem_insert_iff]; exact Or.inr hb
          simp [hin, hb]
        · simp [hb]
          split_ifs <;> omega
    · have h2 : r.2.2 = rd ∧ r.2.1.mBuffers = l.mBuffers := by
        by_cases hf : l.mAcquireFence ≥ 0 <;> simp [hne, hf, hcount] at h <;>
          subst h <;> exact ⟨rfl, rfl⟩
      rw [h2.1, h2.2]

theorem LayerMap.countP_modify (q : Nat × Hwc2Layer → Bool) (m : LayerMap) (k : Nat)
    (v : Hwc2Layer) (e : Nat × Hwc2Layer) (h : m.find? (fun e => e.1 == k) = some e) :
    (LayerMap.modify m k (fun _ => v)).countP q + (if q e then 1 else 0) =
      m.countP q + (if q (e.1, v) then 1 else 0) := by
  induction m with
  | nil => simp at h
  | cons a rest ih =>
    by_cases ha : a.1 = k
    · have hae : a = e := by
        rw [List.find?_cons_of_pos _ (by simpa using ha)] at h
        exact Option.some.inj h
      subst hae
      simp only [LayerMap.modify, ha, if_true, List.countP_cons]
      omega
    · have hrest : rest.find? (fun e => e.1 == k) = some e := by
        rw [List.find?_cons_of_neg _ (by simpa using ha)] at h
        exact h
      have := ih hrest
      simp only [LayerMap.modify, ha, if_false, List.countP_cons]
      omega

/-- One dispatched `setBuffer` call that returns does not increase the sum of the parts
naming `b` sent so far and the layers that have not registered `b`. -/
theorem Hwc2Display.layerSetBuffer_potential (p : Protocol) (d : Hwc2Display)
    (rd : RemoteDisplay) (k : Nat) (x : buffer_handle_t) (f : Int) (b : Nat)
    (s : Hwc2Display × RemoteDisplay) (h : Hwc2Display.layerSetBuffer p d rd k x f = some s) :
    s.2.bufferSends b + s.1.layersLacking b ≤ rd.bufferSends b + d.layersLacking b := by
  unfold Hwc2Display.layerSetBuffer at h
  cases hfind : d.mLayers.find? (fun e => e.1 == k) with
  | none =>
    rw [hfind] at h
    simp only [Option.some.injEq] at h
    subst h
    exact Nat.le_refl _
  | some e =>
    rw [hfind] at h
    dsimp only at h
    cases hset : e.2.setBuffer p rd x f with
    | none => rw [hset] at h; simp at h
    | some r =>
      rw [hset] at h
      have h := Option.some.inj h
      subst h
      have h1 := Hwc2Layer.setBuffer_bufferSends p e.2 rd x f b r hset
      have h2 := LayerMap.countP_modify (fun e => decide (b ∉ e.2.mBuffers)) d.mLayers k
        r.2.1 e hfind
      simp only [Hwc2Display.layersLacking]
      simp only [decide_eq_true_eq] at h2
      omega

/-- A dispatched `setBuffer` call with a handle that is not null returns. -/
theorem Hwc2Display.layerSetBuffer_isSome (p : Protocol) (d : Hwc2Display)
    (rd : RemoteDisplay) (k : Nat) (x : buffer_handle_t) (f : Int) (hx : x.addr ≠ 0) :
    (Hwc2Display.layerSetBuffer p d rd k x f).isSome = true := by
  unfold Hwc2Display.layerSetBuffer
  cases hfind : d.mLayers.find? (fun e => e.1 == k) with
  | none => rfl
  | some e =>
    simp only [Option.isSome_map]
    unfold Hwc2Layer.setBuffer
    simp only [RemoteDisplay.createBuffer_some p rd x hx]
    split_ifs <;> rfl

/-- C5, as the code has it. Over any sequence of `setBuffer` calls on the layers of a
display bound to one session that runs to its end, the CreateBuffer messages sent for a
buffer identity `b` are at most one per layer, and none for a layer that has registered `b`
already: the messages sent for `b` plus the layers still lacking `b` never exceed the layers
lacking `b` at the start.  Every layer keeps its own registration set, so layers sharing an
identity each send their own CreateBuffer.  A sequence in which no handle is null runs to
its end; one that does not stops at a call with the null handle, and the calls before that
one are a sequence that runs to its end. -/
theorem createBuffer_at_most_once_per_layer (p : Protocol) (d : Hwc2Display)
    (rd : RemoteDisplay) (calls : List (Nat × buffer_handle_t × Int)) (b : Nat) :
    (∀ s, Hwc2Display.layerSetBuffers p d rd calls = some s →
      s.2.bufferSends b + s.1.layersLacking b ≤ rd.bufferSends b + d.layersLacking b ∧
      s.2.bufferSends b ≤ rd.bufferSends b + d.mLayers.length) ∧
    ((∀ c ∈ calls, c.2.1.addr ≠ 0) →
      (Hwc2Display.layerSetBuffers p d rd calls).isSome = true) ∧
    (Hwc2Display.layerSetBuffers p d rd calls = none →
      ∃ pre c post s, calls = pre ++ c :: post ∧
        Hwc2Display.layerSetBuffers p d rd pre = some s ∧
        Hwc2Display.layerSetBuffer p s.1 s.2 c.1 c.2.1 c.2.2 = none ∧ c.2.1.addr = 0) := by
  have key : ∀ (calls : List (Nat × buffer_handle_t × Int)) (d : Hwc2Display)
      (rd : RemoteDisplay) (s : Hwc2Display × RemoteDisplay),
      Hwc2Display.layerSetBuffers p d rd calls = some s →
      s.2.bufferSends b + s.1.layersLacking b ≤ rd.bufferSends b + d.layersLacking b := by
    intro calls
    induction calls with
    | nil =>
      intro d rd s h
      simp only [Hwc2Display.layerSetBuffers, Option.some.injEq] at h
      subst h
      exact Nat.le_refl _
    | cons c cs ih =>
      intro d rd s h
      simp only [Hwc2Display.layerSetBuffers] at h
      cases hstep : Hwc2Display.layerSetBuffer p d rd c.1 c.2.1 c.2.2 with
      | none => rw [hstep] at h; simp at h
      | some t =>
        rw [hstep] at h
        have h1 := Hwc2Display.layerSetBuffer_potential p d rd c.1 c.2.1 c.2.2 b t hstep
        have h2 := ih t.1 t.2 s h
        omega
  have run : ∀ (calls : List (Nat × buffer_handle_t × Int)) (d : Hwc2Display)
      (rd : RemoteDisplay), (∀ c ∈ calls, c.2.1.addr ≠ 0) →
      (Hwc2Display.layerSetBuffers p d rd calls).isSome = true := by
    intro calls
    induction calls with
    | nil => intro d rd _; rfl
    | cons c cs ih =>
      intro d rd hc
      simp only [Hwc2Display.layerSetBuffers]
      have h1 := Hwc2Display.layerSetBuffer_isSome p d rd c.1 c.2.1 c.2.2
        (hc c (List.mem_cons_self _ _))
      cases hstep : Hwc2Display.layerSetBuffer p d rd c.1 c.2.1 c.2.2 with
      | none => rw [hstep] at h1; simp at h1
      | some t => exact ih t.1 t.2 (fun c hcs => hc c (List.mem_cons_of_mem _ hcs))
  have stop : ∀ (calls : List (Nat × buffer_handle_t × Int)) (d : Hwc2Display)
      (rd : RemoteDisplay), Hwc2Display.layerSetBuffers p d rd calls = none →
      ∃ pre c post s, calls = pre ++ c :: post ∧
        Hwc2Display.layerSetBuffers p d rd pre = some s ∧
        Hwc2Display.layerSetBuffer p s.1 s.2 c.1 c.2.1 c.2.2 = none ∧ c.2.1.addr = 0 := by
    intro calls
    induction calls with
    | nil => intro d rd h; simp [Hwc2Display.layerSetBuffers] at h
    | cons c cs ih =>
      intro d rd h
      simp only [Hwc2Display.layerSetBuffers] at h
      cases hstep : Hwc2Display.layerSetBuffer p d rd c.1 c.2.1 c.2.2 with
      | none =>
        refine ⟨[], c, cs, (d, rd), rfl, rfl, hstep, ?_⟩
        by_contra hx
        have h1 := Hwc2Display.layerSetBuffer_isSome p d rd c.1 c.2.1 c.2.2 hx
        rw [hstep] at h1
        simp at h1
      | some t =>
        rw [hstep] at h
        obtain ⟨pre, c1, post, s, e, hpre, hc, hz⟩ := ih t.1 t.2 h
        refine ⟨c :: pre, c1, post, s, by rw [e]; rfl, ?_, hc, hz⟩
        simp only [Hwc2Display.layerSetBuffers, hstep]
        exact hpre
  refine ⟨fun s hs => ⟨key calls d rd s hs, ?_⟩, run calls d rd, stop calls d rd⟩
  have h := key calls d rd s hs
  have hle : d.layersLacking b ≤ d.mLayers.length := List.countP_le_length _
  omega

/-! ## Validate -/

theorem Hwc2Display.validateLayer_layer (l : Hwc2Layer) (n : Nat) :
    (Hwc2Display.validateLayer l n).1 =
      { l with mValidatedType := if l.mType.fallsBack then Composition.Client else l.mType } := by
  unfold Hwc2Display.validateLayer Composition.fallsBack Hwc2Layer.type Hwc2Layer.setValidatedType
  by_cases h2 : l.mType = Composition.Device
  · simp [h2]
  · by_cases h3 : l.mType = Composition.SolidColor
    · simp [h2, h3]
    · by_cases h4 : l.mType = Composition.Cursor
      · simp [h2, h3, h4]
      · by_cases h5 : l.mType = Composition.Sideband
        · simp [h2, h3, h4, h5]
        · simp [h2, h3, h4, h5]

theorem Hwc2Display.validateLayer_count (l : Hwc2Layer) (n : Nat) :
    (Hwc2Display.validateLayer l n).2 =
      if l.mType.fallsBack then (n + 1) % 2 ^ 32 else n := by
  unfold Hwc2Display.validateLayer Composition.fallsBack Hwc2Layer.type
  by_cases h2 : l.mType = Composition.Device
  · simp [h2]
  · by_cases h3 : l.mType = Composition.SolidColor
    · simp [h2, h3]
    · by_cases h4 : l.mType = Composition.Cursor
      · simp [h2, h3, h4]
      · by_cases h5 : l.mType = Composition.Sideband
        · simp [h2, h3, h4, h5]
        · simp [h2, h3, h4, h5]

theorem Hwc2Display.validateLoop_layers (m : LayerMap) (n : Nat) :
    (Hwc2Display.validateLoop m n).1 =
      m.map (fun e => (e.1, { e.2 with mValidatedType :=
        if e.2.mType.fallsBack then Composition.Client else e.2.mType })) := by
  induction m generalizing n with
  | nil => rfl
  | cons e rest ih =>
    simp [Hwc2Display.validateLoop, ih, Hwc2Display.validateLayer_layer]

theorem Hwc2Display.validateLoop_count (m : LayerMap) (n : Nat) (hn : n < 2 ^ 32) :
    (Hwc2Display.validateLoop m n).2 =
      (n + m.countP (fun e => e.2.mType.fallsBack)) % 2 ^ 32 := by
  induction m generalizing n with
  | nil =>
    simp only [Hwc2Display.validateLoop, List.countP_nil, Nat.add_zero]
    exact (Nat.mod_eq_of_lt hn).symm
  | cons e rest ih =>
    simp only [Hwc2Display.validateLoop, Hwc2Display.validateLayer_count]
    by_cases h : e.2.mType.fallsBack = true
    · simp only [h, if_true, List.countP_cons_of_pos]
      rw [ih _ (Nat.mod_lt _ (by norm_num))]
      omega
    · simp only [h]
      rw [List.countP_cons_of_neg _ _ (by simpa using h)]
      simpa using ih n hn

theorem Composition.client_not_fallsBack : Composition.fallsBack Composition.Client = false := by
  decide

theorem Composition.fallsBack_ne_client (t : Composition) (h : t.fallsBack = true) :
    Composition.Client ≠ t := by
  intro hc
  rw [← hc] at h
  simp [Composition.client_not_fallsBack] at h

/-- After the loop, the layers whose validated type differs from the requested type are
the layers whose requested type falls back to Client. -/
theorem Hwc2Display.validateLoop_differs (m : LayerMap) (n : Nat) :
    (Hwc2Display.validateLoop m n).1.countP (fun e => e.2.validatedType != e.2.type) =
      m.countP (fun e => e.2.mType.fallsBack) := by
  rw [Hwc2Display.validateLoop_layers, List.countP_map]
  apply List.countP_congr
  intro e _
  simp only [Function.comp, Hwc2Layer.validatedType, Hwc2Layer.type]
  by_cases h : e.2.mType.fallsBack = true
  · simp [h, Composition.fallsBack_ne_client e.2.mType h]
  · simp [h]

/-- C6, as the code has it. A second `validate` right after the first returns the same
result, the same `numTypes` and `numRequests` as the first and leaves the display as the
first left it; with fewer than 2^32 layers it yields `numTypes = 0` and `None` exactly when
no layer has the requested type Device, SolidColor, Cursor or Sideband. -/
theorem validate_twice (d : Hwc2Display) (hlen : d.mLayers.length < 2 ^ 32) :
    d.validate.2.2.2.validate = d.validate ∧
    ((d.validate.2.2.2.validate.2.1 = 0 ∧ d.validate.2.2.2.validate.1 = Error.None) ↔
      ∀ e ∈ d.mLayers, e.2.type ≠ Composition.Device ∧ e.2.type ≠ Composition.SolidColor ∧
        e.2.type ≠ Composition.Cursor ∧ e.2.type ≠ Composition.Sideband) := by
  have hsame : d.validate.2.2.2.validate = d.validate := by
    have hl : (Hwc2Display.validateLoop (Hwc2Display.validateLoop d.mLayers 0).1 0) =
        Hwc2Display.validateLoop d.mLayers 0 := by
      apply Prod.ext
      · rw [Hwc2Display.validateLoop_layers, Hwc2Display.validateLoop_layers, List.map_map]
        apply List.map_congr_left
        intro e _
        simp
      · rw [Hwc2Display.validateLoop_count _ 0 (by norm_num),
          Hwc2Display.validateLoop_count _ 0 (by norm_num),
          Hwc2Display.validateLoop_layers, List.countP_map]
        congr 2
    simp only [Hwc2Display.validate, hl]
  refine ⟨hsame, ?_⟩
  rw [hsame]
  have hc := Hwc2Display.validateLoop_count d.mLayers 0 (by norm_num)
  have hle : d.mLayers.countP (fun e => e.2.mType.fallsBack) ≤ d.mLayers.length :=
    List.countP_le_length _
  have hc2 : (Hwc2Display.validateLoop d.mLayers 0).2 =
      d.mLayers.countP (fun e => e.2.mType.fallsBack) := by
    rw [hc, Nat.zero_add]
    exact Nat.mod_eq_of_lt (by omega)
  simp only [Hwc2Display.validate, hc2]
  constructor
  · rintro ⟨h0, _⟩ e he
    have hne : ¬ (e.2.mType.fallsBack = true) := by
      intro hfb
      have hpos : 0 < d.mLayers.countP (fun e => e.2.mType.fallsBack) :=
        List.countP_pos_iff.mpr ⟨e, he, hfb⟩
      omega
    simp only [Composition.fallsBack, Bool.or_eq_true, beq_iff_eq, not_or] at hne
    simpa [Hwc2Layer.type, and_assoc] using hne
  · intro h
    have h0 : d.mLayers.countP (fun e => e.2.mType.fallsBack) = 0 := by
      rw [List.countP_eq_zero]
      intro e he
      have := h e he
      simp only [Hwc2Layer.type] at this
      simp [Composition.fallsBack, this.1, this.2.1, this.2.2.1, this.2.2.2]
    simp [h0]

theorem validate_twice_witness :
    deviceLayerDisplay.validate.2.2.2.validate = deviceLayerDisplay.validate :=
  (validate_twice deviceLayerDisplay (by decide)).1

/-- C6 fails when a layer falls back: for a display with one layer of requested type
Device, the second of two `validate` calls in a row yields `numTypes = 1` and
`HasChanges`. -/
theorem validate_twice_still_has_changes :
    deviceLayerDisplay.validate.2.2.2.validate.2.1 = 1 ∧
    deviceLayerDisplay.validate.2.2.2.validate.1 = Error.HasChanges := by
  decide

/-- C7. After `validate`, layer by layer in the order of the collection: the key and the
requested type are those from before the call; a requested type Device, SolidColor, Cursor
or Sideband gives the validated type Client, any other requested type gives a validated
type equal to it. -/
theorem validate_layer_types (d : Hwc2Display) :
    List.Forall₂
      (fun (e e1 : Nat × Hwc2Layer) =>
        e1.1 = e.1 ∧ e1.2.type = e.2.type ∧
        ((e.2.type = Composition.Device ∨ e.2.type = Composition.SolidColor ∨
            e.2.type = Composition.Cursor ∨ e.2.type = Composition.Sideband) →
          e1.2.validatedType = Composition.Client) ∧
        (¬ (e.2.type = Composition.Device ∨ e.2.type = Composition.SolidColor ∨
            e.2.type = Composition.Cursor ∨ e.2.type = Composition.Sideband) →
          e1.2.validatedType = e.2.type))
      d.mLayers d.validate.2.2.2.mLayers := by
  simp only [Hwc2Display.validate, Hwc2Display.validateLoop_layers]
  rw [List.forall₂_map_right_iff]
  apply List.forall₂_same.mpr
  intro e _
  simp only [Hwc2Layer.type, Hwc2Layer.validatedType, Composition.fallsBack, Bool.or_eq_true,
    beq_iff_eq, true_and]
  constructor
  · intro h
    rw [if_pos (by simpa [or_assoc] using h)]
  · intro h
    rw [if_neg (by simpa [or_assoc] using h)]

/-- C8. For a display with fewer than 2^32 layers, `validate` sets `numTypes` to the
number of layers whose validated type differs from their requested type after the call,
sets `numRequests` to 0, and returns `HasChanges` when that number is positive and `None`
otherwise. -/
theorem validate_counts (d : Hwc2Display) (hlen : d.mLayers.length < 2 ^ 32) :
    d.validate.2.1 =
      d.validate.2.2.2.mLayers.countP (fun e => e.2.validatedType != e.2.type) ∧
    d.validate.2.2.1 = 0 ∧
    d.validate.1 =
      (if 0 < d.validate.2.2.2.mLayers.countP (fun e => e.2.validatedType != e.2.type)
        then Error.HasChanges else Error.None) := by
  have hc := Hwc2Display.validateLoop_count d.mLayers 0 (by norm_num)
  have hle : d.mLayers.countP (fun e => e.2.mType.fallsBack) ≤ d.mLayers.length :=
    List.countP_le_length _
  have hc2 : (Hwc2Display.validateLoop d.mLayers 0).2 =
      d.mLayers.countP (fun e => e.2.mType.fallsBack) := by
    rw [hc, Nat.zero_add]
    exact Nat.mod_eq_of_lt (by omega)
  simp only [Hwc2Display.validate, Hwc2Display.validateLoop_differs, hc2, gt_iff_lt, and_self]

theorem validate_counts_witness :
    deviceLayerDisplay.validate.2.1 =
      deviceLayerDisplay.validate.2.2.2.mLayers.countP
        (fun e => e.2.validatedType != e.2.type) ∧
    deviceLayerDisplay.validate.2.2.1 = 0 ∧
    deviceLayerDisplay.validate.1 =
      (if 0 < deviceLayerDisplay.validate.2.2.2.mLayers.countP
          (fun e => e.2.validatedType != e.2.type)
        then Error.HasChanges else Error.None) :=
  validate_counts deviceLayerDisplay (by decide)

/-! ## Present -/

theorem RemoteDisplay._send_ok (rd : RemoteDisplay) (b : Payload) (n : Nat)
    (hh : rd.healthy) (hn : 0 < n) :
    (rd._send (some b) n).1 = 0 ∧ (rd._send (some b) n).2.healthy ∧
    (rd._send (some b) n).2.ops = rd.ops ++ [SysOp.send b n] := by
  obtain ⟨hc, hs, ha⟩ := hh
  have hn0 : n ≠ 0 := by omega
  have hpos : ¬ (rd.sock.send b n).1 ≤ 0 := by
    unfold Socket.send
    cases hscr : rd.sock.script with
    | nil => simp; omega
    | cons r rest =>
      have := hs r (by rw [hscr]; exact List.mem_cons_self _ _)
      simp; omega
  have hscript : ∀ r ∈ (rd.sock.send b n).2.script, 0 < r := by
    unfold Socket.send
    cases hscr : rd.sock.script with
    | nil => simp [hscr]
    | cons r rest =>
      intro x hx
      exact hs x (by rw [hscr]; exact List.mem_cons_of_mem _ hx)
  refine ⟨?_, ?_, ?_⟩
  · simp [RemoteDisplay._send, hc, hn0, hpos]
  · simp only [RemoteDisplay._send, hc, hn0, hpos, RemoteDisplay.healthy, if_false,
      Bool.false_eq_true]
    exact ⟨trivial, hscript, ha⟩
  · simp [RemoteDisplay._send, hc, hn0, hpos, RemoteDisplay.ops, Socket.send_trace]

theorem RemoteDisplay.malloc_ok (rd : RemoteDisplay) (hh : rd.healthy) :
    rd.malloc.1 = true ∧ rd.malloc.2.healthy ∧ rd.malloc.2.ops = rd.ops := by
  obtain ⟨hc, hs, ha⟩ := hh
  unfold RemoteDisplay.malloc
  cases hal : rd.allocs with
  | nil => exact ⟨rfl, ⟨hc, hs, by simp [hal]⟩, rfl⟩
  | cons a rest =>
    have h1 := ha a (by rw [hal]; exact List.mem_cons_self _ _)
    refine ⟨h1, ⟨hc, hs, ?_⟩, rfl⟩
    intro x hx
    exact ha x (by rw [hal]; exact List.mem_cons_of_mem _ hx)

/-- On a healthy session, `updateLayers` with a non-empty batch of fewer than 2^32 records
succeeds and writes exactly the two parts of one UpdateLayers message. -/
theorem RemoteDisplay.updateLayers_ok (p : Protocol) (rd : RemoteDisplay)
    (infos : List layer_info_t) (hp : p.sizesPositive) (hh : rd.healthy)
    (hne : infos ≠ []) (hlen : infos.length < 2 ^ 32) :
    (rd.updateLayers p infos).1 = 0 ∧ (rd.updateLayers p infos).2.healthy ∧
    (rd.updateLayers p infos).2.ops = rd.ops ++ p.updateLayersOps infos := by
  have hl0 : infos.length ≠ 0 := by
    intro h; exact hne (List.length_eq_zero.mp h)
  have hmod : infos.length % 2 ^ 32 = infos.length := Nat.mod_eq_of_lt hlen
  obtain ⟨hm1, hm2, hm3⟩ := RemoteDisplay.malloc_ok rd hh
  have hsz1 : 0 < p.sizeof_update_layers_event_t := hp.2.2.2.2.2.2.2.2.1
  have hsz2 : 0 < p.sizeof_layer_info_t * infos.length :=
    Nat.mul_pos hp.2.2.2.2.2.2.2.2.2.1 (by omega)
  obtain ⟨ha1, ha2, ha3⟩ := RemoteDisplay._send_ok rd.malloc.2
    (Payload.update_layers_event p.DD_EVENT_UPDATE_LAYERS
      ((p.sizeof_update_layers_event_t + p.sizeof_layer_info_t * infos.length) % 2 ^ 32)
      infos.length) p.sizeof_update_layers_event_t hm2 hsz1
  obtain ⟨hb1, hb2, hb3⟩ := RemoteDisplay._send_ok
    (rd.malloc.2._send (some (Payload.update_layers_event p.DD_EVENT_UPDATE_LAYERS
      ((p.sizeof_update_layers_event_t + p.sizeof_layer_info_t * infos.length) % 2 ^ 32)
      infos.length)) p.sizeof_update_layers_event_t).2
    (Payload.layer_infos infos) (p.sizeof_layer_info_t * infos.length) ha2 hsz2
  simp only [RemoteDisplay.updateLayers, hmod, hl0, ne_eq, not_false_eq_true, if_true, hm1,
    Bool.not_true, Bool.false_eq_true, if_false, ha1, hb1, List.take_length, lt_self_iff_false]
  refine ⟨trivial, hb2, ?_⟩
  rw [hb3, ha3, hm3]
  simp [Protocol.updateLayersOps]

/-- On a healthy session, `presentLayers` with a non-empty batch of fewer than 2^32 records
succeeds and writes exactly the two parts of one PresentLayersRequest message. -/
theorem RemoteDisplay.presentLayers_ok (p : Protocol) (rd : RemoteDisplay)
    (bufs : List layer_buffer_info_t) (hp : p.sizesPositive) (hh : rd.healthy)
    (hne : bufs ≠ []) (hlen : bufs.length < 2 ^ 32) :
    (rd.presentLayers p bufs).1 = 0 ∧ (rd.presentLayers p bufs).2.healthy ∧
    (rd.presentLayers p bufs).2.ops = rd.ops ++ p.presentLayersOps bufs := by
  have hl0 : bufs.length ≠ 0 := by
    intro h; exact hne (List.length_eq_zero.mp h)
  have hmod : bufs.length % 2 ^ 32 = bufs.length := Nat.mod_eq_of_lt hlen
  obtain ⟨hm1, hm2, hm3⟩ := RemoteDisplay.malloc_ok rd hh
  have hsz1 : 0 < p.sizeof_present_layers_req_event_t := hp.2.2.2.2.2.2.2.2.2.2.1
  have hsz2 : 0 < p.sizeof_layer_buffer_info_t * bufs.length :=
    Nat.mul_pos hp.2.2.2.2.2.2.2.2.2.2.2.1 (by omega)
  obtain ⟨ha1, ha2, ha3⟩ := RemoteDisplay._send_ok rd.malloc.2
    (Payload.present_layers_req_event p.DD_EVENT_PRESENT_LAYERS_REQ
      ((p.sizeof_present_layers_req_event_t + p.sizeof_layer_buffer_info_t * bufs.length)
        % 2 ^ 32)
      bufs.length) p.sizeof_present_layers_req_event_t hm2 hsz1
  obtain ⟨hb1, hb2, hb3⟩ := RemoteDisplay._send_ok
    (rd.malloc.2._send (some (Payload.present_layers_req_event p.DD_EVENT_PRESENT_LAYERS_REQ
      ((p.sizeof_present_layers_req_event_t + p.sizeof_layer_buffer_info_t * bufs.length)
        % 2 ^ 32)
      bufs.length)) p.sizeof_present_layers_req_event_t).2
    (Payload.layer_buffer_infos bufs) (p.sizeof_layer_buffer_info_t * bufs.length) ha2 hsz2
  simp only [RemoteDisplay.presentLayers, hmod, hl0, ne_eq, not_false_eq_true, if_true, hm1,
    Bool.not_true, Bool.false_eq_true, if_false, ha1, hb1, List.take_length, lt_self_iff_false]
  refine ⟨trivial, hb2, ?_⟩
  rw [hb3, ha3, hm3]
  simp [Protocol.presentLayersOps]

theorem Hwc2Display.presentTarget_frame (p : Protocol) (d : Hwc2Display) (rd : RemoteDisplay) :
    (Hwc2Display.presentTarget p d rd).1.mLayers = d.mLayers ∧
    (Hwc2Display.presentTarget p d rd).1.mMode = d.mMode := by
  unfold Hwc2Display.presentTarget Hwc2Display.updateRotation
  split_ifs <;> simp
  all_goals split_ifs
  all_goals simp

/-- The second block of `present` on a healthy session: the trace gains the UpdateLayers
message for the changed layers, when there is one, then the PresentLayersRequest message
for the layers whose buffer changed, when there is one. -/
theorem Hwc2Display.presentBatches_ops (p : Protocol) (d : Hwc2Display) (rd : RemoteDisplay)
    (hp : p.sizesPositive) (hmode : 1 ≤ d.mMode) (hlen : d.mLayers.length < 2 ^ 32)
    (hh : rd.healthy) :
    (Hwc2Display.presentBatches p d rd).2.ops =
      rd.ops ++
        (if (d.mLayers.filter (fun e => e.2.changed)).map (fun e => e.2.info) = [] then []
         else p.updateLayersOps
           ((d.mLayers.filter (fun e => e.2.changed)).map (fun e => e.2.info))) ++
        (if (d.mLayers.filter (fun e => e.2.bufferChanged)).map (fun e => e.2.layerBuffer) = []
         then []
         else p.presentLayersOps
           ((d.mLayers.filter (fun e => e.2.bufferChanged)).map (fun e => e.2.layerBuffer))) ∧
    (Hwc2Display.presentBatches p d rd).1.mLayers =
      d.mLayers.map (fun e => (e.1, e.2.setUnchanged)) := by
  have hm : d.mMode > 0 := by omega
  generalize hI : (d.mLayers.filter (fun e => e.2.changed)).map (fun e => e.2.info) = infos
  generalize hB : (d.mLayers.filter (fun e => e.2.bufferChanged)).map
    (fun e => e.2.layerBuffer) = bufs
  have hIlen : infos.length < 2 ^ 32 := by
    rw [← hI, List.length_map]
    exact lt_of_le_of_lt (List.length_filter_le _ _) hlen
  have hBlen : bufs.length < 2 ^ 32 := by
    rw [← hB, List.length_map]
    exact lt_of_le_of_lt (List.length_filter_le _ _) hlen
  simp only [Hwc2Display.presentBatches, hm, if_true, Bool.false_or, hI, hB]
  refine ⟨?_, trivial⟩
  by_cases hi : infos = []
  · by_cases hb : bufs = []
    · simp [hi, hb]
    · have hb0 : bufs.length ≠ 0 := fun h => hb (List.length_eq_zero.mp h)
      obtain ⟨_, _, h3⟩ := RemoteDisplay.presentLayers_ok p rd bufs hp hh hb hBlen
      simp [hi, hb, hb0, h3]
  · have hi0 : infos.length ≠ 0 := fun h => hi (List.length_eq_zero.mp h)
    obtain ⟨_, g2, g3⟩ := RemoteDisplay.updateLayers_ok p rd infos hp hh hi hIlen
    by_cases hb : bufs = []
    · simp [hi, hb, hi0, g3]
    · have hb0 : bufs.length ≠ 0 := fun h => hb (List.length_eq_zero.mp h)
      obtain ⟨_, _, h3⟩ := RemoteDisplay.presentLayers_ok p (rd.updateLayers p infos).2 bufs hp g2
        hb hBlen
      simp [hi, hb, hi0, hb0, h3, g3]

/-- The records of a sub-collection keep the ascending order of the layer ids. -/
theorem LayerMap.filter_ids_sorted (m : LayerMap) (q : Nat × Hwc2Layer → Bool)
    (f : Nat × Hwc2Layer → Nat) (hord : LayerMap.ordered m) (hid : ∀ e ∈ m, f e = e.1) :
    ((m.filter q).map f).Sorted (· < ·) := by
  have hsub : ((m.filter q).map f) = (m.filter q).map Prod.fst := by
    apply List.map_congr_left
    intro e he
    exact hid e (List.mem_of_mem_filter he)
  rw [hsub]
  exact List.Pairwise.sublist (List.Sublist.map _ (List.filter_sublist _)) hord

/-- C9. A display attached to a session in mode 1 or above, with fewer than 2^32 layers,
on which the writes and allocations of the batches succeed.  `present` sends, after what
its client-target block sent (nothing in mode 1), one UpdateLayers message holding exactly
the wire records of the layers whose changed flag is set, in the order of the collection,
when there is such a layer, then one PresentLayersRequest message holding exactly the wire
records of the layers whose buffer-changed flag is set, when there is such a layer, and
nothing else; afterwards both flags of every layer are clear.  When the collection is keyed
in ascending order by the layers' ids, both batches are in ascending layer-id order.  With
two layers in mode 1, A changed only and B buffer-changed only, that is one UpdateLayers
with A's record alone and one PresentLayersRequest with B's record alone. -/
theorem present_ships_changed_layers (p : Protocol) (d : Hwc2Display) (rd : RemoteDisplay)
    (hp : p.sizesPositive) (hatt : d.mRemoteDisplay.isSome = true) (hmode : 1 ≤ d.mMode)
    (hlen : d.mLayers.length < 2 ^ 32)
    (hh : (Hwc2Display.presentTarget p d rd).2.healthy) :
    (d.present p rd).2.2.2.ops =
      (Hwc2Display.presentTarget p d rd).2.ops ++
        (if (d.mLayers.filter (fun e => e.2.changed)).map (fun e => e.2.info) = [] then []
         else p.updateLayersOps
           ((d.mLayers.filter (fun e => e.2.changed)).map (fun e => e.2.info))) ++
        (if (d.mLayers.filter (fun e => e.2.bufferChanged)).map (fun e => e.2.layerBuffer) = []
         then []
         else p.presentLayersOps
           ((d.mLayers.filter (fun e => e.2.bufferChanged)).map (fun e => e.2.layerBuffer))) ∧
    (d.mMode = 1 → (Hwc2Display.presentTarget p d rd).2 = rd) ∧
    (∀ e ∈ (d.present p rd).2.2.1.mLayers, e.2.changed = false ∧ e.2.bufferChanged = false) ∧
    (d.present p rd).2.2.1.mLayers.map Prod.fst = d.mLayers.map Prod.fst ∧
    (LayerMap.ordered d.mLayers →
      (∀ e ∈ d.mLayers, e.2.info.layerId = e.1 ∧ e.2.layerBuffer.layerId = e.1) →
      (((d.mLayers.filter (fun e => e.2.changed)).map (fun e => e.2.info)).map
          (fun r => r.layerId)).Sorted (· < ·) ∧
      (((d.mLayers.filter (fun e => e.2.bufferChanged)).map (fun e => e.2.layerBuffer)).map
          (fun r => r.layerId)).Sorted (· < ·)) ∧
    (∀ (ka kb : Nat) (A B : Hwc2Layer), d.mMode = 1 → d.mLayers = [(ka, A), (kb, B)] →
      A.changed = true → A.bufferChanged = false → B.changed = false →
      B.bufferChanged = true →
      (d.present p rd).2.2.2.ops =
        rd.ops ++ p.updateLayersOps [A.info] ++ p.presentLayersOps [B.layerBuffer]) := by
  obtain ⟨hfl, hfm⟩ := Hwc2Display.presentTarget_frame p d rd
  have hb := Hwc2Display.presentBatches_ops p (Hwc2Display.presentTarget p d rd).1
    (Hwc2Display.presentTarget p d rd).2 hp (by rw [hfm]; exact hmode) (by rw [hfl]; exact hlen) hh
  rw [hfl] at hb
  have hpres : (d.present p rd).2.2 =
      ({ (Hwc2Display.presentBatches p (Hwc2Display.presentTarget p d rd).1
            (Hwc2Display.presentTarget p d rd).2).1 with
          mFrameNum := (Hwc2Display.presentBatches p (Hwc2Display.presentTarget p d rd).1
            (Hwc2Display.presentTarget p d rd).2).1.mFrameNum + 1 },
        (Hwc2Display.presentBatches p (Hwc2Display.presentTarget p d rd).1
            (Hwc2Display.presentTarget p d rd).2).2) := by
    simp [Hwc2Display.present, hatt]
  have hone : d.mMode = 1 → Hwc2Display.presentTarget p d rd = (d, rd) := by
    intro h1
    simp [Hwc2Display.presentTarget, h1]
  have hops := hb.1
  refine ⟨?_, ?_, ?_, ?_, ?_, ?_⟩
  · rw [hpres]; exact hops
  · intro h1; rw [hone h1]
  · rw [hpres]
    simp only [hb.2]
    intro e he
    obtain ⟨a, _, rfl⟩ := List.mem_map.mp he
    exact ⟨rfl, rfl⟩
  · rw [hpres]
    simp only [hb.2, List.map_map]
    rfl
  · intro hord hid
    constructor
    · rw [List.map_map]
      exact LayerMap.filter_ids_sorted d.mLayers _ _ hord (fun e he => (hid e he).1)
    · rw [List.map_map]
      exact LayerMap.filter_ids_sorted d.mLayers _ _ hord (fun e he => (hid e he).2)
  · intro ka kb A B h1 hl hA1 hA2 hB1 hB2
    rw [hpres]
    rw [hone h1, hl] at hops
    simp only [hone h1]
    rw [hops]
    simp [List.filter, hA1, hA2, hB1, hB2]

theorem present_ships_changed_layers_witness :
    (modeOneDisplay.present sampleProtocol sampleSession).2.2.2.ops =
      sampleSession.ops ++
        sampleProtocol.updateLayersOps [(Hwc2Layer.ctor sampleLayerInit 0).info] ++
        sampleProtocol.presentLayersOps
          [{ layerId := 1, bufferId := sampleBuffer.addr, fence := -1, changed := true }] :=
  (present_ships_changed_layers sampleProtocol modeOneDisplay sampleSession (by decide)
    (by decide) (by decide) (by decide) (by decide)).2.2.2.2.2 0 1
    (Hwc2Layer.ctor sampleLayerInit 0)
    ((Hwc2Layer.ctor sampleLayerInit 1).setUnchanged.afterSetBuffer sampleProtocol
      sampleSession sampleBuffer (-1))
    (by decide) (by decide) (by decide) (by decide) (by decide) (by decide)

/-! ## Inbound events -/

/-- C10 fails in the code: for an unrecognized header with declared size 16 (8 bytes
beyond the 8-byte header) followed in the stream by a well-formed DisplayInfoAck,
`onDisplayEvent` drains with one read of up to 1024 bytes and consumes the 40 bytes that
are left, the following message included; the next `onDisplayEvent` finds no header,
fails and fires no `onConnect`, whereas the same DisplayInfoAck alone is decoded to width
1920 with `onConnect` fired.  For a declared size of 1108 the drain stops after 1024 of the
1100 bytes, and the next `onDisplayEvent` reads the rest of that payload as a header and
drains the DisplayInfoAck away. -/
theorem unknown_message_drain_overruns :
    (sampleProtocol.read_display_event_t (sampleUnknownMessage.take 8)).size = 16 ∧
    (unknownThenAckSession.onDisplayEvent sampleProtocol).1 = 0 ∧
    (unknownThenAckSession.onDisplayEvent sampleProtocol).2.sock.trace =
      [⟨SysOp.recv 8, 8⟩, ⟨SysOp.recv 1024, 40⟩] ∧
    (unknownThenAckSession.onDisplayEvent sampleProtocol).2.sock.rx = [] ∧
    (unknownThenAckSession.onDisplayEvent sampleProtocol).2.sock.rx ≠ sampleAckMessage ∧
    ((unknownThenAckSession.onDisplayEvent sampleProtocol).2.onDisplayEvent sampleProtocol).1
      = -1 ∧
    ((unknownThenAckSession.onDisplayEvent sampleProtocol).2.onDisplayEvent sampleProtocol).2.calls
      = [Callback.onDisconnect 7] ∧
    ((unknownThenAckSession.onDisplayEvent sampleProtocol).2.onDisplayEvent sampleProtocol).2.mWidth
      = 0 ∧
    (ackOnlySession.onDisplayEvent sampleProtocol).2.mWidth = 1920 ∧
    (ackOnlySession.onDisplayEvent sampleProtocol).2.calls = [Callback.onConnect 7] ∧
    (longUnknownSession.onDisplayEvent sampleProtocol).2.sock.trace =
      [⟨SysOp.recv 8, 8⟩, ⟨SysOp.recv 1024, 1024⟩] ∧
    (longUnknownSession.onDisplayEvent sampleProtocol).2.sock.rx =
      List.replicate 76 0 ++ sampleAckMessage ∧
    ((longUnknownSession.onDisplayEvent sampleProtocol).2.onDisplayEvent sampleProtocol).2.sock.rx
      = [] ∧
    ((longUnknownSession.onDisplayEvent sampleProtocol).2.onDisplayEvent sampleProtocol).2.calls
      = [] ∧
    ((longUnknownSession.onDisplayEvent sampleProtocol).2.onDisplayEvent sampleProtocol).2.mWidth
      = 0 := by
  set_option maxRecDepth 100000 in decide

/-! ## Rotation reconciliation -/

theorem RemoteDisplay._send_attempt (rd : RemoteDisplay) (b : Payload) (n : Nat)
    (hconn : rd.mDisconnected = false) (hn : 0 < n) :
    (rd._send (some b) n).2.ops = rd.ops ++ [SysOp.send b n] := by
  have hn0 : n ≠ 0 := by omega
  by_cases hr : (rd.sock.send b n).1 ≤ 0 <;>
    simp [RemoteDisplay._send, hconn, hn0, hr, RemoteDisplay.ops, RemoteDisplay.disconnect,
      Socket.send_trace]

theorem Hwc2Display.scanTransform_of_scanEnd (mTransform : Nat) (m : LayerMap) (tr0 : Nat)
    (e : Nat × Hwc2Layer) (h : Hwc2Display.scanEnd mTransform m = some e) :
    Hwc2Display.scanTransform mTransform m tr0 = (e.2.info.transform % 2 ^ 32).toNat := by
  induction m generalizing tr0 with
  | nil => simp [Hwc2Display.scanEnd] at h
  | cons a rest ih =>
    by_cases hb : a.2.layerBuffer.bufferId ≠ 0 ∧ (a.2.info.transform % 2 ^ 32).toNat = mTransform
    · have hae : a = e := by
        simp only [Hwc2Display.scanEnd] at h
        rw [if_pos hb] at h
        exact Option.some.inj h
      subst hae
      simp only [Hwc2Display.scanTransform]
      rw [if_pos hb]
    · cases rest with
      | nil =>
        have hae : a = e := by
          simp only [Hwc2Display.scanEnd] at h
          rw [if_neg hb] at h
          exact Option.some.inj h
        subst hae
        simp only [Hwc2Display.scanTransform]
        rw [if_neg hb]
      | cons b rest2 =>
        have hrest : Hwc2Display.scanEnd mTransform (b :: rest2) = some e := by
          rw [Hwc2Display.scanEnd.eq_def] at h
          simp only at h
          rw [if_neg hb] at h
          exact h
        rw [Hwc2Display.scanTransform, if_neg hb]
        exact ih _ hrest

theorem RemoteDisplay.setRotation_ops (p : Protocol) (rd : RemoteDisplay) (rot : Int)
    (hconn : rd.mDisconnected = false) (hsz : 0 < p.sizeof_rotation_event_t) :
    (rd.setRotation p rot).2.ops = rd.ops ++ [p.setRotationOp rot] := by
  have h := RemoteDisplay._send_attempt rd
    (Payload.rotation_event p.DD_EVENT_SET_ROTATION (p.sizeof_rotation_event_t % 2 ^ 32) rot)
    p.sizeof_rotation_event_t hconn hsz
  simp only [RemoteDisplay.setRotation, Protocol.setRotationOp]
  split_ifs <;> exact h

/-- When the scan ends with a transform different from the cached one, `updateRotation`
writes one SetRotation with the mapped code and caches the transform. -/
theorem Hwc2Display.updateRotation_sends (p : Protocol) (d : Hwc2Display) (rd : RemoteDisplay)
    (hatt : d.mRemoteDisplay.isSome = true) (hconn : rd.mDisconnected = false)
    (hsz : 0 < p.sizeof_rotation_event_t)
    (hne : Hwc2Display.scanTransform d.mTransform d.mLayers 0 ≠ d.mTransform) :
    (d.updateRotation p rd).2.2.ops =
      rd.ops ++ [p.setRotationOp
        (if Hwc2Display.scanTransform d.mTransform d.mLayers 0 = 0 then 0
         else if Hwc2Display.scanTransform d.mTransform d.mLayers 0 = 4 then 1
         else if Hwc2Display.scanTransform d.mTransform d.mLayers 0 = 3 then 2 else 3)] ∧
    (d.updateRotation p rd).2.1.mTransform =
      Hwc2Display.scanTransform d.mTransform d.mLayers 0 := by
  have hnone : d.mRemoteDisplay.isNone = false := by
    cases h : d.mRemoteDisplay <;> simp [h] at hatt ⊢
  simp only [Hwc2Display.updateRotation, hnone, Bool.false_eq_true, if_false, ne_eq, hne,
    not_false_eq_true, if_true, and_true]
  exact RemoteDisplay.setRotation_ops p rd _ hconn hsz

/-- C11, as the code has it. On an attached display with cached transform 0 whose session
is connected, when the scan of `updateRotation` ends on a layer with transform 4, 3, 7 or 9
it writes one SetRotation message with the code 1, 2, 3, 3 respectively and sets the cached
transform to that value (any value other than 0, 4, 3 gives the code 3); when the scan ends
on a layer with transform 0, the cached value, nothing is sent and the display is left as
it is. -/
theorem rotation_codes (p : Protocol) (d : Hwc2Display) (rd : RemoteDisplay)
    (e : Nat × Hwc2Layer) (hatt : d.mRemoteDisplay.isSome = true)
    (hconn : rd.mDisconnected = false) (hsz : 0 < p.sizeof_rotation_event_t)
    (hcache : d.mTransform = 0) (hend : Hwc2Display.scanEnd d.mTransform d.mLayers = some e) :
    (e.2.info.transform = 0 → (d.updateRotation p rd).2 = (d, rd)) ∧
    (e.2.info.transform = 4 →
      (d.updateRotation p rd).2.2.ops = rd.ops ++ [p.setRotationOp 1] ∧
      (d.updateRotation p rd).2.1.mTransform = 4) ∧
    (e.2.info.transform = 3 →
      (d.updateRotation p rd).2.2.ops = rd.ops ++ [p.setRotationOp 2] ∧
      (d.updateRotation p rd).2.1.mTransform = 3) ∧
    (e.2.info.transform = 7 →
      (d.updateRotation p rd).2.2.ops = rd.ops ++ [p.setRotationOp 3] ∧
      (d.updateRotation p rd).2.1.mTransform = 7) ∧
    (e.2.info.transform = 9 →
      (d.updateRotation p rd).2.2.ops = rd.ops ++ [p.setRotationOp 3] ∧
      (d.updateRotation p rd).2.1.mTransform = 9) ∧
    (∀ t : Nat, t < 2 ^ 32 → t ≠ 0 → t ≠ 4 → t ≠ 3 → e.2.info.transform = (t : Int) →
      (d.updateRotation p rd).2.2.ops = rd.ops ++ [p.setRotationOp 3] ∧
      (d.updateRotation p rd).2.1.mTransform = t) := by
  have hscan := Hwc2Display.scanTransform_of_scanEnd d.mTransform d.mLayers 0 e hend
  have key : ∀ t : Nat, t < 2 ^ 32 → t ≠ 0 → e.2.info.transform = (t : Int) →
      (d.updateRotation p rd).2.2.ops =
        rd.ops ++ [p.setRotationOp
          (if t = 0 then 0 else if t = 4 then 1 else if t = 3 then 2 else 3)] ∧
      (d.updateRotation p rd).2.1.mTransform = t := by
    intro t ht h0 het
    have hs : Hwc2Display.scanTransform d.mTransform d.mLayers 0 = t := by
      rw [hscan, het]
      omega
    have hne : Hwc2Display.scanTransform d.mTransform d.mLayers 0 ≠ d.mTransform := by
      rw [hs, hcache]; exact h0
    have := Hwc2Display.updateRotation_sends p d rd hatt hconn hsz hne
    rw [hs] at this
    exact this
  refine ⟨?_, ?_, ?_, ?_, ?_, ?_⟩
  · intro h0
    have hs : Hwc2Display.scanTransform d.mTransform d.mLayers 0 = d.mTransform := by
      rw [hscan, h0, hcache]; rfl
    have hnone : d.mRemoteDisplay.isNone = false := by
      cases h : d.mRemoteDisplay <;> simp [h] at hatt ⊢
    simp [Hwc2Display.updateRotation, hnone, hs]
  · intro h; simpa using key 4 (by norm_num) (by norm_num) (by simpa using h)
  · intro h; simpa using key 3 (by norm_num) (by norm_num) (by simpa using h)
  · intro h; simpa using key 7 (by norm_num) (by norm_num) (by simpa using h)
  · intro h; simpa using key 9 (by norm_num) (by norm_num) (by simpa using h)
  · intro t ht h0 h4 h3 het
    simpa [h0, h4, h3] using key t ht h0 het

theorem rotation_codes_witness :
    ((rotationDisplay 7).updateRotation sampleProtocol sampleSession).2.2.ops =
      sampleSession.ops ++ [sampleProtocol.setRotationOp 3] ∧
    ((rotationDisplay 7).updateRotation sampleProtocol sampleSession).2.1.mTransform = 7 :=
  (rotation_codes sampleProtocol (rotationDisplay 7) sampleSession
    (0, (((Hwc2Layer.ctor sampleLayerInit 0).setTransform 7).2.afterSetBuffer sampleProtocol
            sampleSession sampleBuffer (-1)))
    (by decide) (by decide) (by decide) (by decide) (by decide)).2.2.2.1 (by decide)

/-- C11 fails for the transform 0: on an attached display with cached transform 0 whose
only layer has a buffer and the transform 0, `updateRotation` sends no SetRotation at all
(the claim has it send the code 0); with the transforms 4, 3, 7 and 9 it sends the codes
1, 2, 3 and 3. -/
theorem rotation_zero_sends_nothing :
    ((rotationDisplay 0).updateRotation sampleProtocol sampleSession).2.2.ops = [] ∧
    ((rotationDisplay 0).updateRotation sampleProtocol sampleSession).2.2 = sampleSession ∧
    ((rotationDisplay 0).updateRotation sampleProtocol sampleSession).2.1.mTransform = 0 ∧
    ((rotationDisplay 4).updateRotation sampleProtocol sampleSession).2.2.ops =
      [sampleProtocol.setRotationOp 1] ∧
    ((rotationDisplay 3).updateRotation sampleProtocol sampleSession).2.2.ops =
      [sampleProtocol.setRotationOp 2] ∧
    ((rotationDisplay 7).updateRotation sampleProtocol sampleSession).2.2.ops =
      [sampleProtocol.setRotationOp 3] ∧
    ((rotationDisplay 9).updateRotation sampleProtocol sampleSession).2.2.ops =
      [sampleProtocol.setRotationOp 3] := by
  decide

/-! ## Display info -/

/-- A receive changes nothing of the session but the socket, the disconnected mark and the
listener call log. -/
theorem RemoteDisplay._recv_frame (rd : RemoteDisplay) (buf : Bool) (n : Nat) :
    (rd._recv buf n).2.2.mWidth = rd.mWidth ∧ (rd._recv buf n).2.2.mHeight = rd.mHeight ∧
    (rd._recv buf n).2.2.mFramerate = rd.mFramerate ∧ (rd._recv buf n).2.2.mXDpi = rd.mXDpi ∧
    (rd._recv buf n).2.2.mYDpi = rd.mYDpi ∧
    (rd._recv buf n).2.2.mDisplayFlags = rd.mDisplayFlags ∧
    (rd._recv buf n).2.2.mStatusListener = rd.mStatusListener ∧
    (rd._recv buf n).2.2.mEventListener = rd.mEventListener ∧
    (rd._recv buf n).2.2.mSocketFd = rd.mSocketFd := by
  unfold RemoteDisplay._recv
  by_cases hd : rd.mDisconnected = true
  · simp [hd]
  · by_cases hb : (!buf || n == 0) = true
    · simp [hd, hb]
    · by_cases hr : (rd.sock.recv n).1 ≤ 0 <;> simp [hd, hb, hr, RemoteDisplay.disconnect]

/-- A receive that does not fail calls no listener. -/
theorem RemoteDisplay._recv_calls (rd : RemoteDisplay) (buf : Bool) (n : Nat)
    (h : ¬ (rd._recv buf n).1 < 0) : (rd._recv buf n).2.2.calls = rd.calls := by
  unfold RemoteDisplay._recv at h ⊢
  by_cases hd : rd.mDisconnected = true
  · simp [hd] at h
  · by_cases hb : (!buf || n == 0) = true
    · simp [hd, hb]
    · by_cases hr : (rd.sock.recv n).1 ≤ 0
      · simp [hd, hb, hr] at h
      · simp [hd, hb, hr]

/-! ## Reads into variables that are not initialised -/

/-- A read that stores all `n` bytes of a buffer leaves nothing of what it held before. -/
theorem bufferAfter_full (old got : List Nat) (n : Nat) (h : got.length = n) :
    bufferAfter old n got = got := by
  unfold bufferAfter
  rw [List.take_append_of_le_length (by omega), List.take_of_length_le (by omega)]

/-- Taking the contents of an uninitialised variable changes nothing of the session but the
list `uninit`. -/
theorem RemoteDisplay.declare_frame (rd : RemoteDisplay) :
    rd.declare.2.mWidth = rd.mWidth ∧ rd.declare.2.mHeight = rd.mHeight ∧
    rd.declare.2.mFramerate = rd.mFramerate ∧ rd.declare.2.mXDpi = rd.mXDpi ∧
    rd.declare.2.mYDpi = rd.mYDpi ∧ rd.declare.2.mDisplayFlags = rd.mDisplayFlags ∧
    rd.declare.2.mStatusListener = rd.mStatusListener ∧
    rd.declare.2.mEventListener = rd.mEventListener ∧
    rd.declare.2.mSocketFd = rd.mSocketFd ∧ rd.declare.2.calls = rd.calls ∧
    rd.declare.2.sock = rd.sock ∧ rd.declare.2.mDisconnected = rd.mDisconnected ∧
    rd.declare.2.allocs = rd.allocs := by
  unfold RemoteDisplay.declare
  cases rd.uninit <;> simp

theorem RemoteDisplay.declare_displayInfo (rd : RemoteDisplay) :
    rd.declare.2.displayInfo = rd.displayInfo := by
  obtain ⟨h1, h2, h3, h4, h5, h6, _⟩ := RemoteDisplay.declare_frame rd
  simp [RemoteDisplay.displayInfo, h1, h2, h3, h4, h5, h6]

/-- C12. When the read of `onDisplayInfoAck` stores the whole payload and the handler
returns 0, a following `attach` of the session succeeds and gives the display the width,
height, frame rate and dpi of the received payload, and the version and mode fields of its
flags word; `onConnect` is called exactly once when a status listener is registered.  With
the sample wire layout, a session that sends the DisplayInfoRequest and then receives the
DisplayInfoAck 1920 x 1080, 60 fps, 160 x 160 dpi, version 1, mode 1 gives a display with
exactly these values, and `onConnect` is called once. -/
theorem display_info_reaches_display (p : Protocol) (rd : RemoteDisplay) (d : Hwc2Display)
    (a : Nat)
    (hfull : (rd._recv true p.sizeof_display_info_t).2.1.length = p.sizeof_display_info_t)
    (hok : (rd.onDisplayInfoAck p).1 = 0) :
    (d.attach p (some a) (rd.onDisplayInfoAck p).2).1 = 0 ∧
    (d.attach p (some a) (rd.onDisplayInfoAck p).2).2.mRemoteDisplay = some a ∧
    (d.attach p (some a) (rd.onDisplayInfoAck p).2).2.mWidth =
      (p.read_display_info_t (rd._recv true p.sizeof_display_info_t).2.1).width ∧
    (d.attach p (some a) (rd.onDisplayInfoAck p).2).2.mHeight =
      (p.read_display_info_t (rd._recv true p.sizeof_display_info_t).2.1).height ∧
    (d.attach p (some a) (rd.onDisplayInfoAck p).2).2.mFramerate =
      (p.read_display_info_t (rd._recv true p.sizeof_display_info_t).2.1).fps ∧
    (d.attach p (some a) (rd.onDisplayInfoAck p).2).2.mXDpi =
      (p.read_display_info_t (rd._recv true p.sizeof_display_info_t).2.1).xdpi ∧
    (d.attach p (some a) (rd.onDisplayInfoAck p).2).2.mYDpi =
      (p.read_display_info_t (rd._recv true p.sizeof_display_info_t).2.1).ydpi ∧
    (d.attach p (some a) (rd.onDisplayInfoAck p).2).2.mVersion =
      p.flags_version (p.read_display_info_t (rd._recv true p.sizeof_display_info_t).2.1).flags ∧
    (d.attach p (some a) (rd.onDisplayInfoAck p).2).2.mMode =
      p.flags_mode (p.read_display_info_t (rd._recv true p.sizeof_display_info_t).2.1).flags ∧
    (rd.onDisplayInfoAck p).2.calls =
      rd.calls ++ (if rd.mStatusListener then [Callback.onConnect rd.mSocketFd] else []) ∧
    (sampleDisplay.attach sampleProtocol (some 1)
        ((ackOnlySession.getConfigs sampleProtocol 0).2.onDisplayEvent sampleProtocol).2).2 =
      { sampleDisplay with
        mRemoteDisplay := some 1, mWidth := 1920, mHeight := 1080, mFramerate := 60,
        mXDpi := 160, mYDpi := 160, mVersion := 1, mMode := 1 } ∧
    ((ackOnlySession.getConfigs sampleProtocol 0).2.onDisplayEvent sampleProtocol).2.calls =
      [Callback.onConnect 7] ∧
    ((ackOnlySession.getConfigs sampleProtocol 0).2.onDisplayEvent sampleProtocol).2.ops =
      [SysOp.send (Payload.display_event sampleProtocol.DD_EVENT_DISPINFO_REQ 8 0) 8,
       SysOp.recv 8, SysOp.recv 24] := by
  obtain ⟨_, _, _, _, _, _, hl, _, hfd⟩ :=
    RemoteDisplay._recv_frame rd true p.sizeof_display_info_t
  obtain ⟨_, _, _, _, _, _, dl, _, dfd, dcalls, _⟩ :=
    RemoteDisplay.declare_frame (rd._recv true p.sizeof_display_info_t).2.2
  have hnf : ¬ (rd._recv true p.sizeof_display_info_t).1 < 0 := by
    intro hlt
    simp [RemoteDisplay.onDisplayInfoAck, hlt] at hok
  have hcalls := RemoteDisplay._recv_calls rd true p.sizeof_display_info_t hnf
  refine ⟨rfl, rfl, ?_, ?_, ?_, ?_, ?_, ?_, ?_, ?_, by decide, by decide, by decide⟩
  all_goals simp only [Hwc2Display.attach, RemoteDisplay.onDisplayInfoAck, hnf, if_false,
    bufferAfter_full _ _ _ hfull]
  all_goals first
    | (split <;> rfl)
    | (rw [dl, dfd, dcalls, hl, hfd, hcalls]; cases rd.mStatusListener <;> simp)

theorem display_info_reaches_display_witness :
    (sampleDisplay.attach sampleProtocol (some 1)
      (ackPayloadSession.onDisplayInfoAck sampleProtocol).2).2.mWidth = 1920 ∧
    (sampleDisplay.attach sampleProtocol (some 1)
      (ackPayloadSession.onDisplayInfoAck sampleProtocol).2).2.mMode = 1 :=
  ⟨(display_info_reaches_display sampleProtocol ackPayloadSession sampleDisplay 1
      (by decide) (by decide)).2.2.1,
   (display_info_reaches_display sampleProtocol ackPayloadSession sampleDisplay 1
      (by decide) (by decide)).2.2.2.2.2.2.2.2.1⟩

/-- After a read of 4 of the 24 bytes of a DisplayInfoAck payload `onDisplayInfoAck` still
returns 0: the width is the one received, the other members are what the variable `info`
held before. -/
theorem short_payload_read_keeps_old_bytes :
    (shortAckSession.onDisplayEvent sampleProtocol).1 = 0 ∧
    (shortAckSession.onDisplayEvent sampleProtocol).2.calls = [Callback.onConnect 7] ∧
    (shortAckSession.onDisplayEvent sampleProtocol).2.mWidth = 1920 ∧
    (shortAckSession.onDisplayEvent sampleProtocol).2.mHeight = 0x07070707 ∧
    (shortAckSession.onDisplayEvent sampleProtocol).2.mFramerate = 0x07070707 := by
  decide

/-! ## Present: failures, result and frame counter -/

theorem Hwc2Display.presentTarget_frameNum (p : Protocol) (d : Hwc2Display)
    (rd : RemoteDisplay) :
    (Hwc2Display.presentTarget p d rd).1.mFrameNum = d.mFrameNum ∧
    (Hwc2Display.presentTarget p d rd).1.mRemoteDisplay = d.mRemoteDisplay := by
  unfold Hwc2Display.presentTarget Hwc2Display.updateRotation
  split_ifs <;> simp
  all_goals split_ifs
  all_goals simp

theorem Hwc2Display.presentBatches_display (p : Protocol) (d : Hwc2Display)
    (rd : RemoteDisplay) :
    (Hwc2Display.presentBatches p d rd).1 =
      if d.mMode > 0 then { d with mLayers := d.mLayers.map (fun e => (e.1, e.2.setUnchanged)) }
      else d := by
  unfold Hwc2Display.presentBatches
  split_ifs <;> rfl

/-- With every flag clear, the second block of `present` leaves the session as it is. -/
theorem Hwc2Display.presentBatches_clean (p : Protocol) (d : Hwc2Display) (rd : RemoteDisplay)
    (h : ∀ e ∈ d.mLayers, e.2.changed = false ∧ e.2.bufferChanged = false) :
    (Hwc2Display.presentBatches p d rd).2 = rd := by
  have h1 : d.mLayers.filter (fun e => e.2.changed) = [] := by
    rw [List.filter_eq_nil_iff]
    intro e he
    simp [(h e he).1]
  have h2 : d.mLayers.filter (fun e => e.2.bufferChanged) = [] := by
    rw [List.filter_eq_nil_iff]
    intro e he
    simp [(h e he).2]
  unfold Hwc2Display.presentBatches
  split_ifs <;> simp [h1, h2]

/-- C13, as the code has it. On an attached display in mode 1 or above, `present` clears
the changed and buffer-changed flags of every layer whatever the outcome of the
UpdateLayers and PresentLayersRequest sends (transport failure and allocation failure
included), so on the next cycle the batch block of `present` ships nothing: a batch whose
send failed is not shipped again. -/
theorem present_clears_flags_regardless (p : Protocol) (d : Hwc2Display) (rd : RemoteDisplay)
    (hatt : d.mRemoteDisplay.isSome = true) (hmode : 1 ≤ d.mMode) :
    (∀ e ∈ (d.present p rd).2.2.1.mLayers, e.2.changed = false ∧ e.2.bufferChanged = false) ∧
    (d.present p rd).2.2.1.mLayers.map Prod.fst = d.mLayers.map Prod.fst ∧
    (∀ rd2 : RemoteDisplay,
      (Hwc2Display.presentBatches p (d.present p rd).2.2.1 rd2).2 = rd2) := by
  obtain ⟨hfl, hfm⟩ := Hwc2Display.presentTarget_frame p d rd
  have hm : (Hwc2Display.presentTarget p d rd).1.mMode > 0 := by rw [hfm]; omega
  have hlayers : (d.present p rd).2.2.1.mLayers =
      d.mLayers.map (fun e => (e.1, e.2.setUnchanged)) := by
    simp only [Hwc2Display.present, hatt, if_true, Hwc2Display.presentBatches_display, hm, hfl]
  have hclean : ∀ e ∈ (d.present p rd).2.2.1.mLayers,
      e.2.changed = false ∧ e.2.bufferChanged = false := by
    rw [hlayers]
    intro e he
    obtain ⟨a, _, rfl⟩ := List.mem_map.mp he
    exact ⟨rfl, rfl⟩
  refine ⟨hclean, ?_, ?_⟩
  · rw [hlayers, List.map_map]
    rfl
  · intro rd2
    exact Hwc2Display.presentBatches_clean p _ rd2 hclean

theorem present_clears_flags_regardless_witness :
    (modeOneDisplay.present sampleProtocol failingWriteSession).2.2.1.mLayers.all
      (fun e => !e.2.changed && !e.2.bufferChanged) = true :=
  List.all_eq_true.mpr (fun e he => by
    simp [(present_clears_flags_regardless sampleProtocol modeOneDisplay failingWriteSession
      (by decide) (by decide)).1 e he])

/-- C13 fails in the code: on the two-layer display in mode 1 (layer 0 changed, layer 1
buffer-changed), when the first write of the UpdateLayers message fails, nothing more is
written, yet both flags of both layers are clear after `present` and the next `present` on
a working session writes nothing; when the allocation of the UpdateLayers scratch array
fails, the UpdateLayers message is not written at all, and the changed flag of layer 0 is
clear all the same. -/
theorem failed_batch_is_not_kept :
    (modeOneDisplay.mLayers.map (fun e => (e.1, e.2.changed, e.2.bufferChanged))) =
      [(0, true, false), (1, false, true)] ∧
    (modeOneDisplay.present sampleProtocol failingWriteSession).2.2.2.sock.trace =
      [⟨SysOp.send (Payload.update_layers_event sampleProtocol.DD_EVENT_UPDATE_LAYERS 92 1) 12,
        -1⟩] ∧
    (modeOneDisplay.present sampleProtocol failingWriteSession).2.2.2.mDisconnected = true ∧
    ((modeOneDisplay.present sampleProtocol failingWriteSession).2.2.1.mLayers.map
        (fun e => (e.1, e.2.changed, e.2.bufferChanged))) =
      [(0, false, false), (1, false, false)] ∧
    ((modeOneDisplay.present sampleProtocol failingWriteSession).2.2.1.present sampleProtocol
        sampleSession).2.2.2.ops = [] ∧
    (modeOneDisplay.present sampleProtocol failingAllocSession).2.2.2.ops =
      sampleProtocol.presentLayersOps
        [{ layerId := 1, bufferId := sampleBuffer.addr, fence := -1, changed := true }] ∧
    ((modeOneDisplay.present sampleProtocol failingAllocSession).2.2.1.mLayers.map
        (fun e => (e.1, e.2.changed, e.2.bufferChanged))) =
      [(0, false, false), (1, false, false)] := by
  decide

theorem RemoteDisplay._send_disconnected (rd : RemoteDisplay) (buf : Option Payload) (n : Nat)
    (h : rd.mDisconnected = true) : rd._send buf n = (-1, rd) := by
  simp [RemoteDisplay._send, h]

theorem RemoteDisplay._recv_disconnected (rd : RemoteDisplay) (buf : Bool) (n : Nat)
    (h : rd.mDisconnected = true) : rd._recv buf n = (-1, [], rd) := by
  simp [RemoteDisplay._recv, h]

theorem RemoteDisplay.malloc_frame (rd : RemoteDisplay) :
    rd.malloc.2.mDisconnected = rd.mDisconnected ∧ rd.malloc.2.sock = rd.sock ∧
    rd.malloc.2.calls = rd.calls := by
  unfold RemoteDisplay.malloc
  cases rd.allocs <;> simp

/-- C15 fails in the code for `createBuffer` with a null handle.  On a channel marked
disconnected `getConfigs`, `removeBuffer`, `displayBuffer`, `setRotation`, `createLayer`
and `removeLayer` return -1, make no system call and leave the session object as it is, and
so does `createBuffer` for a handle that is not null; `updateLayers` and `presentLayers`,
for any batch, the empty one included, return -1 and leave the socket, the listener call
log and the disconnected mark as they are; `onDisplayEvent` returns -1 and leaves the
session object as it is, so it reads nothing and calls no listener.  `createBuffer` with
the null handle has no outcome: it reads `buffer->numFds` for the size field before its
first `_send`, which is where the disconnected mark is tested, so it does not return the
failure. -/
theorem disconnected_session_fails_fast (p : Protocol) (rd : RemoteDisplay)
    (h : rd.mDisconnected = true) :
    (∀ id, rd.getConfigs p id = (-1, rd)) ∧
    (∀ b, b.addr ≠ 0 → rd.createBuffer p b = some (-1, rd)) ∧
    (∀ b, b.addr = 0 → rd.createBuffer p b = none) ∧
    (∀ b, rd.removeBuffer p b = (-1, rd)) ∧
    (∀ b, rd.displayBuffer p b = (-1, rd)) ∧
    (∀ rot, rd.setRotation p rot = (-1, rd)) ∧
    (∀ id, rd.createLayer p id = (-1, rd)) ∧
    (∀ id, rd.removeLayer p id = (-1, rd)) ∧
    (∀ infos, (rd.updateLayers p infos).1 = -1 ∧ (rd.updateLayers p infos).2.sock = rd.sock ∧
      (rd.updateLayers p infos).2.calls = rd.calls ∧
      (rd.updateLayers p infos).2.mDisconnected = true) ∧
    (∀ bufs, (rd.presentLayers p bufs).1 = -1 ∧ (rd.presentLayers p bufs).2.sock = rd.sock ∧
      (rd.presentLayers p bufs).2.calls = rd.calls ∧
      (rd.presentLayers p bufs).2.mDisconnected = true) ∧
    rd.onDisplayEvent p = (-1, rd) := by
  obtain ⟨hm1, hm2, hm3⟩ := RemoteDisplay.malloc_frame rd
  have hmd : rd.malloc.2.mDisconnected = true := by rw [hm1]; exact h
  refine ⟨?_, ?_, ?_, ?_, ?_, ?_, ?_, ?_, ?_, ?_, ?_⟩
  · intro id; simp [RemoteDisplay.getConfigs, RemoteDisplay._send_disconnected rd _ _ h]
  · intro b hb
    simp [RemoteDisplay.createBuffer, RemoteDisplay.createBufferSends, hb,
      RemoteDisplay._send_disconnected rd _ _ h]
  · intro b hb; simp [RemoteDisplay.createBuffer, hb]
  · intro b; simp [RemoteDisplay.removeBuffer, RemoteDisplay._send_disconnected rd _ _ h]
  · intro b; simp [RemoteDisplay.displayBuffer, RemoteDisplay._send_disconnected rd _ _ h]
  · intro rot; simp [RemoteDisplay.setRotation, RemoteDisplay._send_disconnected rd _ _ h]
  · intro id; simp [RemoteDisplay.createLayer, RemoteDisplay._send_disconnected rd _ _ h]
  · intro id; simp [RemoteDisplay.removeLayer, RemoteDisplay._send_disconnected rd _ _ h]
  · intro infos
    unfold RemoteDisplay.updateLayers
    generalize infos.length % 2 ^ 32 = N
    by_cases hn : N = 0
    · simp [hn, RemoteDisplay._send_disconnected rd _ _ h, h]
    · by_cases ha : rd.malloc.1 = true
      · simp [hn, ha, RemoteDisplay._send_disconnected rd.malloc.2 _ _ hmd, hm2, hm3, hmd]
      · simp [hn, ha, hm2, hm3, hmd]
  · intro bufs
    unfold RemoteDisplay.presentLayers
    generalize bufs.length % 2 ^ 32 = N
    by_cases hn : N = 0
    · simp [hn, RemoteDisplay._send_disconnected rd _ _ h, h]
    · by_cases ha : rd.malloc.1 = true
      · simp [hn, ha, RemoteDisplay._send_disconnected rd.malloc.2 _ _ hmd, hm2, hm3, hmd]
      · simp [hn, ha, hm2, hm3, hmd]
  · simp [RemoteDisplay.onDisplayEvent, RemoteDisplay._recv_disconnected rd _ _ h]

/-- On the disconnected sample session `createBuffer` fails without a call for
`sampleBuffer` and has no outcome for the null handle, while `removeBuffer` and
`displayBuffer` fail without a call for the null handle too. -/
theorem disconnected_session_fails_fast_witness :
    disconnectedSession.createBuffer sampleProtocol sampleBuffer =
      some (-1, disconnectedSession) ∧
    disconnectedSession.createBuffer sampleProtocol nullBuffer = none ∧
    disconnectedSession.removeBuffer sampleProtocol nullBuffer = (-1, disconnectedSession) ∧
    disconnectedSession.displayBuffer sampleProtocol nullBuffer = (-1, disconnectedSession) ∧
    disconnectedSession.onDisplayEvent sampleProtocol = (-1, disconnectedSession) :=
  have h := disconnected_session_fails_fast sampleProtocol disconnectedSession (by decide)
  ⟨h.2.1 sampleBuffer (by decide), h.2.2.1 nullBuffer rfl, h.2.2.2.1 nullBuffer,
    h.2.2.2.2.1 nullBuffer, h.2.2.2.2.2.2.2.2.2.2⟩

/-! ## Message framing -/

theorem RemoteDisplay._sendFds_ok (rd : RemoteDisplay) (fds : List Int) (hh : rd.healthy) :
    (rd._sendFds fds).1 = 0 ∧ (rd._sendFds fds).2.healthy ∧
    (rd._sendFds fds).2.ops = rd.ops ++ [SysOp.sendmsg fds 16] := by
  obtain ⟨hc, hs, ha⟩ := hh
  have hpos : ¬ (rd.sock.sendmsg fds 16).1 ≤ 0 := by
    unfold Socket.sendmsg
    cases hscr : rd.sock.script with
    | nil => simp
    | cons r rest =>
      have := hs r (by rw [hscr]; exact List.mem_cons_self _ _)
      simp; omega
  have hscript : ∀ r ∈ (rd.sock.sendmsg fds 16).2.script, 0 < r := by
    unfold Socket.sendmsg
    cases hscr : rd.sock.script with
    | nil => simp [hscr]
    | cons r rest =>
      intro x hx
      exact hs x (by rw [hscr]; exact List.mem_cons_of_mem _ hx)
  refine ⟨?_, ?_, ?_⟩
  · simp [RemoteDisplay._sendFds, hc, hpos]
  · simp only [RemoteDisplay._sendFds, hc, hpos, RemoteDisplay.healthy, if_false,
      Bool.false_eq_true]
    exact ⟨trivial, hscript, ha⟩
  · simp [RemoteDisplay._sendFds, hc, hpos, RemoteDisplay.ops, Socket.sendmsg_trace]

theorem RemoteDisplay.opsSince_of_append (rd rd1 : RemoteDisplay) (xs : List SysOp)
    (h : rd1.ops = rd.ops ++ xs) : rd.opsSince rd1 = xs := by
  unfold RemoteDisplay.opsSince
  rw [h, List.drop_left]

/-- On a healthy session the statements of `createBuffer` write the header, the buffer id
and the native handle, then transfer the descriptors when there are any. -/
theorem RemoteDisplay.createBufferSends_ops (p : Protocol) (rd : RemoteDisplay)
    (b : buffer_handle_t) (hp : p.sizesPositive) (hh : rd.healthy) :
    (rd.createBufferSends p b).1 = 0 ∧ (rd.createBufferSends p b).2.healthy ∧
    (rd.createBufferSends p b).2.ops = rd.ops ++
      [SysOp.send
        (Payload.display_event p.DD_EVENT_CREATE_BUFFER
          ((p.sizeof_buffer_info_event_t + p.sizeof_native_handle_t +
            (b.numFds + b.numInts) * 4) % 2 ^ 32) 0)
        p.sizeof_display_event_t,
       SysOp.send (Payload.buffer_info b.addr) p.sizeof_buffer_info_t,
       SysOp.send (Payload.native_handle b)
        (p.sizeof_native_handle_t + (b.numFds + b.numInts) * 4)] ++
      (if b.numFds > 0 then [SysOp.sendmsg (b.data.take b.numFds) 16] else []) := by
  obtain ⟨a1, a2, a3⟩ := RemoteDisplay._send_ok rd
    (Payload.display_event p.DD_EVENT_CREATE_BUFFER
      ((p.sizeof_buffer_info_event_t + p.sizeof_native_handle_t +
        (b.numFds + b.numInts) * 4) % 2 ^ 32) 0)
    p.sizeof_display_event_t hh hp.1
  generalize hr1 : rd._send
    (some (Payload.display_event p.DD_EVENT_CREATE_BUFFER
      ((p.sizeof_buffer_info_event_t + p.sizeof_native_handle_t +
        (b.numFds + b.numInts) * 4) % 2 ^ 32) 0))
    p.sizeof_display_event_t = r1 at a1 a2 a3
  obtain ⟨b1, b2, b3⟩ := RemoteDisplay._send_ok r1.2 (Payload.buffer_info b.addr)
    p.sizeof_buffer_info_t a2 hp.2.2.1
  generalize hr2 : r1.2._send (some (Payload.buffer_info b.addr)) p.sizeof_buffer_info_t = r2
    at b1 b2 b3
  have hsz : 0 < p.sizeof_native_handle_t + (b.numFds + b.numInts) * 4 := by
    have := hp.2.2.2.2.1
    omega
  obtain ⟨c1, c2, c3⟩ := RemoteDisplay._send_ok r2.2 (Payload.native_handle b)
    (p.sizeof_native_handle_t + (b.numFds + b.numInts) * 4) b2 hsz
  generalize hr3 : r2.2._send (some (Payload.native_handle b))
    (p.sizeof_native_handle_t + (b.numFds + b.numInts) * 4) = r3 at c1 c2 c3
  obtain ⟨d1, d2, d3⟩ := RemoteDisplay._sendFds_ok r3.2 (b.data.take b.numFds) c2
  generalize hr4 : r3.2._sendFds (b.data.take b.numFds) = r4 at d1 d2 d3
  simp only [RemoteDisplay.createBufferSends, hr1, a1, hr2, b1, if_false, hr3, c1, hr4, d1,
    lt_self_iff_false]
  by_cases hf : b.numFds > 0
  · simp only [hf, if_true]
    refine ⟨trivial, d2, ?_⟩
    rw [d3, c3, b3, a3]
    simp
  · simp only [hf, if_false]
    refine ⟨trivial, c2, ?_⟩
    rw [c3, b3, a3]
    simp
theorem RemoteDisplay.removeBuffer_ops (p : Protocol) (rd : RemoteDisplay)
    (b : buffer_handle_t) (hp : p.sizesPositive) (hh : rd.healthy) :
    (rd.removeBuffer p b).2.ops = rd.ops ++
      [SysOp.send
        (Payload.display_event p.DD_EVENT_REMOVE_BUFFER (p.sizeof_buffer_info_event_t % 2 ^ 32) 0)
        p.sizeof_display_event_t,
       SysOp.send (Payload.buffer_info b.addr) p.sizeof_buffer_info_t] := by
  obtain ⟨a1, a2, a3⟩ := RemoteDisplay._send_ok rd
    (Payload.display_event p.DD_EVENT_REMOVE_BUFFER (p.sizeof_buffer_info_event_t % 2 ^ 32) 0)
    p.sizeof_display_event_t hh hp.1
  generalize hr1 : rd._send
    (some (Payload.display_event p.DD_EVENT_REMOVE_BUFFER
      (p.sizeof_buffer_info_event_t % 2 ^ 32) 0))
    p.sizeof_display_event_t = r1 at a1 a2 a3
  obtain ⟨b1, _, b3⟩ := RemoteDisplay._send_ok r1.2 (Payload.buffer_info b.addr)
    p.sizeof_buffer_info_t a2 hp.2.2.1
  generalize hr2 : r1.2._send (some (Payload.buffer_info b.addr)) p.sizeof_buffer_info_t = r2
    at b1 b3
  simp only [RemoteDisplay.removeBuffer, hr1, a1, hr2, b1, lt_self_iff_false, if_false]
  rw [b3, a3]
  simp

theorem RemoteDisplay._send_none (rd : RemoteDisplay) (n : Nat)
    (hc : rd.mDisconnected = false) : rd._send none n = (0, rd) := by
  simp [RemoteDisplay._send, hc]

theorem RemoteDisplay.updateLayers_empty (p : Protocol) (rd : RemoteDisplay)
    (hp : p.sizesPositive) (hh : rd.healthy) :
    (rd.updateLayers p []).2.ops = rd.ops ++
      [SysOp.send
        (Payload.update_layers_event p.DD_EVENT_UPDATE_LAYERS
          (p.sizeof_update_layers_event_t % 2 ^ 32) 0)
        p.sizeof_update_layers_event_t] := by
  obtain ⟨a1, a2, a3⟩ := RemoteDisplay._send_ok rd
    (Payload.update_layers_event p.DD_EVENT_UPDATE_LAYERS
      (p.sizeof_update_layers_event_t % 2 ^ 32) 0)
    p.sizeof_update_layers_event_t hh hp.2.2.2.2.2.2.2.2.1
  generalize hr1 : rd._send
    (some (Payload.update_layers_event p.DD_EVENT_UPDATE_LAYERS
      (p.sizeof_update_layers_event_t % 2 ^ 32) 0))
    p.sizeof_update_layers_event_t = r1 at a1 a2 a3
  have hc : r1.2.mDisconnected = false := a2.1
  simp only [RemoteDisplay.updateLayers, List.length_nil, Nat.zero_mod, ne_eq, not_true_eq_false,
    if_false, Nat.mul_zero, Nat.add_zero, Bool.not_true, Bool.false_eq_true, hr1, a1,
    lt_self_iff_false, RemoteDisplay._send_none r1.2 _ hc]
  exact a3

theorem RemoteDisplay.presentLayers_empty (p : Protocol) (rd : RemoteDisplay)
    (hp : p.sizesPositive) (hh : rd.healthy) :
    (rd.presentLayers p []).2.ops = rd.ops ++
      [SysOp.send
        (Payload.present_layers_req_event p.DD_EVENT_PRESENT_LAYERS_REQ
          (p.sizeof_present_layers_req_event_t % 2 ^ 32) 0)
        p.sizeof_present_layers_req_event_t] := by
  obtain ⟨a1, a2, a3⟩ := RemoteDisplay._send_ok rd
    (Payload.present_layers_req_event p.DD_EVENT_PRESENT_LAYERS_REQ
      (p.sizeof_present_layers_req_event_t % 2 ^ 32) 0)
    p.sizeof_present_layers_req_event_t hh hp.2.2.2.2.2.2.2.2.2.2.1
  generalize hr1 : rd._send
    (some (Payload.present_layers_req_event p.DD_EVENT_PRESENT_LAYERS_REQ
      (p.sizeof_present_layers_req_event_t % 2 ^ 32) 0))
    p.sizeof_present_layers_req_event_t = r1 at a1 a2 a3
  have hc : r1.2.mDisconnected = false := a2.1
  simp only [RemoteDisplay.presentLayers, List.length_nil, Nat.zero_mod, ne_eq, not_true_eq_false,
    if_false, Nat.mul_zero, Nat.add_zero, Bool.not_true, Bool.false_eq_true, hr1, a1,
    lt_self_iff_false, RemoteDisplay._send_none r1.2 _ hc]
  exact a3

/-- A message written by a single successful send of a struct that begins with the header and
stores its own size in the 32-bit size field: the field holds the bytes sent exactly when the
size fits the field. -/
theorem RemoteDisplay.single_send_framed_iff (rd : RemoteDisplay) (pl : Payload)
    (code n : Nat) (hh : rd.healthy) (hn : 0 < n)
    (hhdr : pl.header = some (code, n % 2 ^ 32)) :
    SysOp.framed code (rd.opsSince (rd._send (some pl) n).2) = true ↔ n < 2 ^ 32 := by
  obtain ⟨_, _, h3⟩ := RemoteDisplay._send_ok rd pl n hh hn
  rw [RemoteDisplay.opsSince_of_append rd _ _ h3]
  simp only [SysOp.framed, hhdr, List.map_cons, List.map_nil, SysOp.inBandBytes,
    List.sum_cons, List.sum_nil, Nat.add_zero, beq_iff_eq, Option.some.injEq, Prod.mk.injEq,
    true_and]
  exact Nat.mod_eq_iff_lt (by norm_num)

/-- A message written by a single successful send of a struct that begins with the header
carries the type stored in that header. -/
theorem RemoteDisplay.single_send_typed (rd : RemoteDisplay) (pl : Payload)
    (code n sz : Nat) (hh : rd.healthy) (hn : 0 < n) (hhdr : pl.header = some (code, sz)) :
    SysOp.typed code (rd.opsSince (rd._send (some pl) n).2) = true := by
  obtain ⟨_, _, h3⟩ := RemoteDisplay._send_ok rd pl n hh hn
  rw [RemoteDisplay.opsSince_of_append rd _ _ h3]
  simp [SysOp.typed, hhdr]

/-- The UpdateLayers message of a batch whose length fits the 32-bit count carries the code
of UpdateLayers. -/
theorem RemoteDisplay.updateLayers_typed (p : Protocol) (rd : RemoteDisplay)
    (infos : List layer_info_t) (hp : p.sizesPositive) (hh : rd.healthy)
    (hlen : infos.length < 2 ^ 32) :
    SysOp.typed p.DD_EVENT_UPDATE_LAYERS (rd.opsSince (rd.updateLayers p infos).2) = true := by
  cases infos with
  | nil =>
    rw [RemoteDisplay.opsSince_of_append rd _ _ (RemoteDisplay.updateLayers_empty p rd hp hh)]
    simp [SysOp.typed, Payload.header]
  | cons a rest =>
    obtain ⟨_, _, h3⟩ := RemoteDisplay.updateLayers_ok p rd (a :: rest) hp hh (by simp) hlen
    rw [RemoteDisplay.opsSince_of_append rd _ _ h3, Protocol.updateLayersOps]
    simp [SysOp.typed, Payload.header]

/-- The PresentLayersRequest message of a batch whose length fits the 32-bit count carries
the code of PresentLayersRequest. -/
theorem RemoteDisplay.presentLayers_typed (p : Protocol) (rd : RemoteDisplay)
    (bufs : List layer_buffer_info_t) (hp : p.sizesPositive) (hh : rd.healthy)
    (hlen : bufs.length < 2 ^ 32) :
    SysOp.typed p.DD_EVENT_PRESENT_LAYERS_REQ (rd.opsSince (rd.presentLayers p bufs).2)
      = true := by
  cases bufs with
  | nil =>
    rw [RemoteDisplay.opsSince_of_append rd _ _ (RemoteDisplay.presentLayers_empty p rd hp hh)]
    simp [SysOp.typed, Payload.header]
  | cons a rest =>
    obtain ⟨_, _, h3⟩ := RemoteDisplay.presentLayers_ok p rd (a :: rest) hp hh (by simp) hlen
    rw [RemoteDisplay.opsSince_of_append rd _ _ h3, Protocol.presentLayersOps]
    simp [SysOp.typed, Payload.header]

/-- The UpdateLayers message of a batch whose length fits the 32-bit count: the size field
holds the bytes handed to `send` exactly when their total fits the field. -/
theorem RemoteDisplay.updateLayers_framed (p : Protocol) (rd : RemoteDisplay)
    (infos : List layer_info_t) (hp : p.sizesPositive) (hh : rd.healthy)
    (hlen : infos.length < 2 ^ 32) :
    SysOp.framed p.DD_EVENT_UPDATE_LAYERS (rd.opsSince (rd.updateLayers p infos).2) = true ↔
      p.sizeof_update_layers_event_t + p.sizeof_layer_info_t * infos.length < 2 ^ 32 := by
  cases infos with
  | nil =>
    rw [RemoteDisplay.opsSince_of_append rd _ _ (RemoteDisplay.updateLayers_empty p rd hp hh)]
    simp only [SysOp.framed, Payload.header, List.map_cons, List.map_nil, SysOp.inBandBytes,
      List.sum_cons, List.sum_nil, Nat.add_zero, beq_iff_eq, Option.some.injEq,
      Prod.mk.injEq, true_and, List.length_nil, Nat.mul_zero]
    exact Nat.mod_eq_iff_lt (by norm_num)
  | cons a rest =>
    obtain ⟨_, _, h3⟩ := RemoteDisplay.updateLayers_ok p rd (a :: rest) hp hh (by simp) hlen
    rw [RemoteDisplay.opsSince_of_append rd _ _ h3, Protocol.updateLayersOps]
    simp only [SysOp.framed, Payload.header, List.map_cons, List.map_nil, SysOp.inBandBytes,
      List.sum_cons, List.sum_nil, Nat.add_zero, beq_iff_eq, Option.some.injEq,
      Prod.mk.injEq, true_and]
    exact Nat.mod_eq_iff_lt (by norm_num)

/-- The PresentLayersRequest message of a batch whose length fits the 32-bit count: the size
field holds the bytes handed to `send` exactly when their total fits the field. -/
theorem RemoteDisplay.presentLayers_framed (p : Protocol) (rd : RemoteDisplay)
    (bufs : List layer_buffer_info_t) (hp : p.sizesPositive) (hh : rd.healthy)
    (hlen : bufs.length < 2 ^ 32) :
    SysOp.framed p.DD_EVENT_PRESENT_LAYERS_REQ (rd.opsSince (rd.presentLayers p bufs).2)
        = true ↔
      p.sizeof_present_layers_req_event_t + p.sizeof_layer_buffer_info_t * bufs.length
        < 2 ^ 32 := by
  cases bufs with
  | nil =>
    rw [RemoteDisplay.opsSince_of_append rd _ _ (RemoteDisplay.presentLayers_empty p rd hp hh)]
    simp only [SysOp.framed, Payload.header, List.map_cons, List.map_nil, SysOp.inBandBytes,
      List.sum_cons, List.sum_nil, Nat.add_zero, beq_iff_eq, Option.some.injEq,
      Prod.mk.injEq, true_and, List.length_nil, Nat.mul_zero]
    exact Nat.mod_eq_iff_lt (by norm_num)
  | cons a rest =>
    obtain ⟨_, _, h3⟩ := RemoteDisplay.presentLayers_ok p rd (a :: rest) hp hh (by simp) hlen
    rw [RemoteDisplay.opsSince_of_append rd _ _ h3, Protocol.presentLayersOps]
    simp only [SysOp.framed, Payload.header, List.map_cons, List.map_nil, SysOp.inBandBytes,
      List.sum_cons, List.sum_nil, Nat.add_zero, beq_iff_eq, Option.some.injEq,
      Prod.mk.injEq, true_and]
    exact Nat.mod_eq_iff_lt (by norm_num)

theorem RemoteDisplay._recv_displayInfo (rd : RemoteDisplay) (buf : Bool) (n : Nat) :
    (rd._recv buf n).2.2.displayInfo = rd.displayInfo := by
  obtain ⟨h1, h2, h3, h4, h5, h6, _⟩ := RemoteDisplay._recv_frame rd buf n
  simp [RemoteDisplay.displayInfo, h1, h2, h3, h4, h5, h6]

theorem RemoteDisplay.recvLayerBuffers_displayInfo (p : Protocol) (count : Nat)
    (rd : RemoteDisplay) :
    (RemoteDisplay.recvLayerBuffers p count rd).2.displayInfo = rd.displayInfo := by
  induction count generalizing rd with
  | zero => rfl
  | succ k ih =>
    simp only [RemoteDisplay.recvLayerBuffers]
    split
    · exact RemoteDisplay._recv_displayInfo rd true _
    · rw [ih]
      exact RemoteDisplay._recv_displayInfo rd true _

theorem RemoteDisplay.onDisplayBufferAck_displayInfo (p : Protocol) (rd : RemoteDisplay) :
    (rd.onDisplayBufferAck p).2.displayInfo = rd.displayInfo := by
  have h := RemoteDisplay._recv_displayInfo rd true p.sizeof_buffer_info_t
  have hd := RemoteDisplay.declare_displayInfo (rd._recv true p.sizeof_buffer_info_t).2.2
  simp only [RemoteDisplay.onDisplayBufferAck]
  split
  · exact h
  · split
    · exact hd.trans h
    · exact hd.trans h

/-- A PresentLayersAck leaves width, height, frame rate and dpi as they are; it may change
the flags word. -/
theorem RemoteDisplay.onPresentLayersAck_dims (p : Protocol) (rd : RemoteDisplay) :
    (rd.onPresentLayersAck p).2.mWidth = rd.mWidth ∧
    (rd.onPresentLayersAck p).2.mHeight = rd.mHeight ∧
    (rd.onPresentLayersAck p).2.mFramerate = rd.mFramerate ∧
    (rd.onPresentLayersAck p).2.mXDpi = rd.mXDpi ∧
    (rd.onPresentLayersAck p).2.mYDpi = rd.mYDpi := by
  obtain ⟨h1, h2, h3, h4, h5, _⟩ := RemoteDisplay._recv_frame rd true
    (p.sizeof_present_layers_ack_event_t - p.sizeof_display_event_t)
  obtain ⟨d1, d2, d3, d4, d5, _⟩ := RemoteDisplay.declare_frame
    (rd._recv true (p.sizeof_present_layers_ack_event_t - p.sizeof_display_event_t)).2.2
  simp only [RemoteDisplay.onPresentLayersAck]
  split
  · exact ⟨h1, h2, h3, h4, h5⟩
  · have hl := RemoteDisplay.recvLayerBuffers_displayInfo p (rd.ackRead p).numLayers
      { (rd._recv true
          (p.sizeof_present_layers_ack_event_t - p.sizeof_display_event_t)).2.2.declare.2 with
        mDisplayFlags := (rd.ackRead p).flags }
    simp only [RemoteDisplay.displayInfo, Prod.mk.injEq, RemoteDisplay.ackRead] at hl
    obtain ⟨g1, g2, g3, g4, g5, _⟩ := hl
    split
    · exact ⟨g1.trans (d1.trans h1), g2.trans (d2.trans h2), g3.trans (d3.trans h3),
        g4.trans (d4.trans h4), g5.trans (d5.trans h5)⟩
    · split <;> exact ⟨g1.trans (d1.trans h1), g2.trans (d2.trans h2), g3.trans (d3.trans h3),
        g4.trans (d4.trans h4), g5.trans (d5.trans h5)⟩

/-- When its first read does not fail, `onPresentLayersAck` leaves in the flags word the
member `flags` of `ack`, whatever becomes of the reads of the layer records. -/
theorem RemoteDisplay.onPresentLayersAck_flags (p : Protocol) (rd : RemoteDisplay)
    (h : ¬ (rd._recv true
      (p.sizeof_present_layers_ack_event_t - p.sizeof_display_event_t)).1 < 0) :
    (rd.onPresentLayersAck p).2.mDisplayFlags = (rd.ackRead p).flags := by
  have hl := RemoteDisplay.recvLayerBuffers_displayInfo p (rd.ackRead p).numLayers
    { (rd._recv true
        (p.sizeof_present_layers_ack_event_t - p.sizeof_display_event_t)).2.2.declare.2 with
      mDisplayFlags := (rd.ackRead p).flags }
  simp only [RemoteDisplay.displayInfo, Prod.mk.injEq, RemoteDisplay.ackRead] at hl
  obtain ⟨_, _, _, _, _, g6⟩ := hl
  simp only [RemoteDisplay.onPresentLayersAck, if_neg h, RemoteDisplay.ackRead]
  split
  · exact g6
  · split <;> exact g6

/-- When its read does not fail, `onDisplayInfoAck` stores the six members of `info`. -/
theorem RemoteDisplay.onDisplayInfoAck_displayInfo (p : Protocol) (rd : RemoteDisplay)
    (h : ¬ (rd._recv true p.sizeof_display_info_t).1 < 0) :
    (rd.onDisplayInfoAck p).2.displayInfo =
      ((rd.infoRead p).width, (rd.infoRead p).height, (rd.infoRead p).fps,
       (rd.infoRead p).xdpi, (rd.infoRead p).ydpi, (rd.infoRead p).flags) := by
  simp only [RemoteDisplay.onDisplayInfoAck, if_neg h, RemoteDisplay.displayInfo,
    RemoteDisplay.infoRead]
  split <;> rfl

/-- C17, as the code has it. For one inbound event processed by `onDisplayEvent`, with the
type taken from the header as it stands after the read: when the header cannot be read, or
the type is neither DisplayInfoAck nor PresentLayersAck (a DisplayAck or an unrecognized
message), the display info of the session is unchanged; a PresentLayersAck leaves width,
height, frame rate and dpi unchanged and, when its first read does not fail, stores the
flags of the acknowledgement in the flags word; a DisplayInfoAck, the first or a later one,
whose payload read does not fail stores the six members of the payload over all six values.
A read that stores the whole struct leaves exactly the received bytes in it. -/
theorem display_info_after_event (p : Protocol) (rd : RemoteDisplay) :
    ((rd._recv true p.sizeof_display_event_t).1 < 0 →
      (rd.onDisplayEvent p).2.displayInfo = rd.displayInfo) ∧
    ((rd.headerRead p).type ≠ p.DD_EVENT_DISPINFO_ACK →
      (rd.headerRead p).type ≠ p.DD_EVENT_PRESENT_LAYERS_ACK →
      (rd.onDisplayEvent p).2.displayInfo = rd.displayInfo) ∧
    ((rd.headerRead p).type ≠ p.DD_EVENT_DISPINFO_ACK →
      (rd.onDisplayEvent p).2.mWidth = rd.mWidth ∧ (rd.onDisplayEvent p).2.mHeight = rd.mHeight ∧
      (rd.onDisplayEvent p).2.mFramerate = rd.mFramerate ∧
      (rd.onDisplayEvent p).2.mXDpi = rd.mXDpi ∧ (rd.onDisplayEvent p).2.mYDpi = rd.mYDpi) ∧
    (¬ (rd._recv true p.sizeof_display_event_t).1 < 0 →
      (rd.headerRead p).type ≠ p.DD_EVENT_DISPINFO_ACK →
      (rd.headerRead p).type ≠ p.DD_EVENT_DISPLAY_ACK →
      (rd.headerRead p).type = p.DD_EVENT_PRESENT_LAYERS_ACK →
      ¬ ((rd.afterHeader p)._recv true
        (p.sizeof_present_layers_ack_event_t - p.sizeof_display_event_t)).1 < 0 →
      (rd.onDisplayEvent p).2.mDisplayFlags = ((rd.afterHeader p).ackRead p).flags) ∧
    (¬ (rd._recv true p.sizeof_display_event_t).1 < 0 →
      (rd.headerRead p).type = p.DD_EVENT_DISPINFO_ACK →
      ¬ ((rd.afterHeader p)._recv true p.sizeof_display_info_t).1 < 0 →
      (rd.onDisplayEvent p).2.displayInfo =
        (((rd.afterHeader p).infoRead p).width, ((rd.afterHeader p).infoRead p).height,
         ((rd.afterHeader p).infoRead p).fps, ((rd.afterHeader p).infoRead p).xdpi,
         ((rd.afterHeader p).infoRead p).ydpi, ((rd.afterHeader p).infoRead p).flags)) ∧
    (∀ rd0 : RemoteDisplay,
      ((rd0._recv true p.sizeof_display_event_t).2.1.length = p.sizeof_display_event_t →
        rd0.headerRead p =
          p.read_display_event_t (rd0._recv true p.sizeof_display_event_t).2.1) ∧
      ((rd0._recv true p.sizeof_display_info_t).2.1.length = p.sizeof_display_info_t →
        rd0.infoRead p = p.read_display_info_t (rd0._recv true p.sizeof_display_info_t).2.1) ∧
      ((rd0._recv true
          (p.sizeof_present_layers_ack_event_t - p.sizeof_display_event_t)).2.1.length =
          p.sizeof_present_layers_ack_event_t - p.sizeof_display_event_t →
        rd0.ackRead p = p.read_present_ack_t (rd0._recv true
          (p.sizeof_present_layers_ack_event_t - p.sizeof_display_event_t)).2.1)) := by
  have hr := RemoteDisplay._recv_displayInfo rd true p.sizeof_display_event_t
  have hdi := RemoteDisplay.declare_displayInfo (rd._recv true p.sizeof_display_event_t).2.2
  have hall := hdi.trans hr
  obtain ⟨w1, w2, w3, w4, w5, _⟩ := RemoteDisplay._recv_frame rd true p.sizeof_display_event_t
  obtain ⟨e1, e2, e3, e4, e5, _⟩ :=
    RemoteDisplay.declare_frame (rd._recv true p.sizeof_display_event_t).2.2
  refine ⟨?_, ?_, ?_, ?_, ?_, ?_⟩
  · intro hlt
    simp only [RemoteDisplay.onDisplayEvent, hlt, if_true]
    exact hr
  · intro h1 h3
    unfold RemoteDisplay.headerRead at h1 h3
    by_cases hlt : (rd._recv true p.sizeof_display_event_t).1 < 0
    · simp only [RemoteDisplay.onDisplayEvent, hlt, if_true]
      exact hr
    · simp only [RemoteDisplay.onDisplayEvent]
      rw [if_neg hlt, if_neg h1]
      by_cases h2 : (rd.headerRead p).type = p.DD_EVENT_DISPLAY_ACK
      · unfold RemoteDisplay.headerRead at h2
        rw [if_pos h2, RemoteDisplay.onDisplayBufferAck_displayInfo]
        exact hall
      · unfold RemoteDisplay.headerRead at h2
        rw [if_neg h2, if_neg h3, RemoteDisplay._recv_displayInfo]
        exact hall
  · intro h1
    unfold RemoteDisplay.headerRead at h1
    by_cases hlt : (rd._recv true p.sizeof_display_event_t).1 < 0
    · simp only [RemoteDisplay.onDisplayEvent, hlt, if_true]
      exact ⟨w1, w2, w3, w4, w5⟩
    · simp only [RemoteDisplay.onDisplayEvent]
      rw [if_neg hlt, if_neg h1]
      by_cases h2 : (rd.headerRead p).type = p.DD_EVENT_DISPLAY_ACK
      · unfold RemoteDisplay.headerRead at h2
        rw [if_pos h2]
        have := RemoteDisplay.onDisplayBufferAck_displayInfo p
          (rd._recv true p.sizeof_display_event_t).2.2.declare.2
        simp only [RemoteDisplay.displayInfo, Prod.mk.injEq] at this
        obtain ⟨g1, g2, g3, g4, g5, _⟩ := this
        exact ⟨g1.trans (e1.trans w1), g2.trans (e2.trans w2), g3.trans (e3.trans w3),
          g4.trans (e4.trans w4), g5.trans (e5.trans w5)⟩
      · unfold RemoteDisplay.headerRead at h2
        rw [if_neg h2]
        by_cases h3 : (rd.headerRead p).type = p.DD_EVENT_PRESENT_LAYERS_ACK
        · unfold RemoteDisplay.headerRead at h3
          rw [if_pos h3]
          obtain ⟨g1, g2, g3, g4, g5⟩ := RemoteDisplay.onPresentLayersAck_dims p
            (rd._recv true p.sizeof_display_event_t).2.2.declare.2
          exact ⟨g1.trans (e1.trans w1), g2.trans (e2.trans w2), g3.trans (e3.trans w3),
            g4.trans (e4.trans w4), g5.trans (e5.trans w5)⟩
        · unfold RemoteDisplay.headerRead at h3
          rw [if_neg h3]
          obtain ⟨g1, g2, g3, g4, g5, _⟩ := RemoteDisplay._recv_frame
            (rd._recv true p.sizeof_display_event_t).2.2.declare.2 true 1024
          exact ⟨g1.trans (e1.trans w1), g2.trans (e2.trans w2), g3.trans (e3.trans w3),
            g4.trans (e4.trans w4), g5.trans (e5.trans w5)⟩
  · intro hlt h1 h2 h3 hack
    have hf := RemoteDisplay.onPresentLayersAck_flags p (rd.afterHeader p) hack
    unfold RemoteDisplay.headerRead at h1 h2 h3
    simp only [RemoteDisplay.onDisplayEvent]
    rw [if_neg hlt, if_neg h1, if_neg h2, if_pos h3]
    exact hf
  · intro hlt h1 hinfo
    have hf := RemoteDisplay.onDisplayInfoAck_displayInfo p (rd.afterHeader p) hinfo
    unfold RemoteDisplay.headerRead at h1
    simp only [RemoteDisplay.onDisplayEvent]
    rw [if_neg hlt, if_pos h1]
    exact hf
  · intro rd0
    refine ⟨?_, ?_, ?_⟩
    · intro h
      simp only [RemoteDisplay.headerRead, bufferAfter_full _ _ _ h]
    · intro h
      simp only [RemoteDisplay.infoRead, bufferAfter_full _ _ _ h]
    · intro h
      simp only [RemoteDisplay.ackRead, bufferAfter_full _ _ _ h]

theorem display_info_after_event_witness :
    (unknownThenAckSession.onDisplayEvent sampleProtocol).2.displayInfo =
      unknownThenAckSession.displayInfo :=
  (display_info_after_event sampleProtocol unknownThenAckSession).2.1 (by decide) (by decide)

/-- C17 fails in the code: after a first DisplayInfoAck (1920 x 1080, 60 fps, 160 dpi, flags
0x10001) has been processed, a second DisplayInfoAck replaces all six values (1280 x 720,
30 fps, 240 dpi, flags 0x20001), and a PresentLayersAck replaces the flags word with the
flags of the acknowledgement. -/
theorem later_events_change_display_info :
    (twoAcksSession.onDisplayEvent sampleProtocol).2.displayInfo =
      (1920, 1080, 60, 160, 160, 0x10001) ∧
    ((twoAcksSession.onDisplayEvent sampleProtocol).2.onDisplayEvent sampleProtocol).2.displayInfo
      = (1280, 720, 30, 240, 240, 0x20001) ∧
    (ackThenPresentAckSession.onDisplayEvent sampleProtocol).2.displayInfo =
      (1920, 1080, 60, 160, 160, 0x10001) ∧
    ((ackThenPresentAckSession.onDisplayEvent sampleProtocol).2.onDisplayEvent
        sampleProtocol).2.displayInfo = (1920, 1080, 60, 160, 160, 0x20001) := by
  simp only [RemoteDisplay.displayInfo]
  refine ⟨?_, ?_, ?_, ?_⟩
  all_goals decide

/-! ## Destroying a layer -/

/-- C18, as the code has it. `destroyLayer` returns `Error::None` for every layer id,
whether or not the id is a key of the layer collection; for an id that is not a key the
display is left as it is, and on a display attached in mode 1 or above the RemoveLayer
request for that id is still issued to the session. -/
theorem destroyLayer_returns_none (p : Protocol) (d : Hwc2Display) (rd : RemoteDisplay)
    (layer : Nat) :
    (d.destroyLayer p rd layer).1 = Error.None ∧
    ((∀ e ∈ d.mLayers, e.1 ≠ layer) → (d.destroyLayer p rd layer).2.1 = d) ∧
    (d.destroyLayer p rd layer).2.2 =
      (if d.mRemoteDisplay.isSome ∧ d.mMode > 0 then (rd.removeLayer p layer).2 else rd) := by
  refine ⟨rfl, ?_, rfl⟩
  intro h
  have herase : LayerMap.erase d.mLayers layer = d.mLayers := by
    unfold LayerMap.erase
    rw [List.filter_eq_self]
    intro e he
    simpa using h e he
  simp only [Hwc2Display.destroyLayer, herase]

theorem destroyLayer_returns_none_witness :
    (modeOneDisplay.destroyLayer sampleProtocol sampleSession 5).2.1 = modeOneDisplay :=
  (destroyLayer_returns_none sampleProtocol modeOneDisplay sampleSession 5).2.1 (by decide)

/-- C18 fails in the code: on a display whose layer collection has the keys 0 and 1,
`destroyLayer` for the id 5 returns `Error::None`, not a bad-layer result, and it sends a
RemoveLayer message for the id 5. -/
theorem destroyLayer_absent_id_is_not_an_error :
    modeOneDisplay.mLayers.map Prod.fst = [0, 1] ∧
    (modeOneDisplay.destroyLayer sampleProtocol sampleSession 5).1 = Error.None ∧
    (modeOneDisplay.destroyLayer sampleProtocol sampleSession 5).1 ≠ Error.BadLayer ∧
    (modeOneDisplay.destroyLayer sampleProtocol sampleSession 5).2.2.ops =
      [SysOp.send (Payload.remove_layer_event sampleProtocol.DD_EVENT_REMOVE_LAYER 16 5) 16] := by
  decide

/-! ## Assigning a buffer -/

/-- C19 fails in the code for a null handle that a bound layer has not registered.  For
every layer state, session state and call `setBuffer(b, f)`: the call has no outcome
exactly when `b` differs from the current buffer, is not in the registered set, a session
is bound and `b` is the null handle, since `createBuffer` then reads `buffer->numFds`
through the null pointer.  When the call returns, the stored acquire fence is `f`, and the
fence held before is closed when it was a descriptor; if `b` differs from the current
buffer, the current buffer is `b`, the buffer-changed flag is set, the registered set is
the old set with `b` added, and `createBuffer(b)` has been called on the session exactly
when `b` was not in the set and a session is bound; if `b` is the current buffer, the
buffer-changed flag, the registered set and the session are left as they are. -/
theorem setBuffer_effect (p : Protocol) (l : Hwc2Layer) (rd : RemoteDisplay)
    (b : buffer_handle_t) (f : Int) :
    (l.setBuffer p rd b f = none ↔
      l.mBuffer.addr ≠ b.addr ∧ b.addr ∉ l.mBuffers ∧ l.mRemoteDisplay.isSome = true ∧
        b.addr = 0) ∧
    (∀ r, l.setBuffer p rd b f = some r →
      r.1 = Error.None ∧
      r.2.1.mAcquireFence = f ∧
      r.2.1.closed =
        (if l.mAcquireFence ≥ 0 then l.closed ++ [l.mAcquireFence] else l.closed) ∧
      (l.mBuffer.addr ≠ b.addr →
        r.2.1.mBuffer = b ∧
        r.2.1.bufferChanged = true ∧
        (∀ x, x ∈ r.2.1.mBuffers ↔ x = b.addr ∨ x ∈ l.mBuffers) ∧
        (if b.addr ∉ l.mBuffers ∧ l.mRemoteDisplay.isSome = true then
          (rd.createBuffer p b).map (fun c => c.2)
         else some rd) = some r.2.2) ∧
      (l.mBuffer.addr = b.addr →
        r.2.1.bufferChanged = l.bufferChanged ∧
        r.2.1.mBuffers = l.mBuffers ∧
        r.2.2 = rd)) := by
  have h1 : (if l.mAcquireFence ≥ 0 then { l with closed := l.closed ++ [l.mAcquireFence] }
      else l).mRemoteDisplay = l.mRemoteDisplay := by
    split_ifs <;> rfl
  by_cases hne : l.mBuffer.addr = b.addr
  · refine ⟨?_, ?_⟩
    · by_cases hf : l.mAcquireFence ≥ 0 <;> simp [Hwc2Layer.setBuffer, hne, hf]
    · intro r hr
      by_cases hf : l.mAcquireFence ≥ 0 <;>
        simp [Hwc2Layer.setBuffer, hne, hf] at hr <;> subst hr <;>
        simp [hne, hf, Hwc2Layer.bufferChanged]
  · by_cases hc : List.count b.addr l.mBuffers = 0
    · have hx : b.addr ∉ l.mBuffers := List.count_eq_zero.mp hc
      by_cases hr : l.mRemoteDisplay.isSome = true
      · by_cases hb : b.addr = 0
        · have hcb := RemoteDisplay.createBuffer_none p rd b hb
          have hne0 : ¬ l.mBuffer.addr = 0 := hb ▸ hne
          have hc0 : List.count 0 l.mBuffers = 0 := hb ▸ hc
          have hx0 : 0 ∉ l.mBuffers := hb ▸ hx
          refine ⟨?_, ?_⟩
          · by_cases hf : l.mAcquireFence ≥ 0 <;>
              simp [Hwc2Layer.setBuffer, hne0, hf, hc0, hx0, hr, hcb, hb]
          · intro r h
            by_cases hf : l.mAcquireFence ≥ 0 <;>
              simp [Hwc2Layer.setBuffer, hne, hf, hc, hr, hcb] at h
        · have hcb := RemoteDisplay.createBuffer_some p rd b hb
          refine ⟨?_, ?_⟩
          · by_cases hf : l.mAcquireFence ≥ 0 <;>
              simp [Hwc2Layer.setBuffer, hne, hf, hc, hx, hr, hcb, hb]
          · intro r h
            by_cases hf : l.mAcquireFence ≥ 0 <;>
              simp [Hwc2Layer.setBuffer, hne, hf, hc, hr, hcb] at h <;> subst h <;>
              simp [hne, hf, hx, hr, hcb, Hwc2Layer.bufferChanged, List.mem_insert_iff]
      · refine ⟨?_, ?_⟩
        · by_cases hf : l.mAcquireFence ≥ 0 <;>
            simp [Hwc2Layer.setBuffer, hne, hf, hc, hx, hr]
        · intro r h
          by_cases hf : l.mAcquireFence ≥ 0 <;>
            simp [Hwc2Layer.setBuffer, hne, hf, hc, hr] at h <;> subst h <;>
            simp [hne, hf, hx, hr, Hwc2Layer.bufferChanged, List.mem_insert_iff]
    · have hx : b.addr ∈ l.mBuffers := by
        by_contra hcon
        exact hc (List.count_eq_zero.mpr hcon)
      refine ⟨?_, ?_⟩
      · by_cases hf : l.mAcquireFence ≥ 0 <;>
          simp [Hwc2Layer.setBuffer, hne, hf, hc, hx]
      · intro r h
        by_cases hf : l.mAcquireFence ≥ 0 <;>
          simp [Hwc2Layer.setBuffer, hne, hf, hc] at h <;> subst h <;>
          simp [hne, hf, hx, Hwc2Layer.bufferChanged]

/-- The layer `fencedLayer` is bound to a session and holds `sampleBuffer`, and the null
handle is not in its registered set: `setBuffer` with the null handle has no outcome on it.
On the layer `sampleLayer`, which is bound to no session, the same call returns, and with
`sampleBuffer` it makes that buffer the current one and sets the buffer-changed flag. -/
theorem setBuffer_effect_witness :
    fencedLayer.mRemoteDisplay = some 1 ∧ fencedLayer.mBuffer = sampleBuffer ∧
    fencedLayer.mBuffers = [sampleBuffer.addr] ∧
    fencedLayer.setBuffer sampleProtocol sampleSession nullBuffer 3 = none ∧
    (sampleLayer.setBuffer sampleProtocol sampleSession nullBuffer 3).isSome = true ∧
    (sampleLayer.setBuffer sampleProtocol sampleSession sampleBuffer 3).map
      (fun r => (r.2.1.mBuffer, r.2.1.bufferChanged)) = some (sampleBuffer, true) :=
  ⟨by decide, by decide, by decide,
   (setBuffer_effect sampleProtocol fencedLayer sampleSession nullBuffer 3).1.mpr
     ⟨by decide, by decide, by decide, rfl⟩,
   by decide, by decide⟩

/-! ## Present: order of the messages -/

theorem RemoteDisplay._send_ops (rd : RemoteDisplay) (buf : Option Payload) (n : Nat) :
    (rd._send buf n).2.ops = rd.ops ∨
    ∃ b, buf = some b ∧ (rd._send buf n).2.ops = rd.ops ++ [SysOp.send b n] := by
  rcases RemoteDisplay._send_trace rd buf n with h | ⟨b, r, hb, h⟩
  · left; simp [RemoteDisplay.ops, h]
  · right; exact ⟨b, hb, by simp [RemoteDisplay.ops, h]⟩

theorem RemoteDisplay.malloc_ops (rd : RemoteDisplay) : rd.malloc.2.ops = rd.ops := by
  simp [RemoteDisplay.ops, (RemoteDisplay.malloc_frame rd).2.1]

/-- The system calls of `displayBuffer`, whatever the state of the session: none, or the
one write of the DisplayRequest. -/
theorem RemoteDisplay.displayBuffer_ops (p : Protocol) (rd : RemoteDisplay)
    (b : buffer_handle_t) :
    ∃ xs, (rd.displayBuffer p b).2.ops = rd.ops ++ xs ∧
      ∀ op ∈ xs, op.isDisplayRequest = true := by
  have h2 : (rd.displayBuffer p b).2 = (rd._send
      (some (Payload.buffer_info_event p.DD_EVENT_DISPLAY_REQ
        (p.sizeof_buffer_info_event_t % 2 ^ 32) b.addr)) p.sizeof_buffer_info_event_t).2 := by
    simp only [RemoteDisplay.displayBuffer]
    split_ifs <;> rfl
  rw [h2]
  rcases RemoteDisplay._send_ops rd _ p.sizeof_buffer_info_event_t with h | ⟨x, hx, h⟩
  · exact ⟨[], by simpa using h, by simp⟩
  · refine ⟨[SysOp.send x p.sizeof_buffer_info_event_t], h, ?_⟩
    have hx2 := Option.some.inj hx
    subst hx2
    simp [SysOp.isDisplayRequest]

theorem RemoteDisplay.setRotation_ops_any (p : Protocol) (rd : RemoteDisplay) (rot : Int) :
    ∃ xs, (rd.setRotation p rot).2.ops = rd.ops ++ xs ∧
      ∀ op ∈ xs, op.isSetRotation = true := by
  have h2 : (rd.setRotation p rot).2 = (rd._send
      (some (Payload.rotation_event p.DD_EVENT_SET_ROTATION
        (p.sizeof_rotation_event_t % 2 ^ 32) rot)) p.sizeof_rotation_event_t).2 := by
    simp only [RemoteDisplay.setRotation]
    split_ifs <;> rfl
  rw [h2]
  rcases RemoteDisplay._send_ops rd _ p.sizeof_rotation_event_t with h | ⟨x, hx, h⟩
  · exact ⟨[], by simpa using h, by simp⟩
  · refine ⟨[SysOp.send x p.sizeof_rotation_event_t], h, ?_⟩
    have hx2 := Option.some.inj hx
    subst hx2
    simp [SysOp.isSetRotation]

/-- The system calls of `updateLayers`, whatever the state of the session, are writes of
parts of an UpdateLayers message. -/
theorem RemoteDisplay.updateLayers_ops_any (p : Protocol) (rd : RemoteDisplay)
    (infos : List layer_info_t) :
    ∃ xs, (rd.updateLayers p infos).2.ops = rd.ops ++ xs ∧
      ∀ op ∈ xs, op.isUpdateLayers = true := by
  simp only [RemoteDisplay.updateLayers]
  generalize infos.length % 2 ^ 32 = N
  generalize ha : (if N ≠ 0 then rd.malloc else (true, rd)) = a
  have haops : a.2.ops = rd.ops := by
    rw [← ha]
    split
    · exact RemoteDisplay.malloc_ops rd
    · rfl
  by_cases hfail : (!a.1) = true
  · rw [if_pos hfail]
    exact ⟨[], by simpa using haops, by simp⟩
  · rw [if_neg hfail]
    generalize hr1 : a.2._send
      (some (Payload.update_layers_event p.DD_EVENT_UPDATE_LAYERS
        ((p.sizeof_update_layers_event_t + p.sizeof_layer_info_t * N) % 2 ^ 32) N))
      p.sizeof_update_layers_event_t = r1
    have h1 := RemoteDisplay._send_ops a.2
      (some (Payload.update_layers_event p.DD_EVENT_UPDATE_LAYERS
        ((p.sizeof_update_layers_event_t + p.sizeof_layer_info_t * N) % 2 ^ 32) N))
      p.sizeof_update_layers_event_t
    rw [hr1, haops] at h1
    have h1' : ∃ xs, r1.2.ops = rd.ops ++ xs ∧ ∀ op ∈ xs, op.isUpdateLayers = true := by
      rcases h1 with h | ⟨x, hx, h⟩
      · exact ⟨[], by simpa using h, by simp⟩
      · refine ⟨[SysOp.send x p.sizeof_update_layers_event_t], h, ?_⟩
        have hx2 := Option.some.inj hx
        subst hx2
        simp [SysOp.isUpdateLayers]
    by_cases hlt : r1.1 < 0
    · rw [if_pos hlt]
      exact h1'
    · rw [if_neg hlt]
      obtain ⟨xs, hxs, hall⟩ := h1'
      generalize hpl : (if N ≠ 0 then some (Payload.layer_infos (infos.take N)) else none) = pl
      have h2 := RemoteDisplay._send_ops r1.2 pl (p.sizeof_layer_info_t * N)
      have h2' : ∃ ys, (r1.2._send pl (p.sizeof_layer_info_t * N)).2.ops = rd.ops ++ ys ∧
          ∀ op ∈ ys, op.isUpdateLayers = true := by
        rcases h2 with h | ⟨x, hx, h⟩
        · exact ⟨xs, by rw [h, hxs], hall⟩
        · refine ⟨xs ++ [SysOp.send x (p.sizeof_layer_info_t * N)], by
            rw [h, hxs, List.append_assoc], ?_⟩
          intro op hop
          rcases List.mem_append.mp hop with hm | hm
          · exact hall op hm
          · have hop2 : op = SysOp.send x (p.sizeof_layer_info_t * N) := by simpa using hm
            subst hop2
            rw [← hpl] at hx
            split at hx
            · have hx2 := Option.some.inj hx
              subst hx2
              simp [SysOp.isUpdateLayers]
            · simp at hx
      split_ifs <;> exact h2'

/-- The system calls of `presentLayers`, whatever the state of the session, are writes of
parts of a PresentLayersRequest message. -/
theorem RemoteDisplay.presentLayers_ops_any (p : Protocol) (rd : RemoteDisplay)
    (bufs : List layer_buffer_info_t) :
    ∃ xs, (rd.presentLayers p bufs).2.ops = rd.ops ++ xs ∧
      ∀ op ∈ xs, op.isPresentLayers = true := by
  simp only [RemoteDisplay.presentLayers]
  generalize bufs.length % 2 ^ 32 = N
  generalize ha : (if N ≠ 0 then rd.malloc else (true, rd)) = a
  have haops : a.2.ops = rd.ops := by
    rw [← ha]
    split
    · exact RemoteDisplay.malloc_ops rd
    · rfl
  by_cases hfail : (!a.1) = true
  · rw [if_pos hfail]
    exact ⟨[], by simpa using haops, by simp⟩
  · rw [if_neg hfail]
    generalize hr1 : a.2._send
      (some (Payload.present_layers_req_event p.DD_EVENT_PRESENT_LAYERS_REQ
        ((p.sizeof_present_layers_req_event_t + p.sizeof_layer_buffer_info_t * N) % 2 ^ 32) N))
      p.sizeof_present_layers_req_event_t = r1
    have h1 := RemoteDisplay._send_ops a.2
      (some (Payload.present_layers_req_event p.DD_EVENT_PRESENT_LAYERS_REQ
        ((p.sizeof_present_layers_req_event_t + p.sizeof_layer_buffer_info_t * N) % 2 ^ 32) N))
      p.sizeof_present_layers_req_event_t
    rw [hr1, haops] at h1
    have h1' : ∃ xs, r1.2.ops = rd.ops ++ xs ∧ ∀ op ∈ xs, op.isPresentLayers = true := by
      rcases h1 with h | ⟨x, hx, h⟩
      · exact ⟨[], by simpa using h, by simp⟩
      · refine ⟨[SysOp.send x p.sizeof_present_layers_req_event_t], h, ?_⟩
        have hx2 := Option.some.inj hx
        subst hx2
        simp [SysOp.isPresentLayers]
    by_cases hlt : r1.1 < 0
    · rw [if_pos hlt]
      exact h1'
    · rw [if_neg hlt]
      obtain ⟨xs, hxs, hall⟩ := h1'
      generalize hpl : (if N ≠ 0 then some (Payload.layer_buffer_infos (bufs.take N)) else none) = pl
      have h2 := RemoteDisplay._send_ops r1.2 pl (p.sizeof_layer_buffer_info_t * N)
      have h2' : ∃ ys, (r1.2._send pl (p.sizeof_layer_buffer_info_t * N)).2.ops = rd.ops ++ ys ∧
          ∀ op ∈ ys, op.isPresentLayers = true := by
        rcases h2 with h | ⟨x, hx, h⟩
        · exact ⟨xs, by rw [h, hxs], hall⟩
        · refine ⟨xs ++ [SysOp.send x (p.sizeof_layer_buffer_info_t * N)], by
            rw [h, hxs, List.append_assoc], ?_⟩
          intro op hop
          rcases List.mem_append.mp hop with hm | hm
          · exact hall op hm
          · have hop2 : op = SysOp.send x (p.sizeof_layer_buffer_info_t * N) := by simpa using hm
            subst hop2
            rw [← hpl] at hx
            split at hx
            · have hx2 := Option.some.inj hx
              subst hx2
              simp [SysOp.isPresentLayers]
            · simp at hx
      split_ifs <;> exact h2'
/-- The system calls of the first block of `present`, whatever the state of the session,
are writes of a DisplayRequest or of a SetRotation. -/
theorem Hwc2Display.presentTarget_ops_any (p : Protocol) (d : Hwc2Display)
    (rd : RemoteDisplay) :
    ∃ xs, (Hwc2Display.presentTarget p d rd).2.ops = rd.ops ++ xs ∧
      ∀ op ∈ xs, op.isDisplayRequest = true ∨ op.isSetRotation = true := by
  unfold Hwc2Display.presentTarget
  by_cases hm : d.mMode = 0 ∨ d.mMode = 2
  · rw [if_pos hm]
    by_cases ht : d.mFbTarget.addr ≠ 0
    · rw [if_pos ht]
      obtain ⟨xs, hxs, hall⟩ := RemoteDisplay.displayBuffer_ops p rd d.mFbTarget
      generalize (rd.displayBuffer p d.mFbTarget).2 = rd1 at hxs ⊢
      unfold Hwc2Display.updateRotation
      by_cases hn : d.mRemoteDisplay.isNone = true
      · rw [if_pos hn]
        exact ⟨xs, hxs, fun op hop => Or.inl (hall op hop)⟩
      · rw [if_neg hn]
        simp only []
        by_cases hne : Hwc2Display.scanTransform d.mTransform d.mLayers 0 ≠ d.mTransform
        · rw [if_pos hne]
          obtain ⟨ys, hys, hall2⟩ := RemoteDisplay.setRotation_ops_any p rd1
            (if Hwc2Display.scanTransform d.mTransform d.mLayers 0 = 0 then 0
             else if Hwc2Display.scanTransform d.mTransform d.mLayers 0 = 4 then 1
             else if Hwc2Display.scanTransform d.mTransform d.mLayers 0 = 3 then 2 else 3)
          refine ⟨xs ++ ys, by rw [hys, hxs, List.append_assoc], ?_⟩
          intro op hop
          rcases List.mem_append.mp hop with h | h
          · exact Or.inl (hall op h)
          · exact Or.inr (hall2 op h)
        · rw [if_neg hne]
          exact ⟨xs, hxs, fun op hop => Or.inl (hall op hop)⟩
    · rw [if_neg ht]
      exact ⟨[], by simp, by simp⟩
  · rw [if_neg hm]
    exact ⟨[], by simp, by simp⟩

/-- The system calls of the second block of `present`, whatever the state of the session,
are writes of parts of an UpdateLayers or of a PresentLayersRequest. -/
theorem Hwc2Display.presentBatches_ops_any (p : Protocol) (d : Hwc2Display)
    (rd : RemoteDisplay) :
    ∃ xs, (Hwc2Display.presentBatches p d rd).2.ops = rd.ops ++ xs ∧
      ∀ op ∈ xs, op.isUpdateLayers = true ∨ op.isPresentLayers = true := by
  unfold Hwc2Display.presentBatches
  by_cases hm : d.mMode > 0
  · rw [if_pos hm]
    simp only [Bool.false_or]
    generalize (d.mLayers.filter (fun e => e.2.changed)).map (fun e => e.2.info) = infos
    generalize (d.mLayers.filter (fun e => e.2.bufferChanged)).map
      (fun e => e.2.layerBuffer) = bufs
    have h1 : ∃ xs, (if infos.length ≠ 0 then (rd.updateLayers p infos).2 else rd).ops =
        rd.ops ++ xs ∧ ∀ op ∈ xs, op.isUpdateLayers = true := by
      split
      · exact RemoteDisplay.updateLayers_ops_any p rd infos
      · exact ⟨[], by simp, by simp⟩
    obtain ⟨xs, hxs, hall⟩ := h1
    generalize (if infos.length ≠ 0 then (rd.updateLayers p infos).2 else rd) = rd1 at hxs ⊢
    by_cases hb : bufs.length ≠ 0
    · rw [if_pos hb]
      obtain ⟨ys, hys, hall2⟩ := RemoteDisplay.presentLayers_ops_any p rd1 bufs
      refine ⟨xs ++ ys, by rw [hys, hxs, List.append_assoc], ?_⟩
      intro op hop
      rcases List.mem_append.mp hop with h | h
      · exact Or.inl (hall op h)
      · exact Or.inr (hall2 op h)
    · rw [if_neg hb]
      exact ⟨xs, hxs, fun op hop => Or.inl (hall op hop)⟩
  · rw [if_neg hm]
    exact ⟨[], by simp, by simp⟩

theorem SysOp.kinds_disjoint (op : SysOp) :
    (op.isDisplayRequest = true ∨ op.isSetRotation = true →
      op.isUpdateLayers = false ∧ op.isPresentLayers = false) ∧
    (op.isUpdateLayers = true ∨ op.isPresentLayers = true →
      op.isDisplayRequest = false ∧ op.isSetRotation = false) := by
  cases op with
  | send buf n =>
    cases buf <;>
      simp [SysOp.isDisplayRequest, SysOp.isSetRotation, SysOp.isUpdateLayers,
        SysOp.isPresentLayers]
  | recv n =>
    simp [SysOp.isDisplayRequest, SysOp.isSetRotation, SysOp.isUpdateLayers,
      SysOp.isPresentLayers]
  | sendmsg fds n =>
    simp [SysOp.isDisplayRequest, SysOp.isSetRotation, SysOp.isUpdateLayers,
      SysOp.isPresentLayers]

theorem RemoteDisplay.displayBuffer_ok (p : Protocol) (rd : RemoteDisplay)
    (b : buffer_handle_t) (hp : p.sizesPositive) (hh : rd.healthy) :
    (rd.displayBuffer p b).2.healthy ∧
    (rd.displayBuffer p b).2.ops = rd.ops ++ [p.displayRequestOp b] := by
  obtain ⟨_, h2, h3⟩ := RemoteDisplay._send_ok rd
    (Payload.buffer_info_event p.DD_EVENT_DISPLAY_REQ (p.sizeof_buffer_info_event_t % 2 ^ 32)
      b.addr) p.sizeof_buffer_info_event_t hh hp.2.2.2.1
  simp only [RemoteDisplay.displayBuffer, Protocol.displayRequestOp]
  split_ifs <;> exact ⟨h2, h3⟩

theorem RemoteDisplay.setRotation_ok (p : Protocol) (rd : RemoteDisplay) (rot : Int)
    (hp : p.sizesPositive) (hh : rd.healthy) :
    (rd.setRotation p rot).2.healthy ∧
    (rd.setRotation p rot).2.ops = rd.ops ++ [p.setRotationOp rot] := by
  obtain ⟨_, h2, h3⟩ := RemoteDisplay._send_ok rd
    (Payload.rotation_event p.DD_EVENT_SET_ROTATION (p.sizeof_rotation_event_t % 2 ^ 32) rot)
    p.sizeof_rotation_event_t hh hp.2.2.2.2.2.1
  simp only [RemoteDisplay.setRotation, Protocol.setRotationOp]
  split_ifs <;> exact ⟨h2, h3⟩

/-- The first block of `present` on a healthy session, in mode 0 or 2 with a client target
bound: the DisplayRequest, then the SetRotation when the scan ends on a transform other than
the cached one. -/
theorem Hwc2Display.presentTarget_ok (p : Protocol) (d : Hwc2Display) (rd : RemoteDisplay)
    (hp : p.sizesPositive) (hatt : d.mRemoteDisplay.isSome = true)
    (hm : d.mMode = 0 ∨ d.mMode = 2) (ht : d.mFbTarget.addr ≠ 0) (hh : rd.healthy) :
    (Hwc2Display.presentTarget p d rd).2.healthy ∧
    (Hwc2Display.presentTarget p d rd).2.ops =
      rd.ops ++ [p.displayRequestOp d.mFbTarget] ++
        (if Hwc2Display.scanTransform d.mTransform d.mLayers 0 ≠ d.mTransform then
          [p.setRotationOp
            (Hwc2Display.rotationCode (Hwc2Display.scanTransform d.mTransform d.mLayers 0))]
         else []) := by
  have hnone : ¬ d.mRemoteDisplay.isNone = true := by
    cases h : d.mRemoteDisplay <;> simp [h] at hatt ⊢
  obtain ⟨a1, a2⟩ := RemoteDisplay.displayBuffer_ok p rd d.mFbTarget hp hh
  simp only [Hwc2Display.presentTarget]
  rw [if_pos hm, if_pos ht]
  simp only [Hwc2Display.updateRotation]
  rw [if_neg hnone]
  by_cases hne : Hwc2Display.scanTransform d.mTransform d.mLayers 0 ≠ d.mTransform
  · rw [if_pos hne, if_pos hne]
    obtain ⟨b1, b2⟩ := RemoteDisplay.setRotation_ok p (rd.displayBuffer p d.mFbTarget).2
      (Hwc2Display.rotationCode (Hwc2Display.scanTransform d.mTransform d.mLayers 0)) hp a1
    unfold Hwc2Display.rotationCode at b1 b2 ⊢
    exact ⟨b1, by rw [b2, a2]⟩
  · rw [if_neg hne, if_neg hne]
    exact ⟨a1, by simpa using a2⟩
theorem Hwc2Display.present_attached (p : Protocol) (d : Hwc2Display) (rd : RemoteDisplay)
    (hatt : d.mRemoteDisplay.isSome = true) :
    (d.present p rd).2.2.2 =
      (Hwc2Display.presentBatches p (Hwc2Display.presentTarget p d rd).1
        (Hwc2Display.presentTarget p d rd).2).2 ∧
    (d.present p rd).2.2.1.mLayers =
      (Hwc2Display.presentBatches p (Hwc2Display.presentTarget p d rd).1
        (Hwc2Display.presentTarget p d rd).2).1.mLayers := by
  simp [Hwc2Display.present, hatt]

/-- C20. For an attached display.  In mode 2 with a client target bound, on a session
whose writes and allocations succeed, `present` writes the DisplayRequest for the client
target, then the SetRotation when the scan ends on a transform other than the cached one,
then the UpdateLayers message when some layer is changed, then the PresentLayersRequest
message when the buffer of some layer changed, and nothing else.  Whatever the session
does: in mode 0 the layers, hence their flags, are left as they are and no part of an
UpdateLayers or PresentLayersRequest is written; in mode 1 no DisplayRequest and no
SetRotation is written; in mode 0 or 2 with no client target bound no DisplayRequest and no
SetRotation is written. -/
theorem present_message_order (p : Protocol) (d : Hwc2Display) (rd : RemoteDisplay)
    (hatt : d.mRemoteDisplay.isSome = true) :
    (d.mMode = 2 → d.mFbTarget.addr ≠ 0 → p.sizesPositive → rd.healthy →
      d.mLayers.length < 2 ^ 32 →
      (d.present p rd).2.2.2.ops =
        rd.ops ++ [p.displayRequestOp d.mFbTarget] ++
          (if Hwc2Display.scanTransform d.mTransform d.mLayers 0 ≠ d.mTransform then
            [p.setRotationOp
              (Hwc2Display.rotationCode (Hwc2Display.scanTransform d.mTransform d.mLayers 0))]
           else []) ++
          (if (d.mLayers.filter (fun e => e.2.changed)).map (fun e => e.2.info) = [] then []
           else p.updateLayersOps
             ((d.mLayers.filter (fun e => e.2.changed)).map (fun e => e.2.info))) ++
          (if (d.mLayers.filter (fun e => e.2.bufferChanged)).map (fun e => e.2.layerBuffer) = []
           then []
           else p.presentLayersOps
             ((d.mLayers.filter (fun e => e.2.bufferChanged)).map
               (fun e => e.2.layerBuffer)))) ∧
    (d.mMode = 0 →
      (d.present p rd).2.2.1.mLayers = d.mLayers ∧
      (d.present p rd).2.2.2.ops = rd.ops ++ rd.opsSince (d.present p rd).2.2.2 ∧
      ∀ op ∈ rd.opsSince (d.present p rd).2.2.2,
        op.isUpdateLayers = false ∧ op.isPresentLayers = false) ∧
    (d.mMode = 1 →
      (d.present p rd).2.2.2.ops = rd.ops ++ rd.opsSince (d.present p rd).2.2.2 ∧
      ∀ op ∈ rd.opsSince (d.present p rd).2.2.2,
        op.isDisplayRequest = false ∧ op.isSetRotation = false) ∧
    ((d.mMode = 0 ∨ d.mMode = 2) → d.mFbTarget.addr = 0 →
      (d.present p rd).2.2.2.ops = rd.ops ++ rd.opsSince (d.present p rd).2.2.2 ∧
      ∀ op ∈ rd.opsSince (d.present p rd).2.2.2,
        op.isDisplayRequest = false ∧ op.isSetRotation = false) := by
  obtain ⟨hrd, hlay⟩ := Hwc2Display.present_attached p d rd hatt
  obtain ⟨hfl, hfm⟩ := Hwc2Display.presentTarget_frame p d rd
  have batchesOnly : Hwc2Display.presentTarget p d rd = (d, rd) →
      (d.present p rd).2.2.2.ops = rd.ops ++ rd.opsSince (d.present p rd).2.2.2 ∧
      ∀ op ∈ rd.opsSince (d.present p rd).2.2.2,
        op.isDisplayRequest = false ∧ op.isSetRotation = false := by
    intro hid
    rw [hrd, hid]
    obtain ⟨xs, hxs, hall⟩ := Hwc2Display.presentBatches_ops_any p d rd
    rw [RemoteDisplay.opsSince_of_append rd _ xs hxs]
    exact ⟨hxs, fun op hop => (SysOp.kinds_disjoint op).2 (hall op hop)⟩
  refine ⟨?_, ?_, ?_, ?_⟩
  · intro hm ht hp hh hlen
    obtain ⟨t1, t2⟩ := Hwc2Display.presentTarget_ok p d rd hp hatt (Or.inr hm) ht hh
    have hb := Hwc2Display.presentBatches_ops p (Hwc2Display.presentTarget p d rd).1
      (Hwc2Display.presentTarget p d rd).2 hp (by rw [hfm, hm]; norm_num)
      (by rw [hfl]; exact hlen) t1
    rw [hfl] at hb
    rw [hrd, hb.1, t2]
  · intro hm
    have hnb : Hwc2Display.presentBatches p (Hwc2Display.presentTarget p d rd).1
        (Hwc2Display.presentTarget p d rd).2 = Hwc2Display.presentTarget p d rd := by
      unfold Hwc2Display.presentBatches
      rw [if_neg (by rw [hfm, hm]; norm_num)]
    rw [hlay, hrd, hnb]
    obtain ⟨xs, hxs, hall⟩ := Hwc2Display.presentTarget_ops_any p d rd
    rw [RemoteDisplay.opsSince_of_append rd _ xs hxs]
    exact ⟨hfl, hxs, fun op hop => (SysOp.kinds_disjoint op).1 (hall op hop)⟩
  · intro hm
    apply batchesOnly
    simp [Hwc2Display.presentTarget, hm]
  · intro hm ht
    apply batchesOnly
    simp [Hwc2Display.presentTarget, hm, ht]

theorem present_message_order_witness :
    (hybridDisplay.present sampleProtocol sampleSession).2.2.2.ops =
      [sampleProtocol.displayRequestOp sampleBuffer, sampleProtocol.setRotationOp 1] ++
        sampleProtocol.updateLayersOps
          [(((Hwc2Layer.ctor sampleLayerInit 1).setTransform 4).2).info] ++
        sampleProtocol.presentLayersOps
          [{ layerId := 1, bufferId := fdBuffer.addr, fence := -1, changed := true }] :=
  (present_message_order sampleProtocol hybridDisplay sampleSession (by decide)).1
    (by decide) (by decide) (by decide) (by decide) (by decide)

/-! ## Outcome of the batched sends and of createBuffer -/

/-- One `_send` of a payload of `n > 0` bytes on a disconnected channel fails without a
system call; on a connected channel it performs the system call, and succeeds and stays
connected when the result is positive, fails and disconnects otherwise. -/
theorem RemoteDisplay._send_step (rd : RemoteDisplay) (b : Payload) (n : Nat) (hn : 0 < n) :
    (rd.mDisconnected = true ∧ rd._send (some b) n = (-1, rd)) ∨
    (rd.mDisconnected = false ∧ ∃ r : Int,
      (rd._send (some b) n).2.sock.trace = rd.sock.trace ++ [⟨SysOp.send b n, r⟩] ∧
      ((0 < r ∧ (rd._send (some b) n).1 = 0 ∧ (rd._send (some b) n).2.mDisconnected = false) ∨
       (r ≤ 0 ∧ (rd._send (some b) n).1 = -1 ∧
        (rd._send (some b) n).2.mDisconnected = true))) := by
  have hn0 : n ≠ 0 := by omega
  by_cases hd : rd.mDisconnected = true
  · left
    exact ⟨hd, by simp [RemoteDisplay._send, hd]⟩
  · right
    have hd2 : rd.mDisconnected = false := by simpa using hd
    refine ⟨hd2, (rd.sock.send b n).1, ?_⟩
    by_cases hr : (rd.sock.send b n).1 ≤ 0
    · refine ⟨?_, Or.inr ⟨hr, ?_, ?_⟩⟩ <;>
        simp [RemoteDisplay._send, hd2, hn0, hr, RemoteDisplay.disconnect, Socket.send_trace]
    · refine ⟨?_, Or.inl ⟨by omega, ?_, ?_⟩⟩ <;>
        simp [RemoteDisplay._send, hd2, hn0, hr, RemoteDisplay.disconnect, Socket.send_trace]

/-- The same for `_sendFds`. -/
theorem RemoteDisplay._sendFds_step (rd : RemoteDisplay) (fds : List Int) :
    (rd.mDisconnected = true ∧ rd._sendFds fds = (-1, rd)) ∨
    (rd.mDisconnected = false ∧ ∃ r : Int,
      (rd._sendFds fds).2.sock.trace = rd.sock.trace ++ [⟨SysOp.sendmsg fds 16, r⟩] ∧
      ((0 < r ∧ (rd._sendFds fds).1 = 0 ∧ (rd._sendFds fds).2.mDisconnected = false) ∨
       (r ≤ 0 ∧ (rd._sendFds fds).1 = -1 ∧ (rd._sendFds fds).2.mDisconnected = true))) := by
  by_cases hd : rd.mDisconnected = true
  · left
    exact ⟨hd, by simp [RemoteDisplay._sendFds, hd]⟩
  · right
    have hd2 : rd.mDisconnected = false := by simpa using hd
    refine ⟨hd2, (rd.sock.sendmsg fds 16).1, ?_⟩
    by_cases hr : (rd.sock.sendmsg fds 16).1 ≤ 0
    · refine ⟨?_, Or.inr ⟨hr, ?_, ?_⟩⟩ <;>
        simp [RemoteDisplay._sendFds, hd2, hr, RemoteDisplay.disconnect, Socket.sendmsg_trace]
    · refine ⟨?_, Or.inl ⟨by omega, ?_, ?_⟩⟩ <;>
        simp [RemoteDisplay._sendFds, hd2, hr, RemoteDisplay.disconnect, Socket.sendmsg_trace]

/-- One `_send` of a payload of `n > 0` bytes either succeeds, stays connected and has
written the payload, or fails, leaves the channel disconnected and has made at most that one
write. -/
theorem RemoteDisplay._send_cases (rd : RemoteDisplay) (b : Payload) (n : Nat) (hn : 0 < n) :
    ((rd._send (some b) n).1 = 0 ∧ (rd._send (some b) n).2.mDisconnected = false ∧
      (rd._send (some b) n).2.ops = rd.ops ++ [SysOp.send b n]) ∨
    ((rd._send (some b) n).1 = -1 ∧ (rd._send (some b) n).2.mDisconnected = true ∧
      ((rd._send (some b) n).2.ops = rd.ops ∨
       (rd._send (some b) n).2.ops = rd.ops ++ [SysOp.send b n])) := by
  rcases RemoteDisplay._send_step rd b n hn with ⟨hd, h⟩ | ⟨_, r, ht, ⟨_, h1, h2⟩ | ⟨_, h1, h2⟩⟩
  · right
    rw [h]
    exact ⟨rfl, hd, Or.inl rfl⟩
  · left
    exact ⟨h1, h2, by simp [RemoteDisplay.ops, ht]⟩
  · right
    exact ⟨h1, h2, Or.inr (by simp [RemoteDisplay.ops, ht])⟩

theorem RemoteDisplay.afterAlloc_ops (rd : RemoteDisplay) (n : Nat) :
    (rd.afterAlloc n).ops = rd.ops := by
  unfold RemoteDisplay.afterAlloc
  split_ifs
  · exact RemoteDisplay.malloc_ops rd
  · rfl

theorem RemoteDisplay.updateLayers_eq (p : Protocol) (rd : RemoteDisplay)
    (infos : List layer_info_t) :
    rd.updateLayers p infos =
      if infos.length % 2 ^ 32 ≠ 0 ∧ rd.malloc.1 = false then (-1, rd.malloc.2)
      else if (rd.updateLayersHeaderSend p infos).1 < 0 then
        (-1, (rd.updateLayersHeaderSend p infos).2)
      else if (rd.updateLayersArraySend p infos).1 < 0 then
        (-1, (rd.updateLayersArraySend p infos).2)
      else (0, (rd.updateLayersArraySend p infos).2) := by
  simp only [RemoteDisplay.updateLayers, RemoteDisplay.updateLayersArraySend,
    RemoteDisplay.updateLayersHeaderSend, RemoteDisplay.afterAlloc,
    Protocol.updateLayersHeader]
  generalize infos.length % 2 ^ 32 = N
  by_cases h0 : N = 0
  · simp [h0]
  · cases hm : rd.malloc.1 <;> simp [h0, hm]

theorem RemoteDisplay.presentLayers_eq (p : Protocol) (rd : RemoteDisplay)
    (bufs : List layer_buffer_info_t) :
    rd.presentLayers p bufs =
      if bufs.length % 2 ^ 32 ≠ 0 ∧ rd.malloc.1 = false then (-1, rd.malloc.2)
      else if (rd.presentLayersHeaderSend p bufs).1 < 0 then
        (-1, (rd.presentLayersHeaderSend p bufs).2)
      else if (rd.presentLayersArraySend p bufs).1 < 0 then
        (-1, (rd.presentLayersArraySend p bufs).2)
      else (0, (rd.presentLayersArraySend p bufs).2) := by
  simp only [RemoteDisplay.presentLayers, RemoteDisplay.presentLayersArraySend,
    RemoteDisplay.presentLayersHeaderSend, RemoteDisplay.afterAlloc,
    Protocol.presentLayersHeader]
  generalize bufs.length % 2 ^ 32 = N
  by_cases h0 : N = 0
  · simp [h0]
  · cases hm : rd.malloc.1 <;> simp [h0, hm]
/-- On a healthy session `updateLayers` succeeds, for an empty batch as well. -/
theorem RemoteDisplay.updateLayers_healthy (p : Protocol) (rd : RemoteDisplay)
    (infos : List layer_info_t) (hp : p.sizesPositive) (hlen : infos.length < 2 ^ 32)
    (hh : rd.healthy) : (rd.updateLayers p infos).1 = 0 := by
  by_cases hne : infos = []
  · subst hne
    obtain ⟨a1, a2, _⟩ := RemoteDisplay._send_ok rd
      (Payload.update_layers_event p.DD_EVENT_UPDATE_LAYERS
        (p.sizeof_update_layers_event_t % 2 ^ 32) 0)
      p.sizeof_update_layers_event_t hh hp.2.2.2.2.2.2.2.2.1
    generalize hr1 : rd._send
      (some (Payload.update_layers_event p.DD_EVENT_UPDATE_LAYERS
        (p.sizeof_update_layers_event_t % 2 ^ 32) 0))
      p.sizeof_update_layers_event_t = r1 at a1 a2
    have hc : r1.2.mDisconnected = false := a2.1
    simp only [RemoteDisplay.updateLayers, List.length_nil, Nat.zero_mod, ne_eq,
      not_true_eq_false, if_false, Nat.mul_zero, Nat.add_zero, Bool.not_true,
      Bool.false_eq_true, hr1, a1, lt_self_iff_false, RemoteDisplay._send_none r1.2 _ hc]
  · exact (RemoteDisplay.updateLayers_ok p rd infos hp hh hne hlen).1

/-- The outcome of `updateLayers` on a batch of fewer than 2^32 records. -/
theorem RemoteDisplay.updateLayers_parts (p : Protocol) (rd : RemoteDisplay)
    (infos : List layer_info_t) (hp : p.sizesPositive) (hlen : infos.length < 2 ^ 32) :
    ((rd.updateLayers p infos).1 = 0 ∨ (rd.updateLayers p infos).1 = -1) ∧
    ((rd.updateLayers p infos).1 = -1 ↔
      (infos ≠ [] ∧ rd.malloc.1 = false) ∨ (rd.updateLayersHeaderSend p infos).1 < 0 ∨
        (rd.updateLayersArraySend p infos).1 < 0) ∧
    (infos ≠ [] → rd.malloc.1 = false → rd.opsSince (rd.updateLayers p infos).2 = []) ∧
    (¬ (infos ≠ [] ∧ rd.malloc.1 = false) → (rd.updateLayersHeaderSend p infos).1 < 0 →
      (rd.updateLayers p infos).2 = (rd.updateLayersHeaderSend p infos).2 ∧
      ∀ l n, SysOp.send (Payload.layer_infos l) n ∉ rd.opsSince (rd.updateLayers p infos).2) ∧
    ((rd.updateLayers p infos).1 = 0 → infos ≠ [] →
      rd.opsSince (rd.updateLayers p infos).2 = p.updateLayersOps infos) ∧
    ((rd.updateLayers p infos).1 = 0 → infos = [] →
      rd.opsSince (rd.updateLayers p infos).2 =
        [SysOp.send (p.updateLayersHeader 0) p.sizeof_update_layers_event_t]) := by
  have hmod : infos.length % 2 ^ 32 = infos.length := Nat.mod_eq_of_lt hlen
  have hsz1 : 0 < p.sizeof_update_layers_event_t := hp.2.2.2.2.2.2.2.2.1
  have hsz2 : 0 < p.sizeof_layer_info_t := hp.2.2.2.2.2.2.2.2.2.1
  have hH := RemoteDisplay._send_cases (rd.afterAlloc infos.length)
    (p.updateLayersHeader (infos.length % 2 ^ 32)) p.sizeof_update_layers_event_t hsz1
  rw [RemoteDisplay.afterAlloc_ops, hmod] at hH
  have hHdef : rd.updateLayersHeaderSend p infos = (rd.afterAlloc infos.length)._send
      (some (p.updateLayersHeader infos.length)) p.sizeof_update_layers_event_t := by
    simp only [RemoteDisplay.updateLayersHeaderSend, hmod]
  rw [← hHdef] at hH
  rw [RemoteDisplay.updateLayers_eq, hmod]
  by_cases hne : infos = []
  · subst hne
    have hR : rd.updateLayersArraySend p [] =
        if (rd.updateLayersHeaderSend p []).2.mDisconnected then
          (-1, (rd.updateLayersHeaderSend p []).2)
        else (0, (rd.updateLayersHeaderSend p []).2) := by
      simp [RemoteDisplay.updateLayersArraySend, RemoteDisplay._send]
    rw [hR]
    generalize rd.updateLayersHeaderSend p [] = h at hH ⊢
    simp only [List.length_nil] at hH
    rcases hH with ⟨h1, h2, h3⟩ | ⟨h1, h2, h3⟩
    · have e := RemoteDisplay.opsSince_of_append rd _ _ h3
      simp [h1, h2, e]
    · simp [h1, h2]
      intro l n hmem
      rcases h3 with h3 | h3
      · rw [RemoteDisplay.opsSince_of_append rd h.2 [] (by simpa using h3)] at hmem
        simp at hmem
      · rw [RemoteDisplay.opsSince_of_append rd h.2 _ h3] at hmem
        simp [Protocol.updateLayersHeader] at hmem
  · have hl0 : infos.length ≠ 0 := fun h => hne (List.length_eq_zero.mp h)
    have hR := RemoteDisplay._send_cases (rd.updateLayersHeaderSend p infos).2
      (Payload.layer_infos infos) (p.sizeof_layer_info_t * infos.length)
      (Nat.mul_pos hsz2 (by omega))
    have hRdef : rd.updateLayersArraySend p infos = (rd.updateLayersHeaderSend p infos).2._send
        (some (Payload.layer_infos infos)) (p.sizeof_layer_info_t * infos.length) := by
      simp only [RemoteDisplay.updateLayersArraySend, hmod, ne_eq, hl0, not_false_eq_true,
        if_true, List.take_length]
    rw [← hRdef] at hR
    have hmo := RemoteDisplay.malloc_ops rd
    generalize rd.updateLayersArraySend p infos = r at hR ⊢
    generalize rd.updateLayersHeaderSend p infos = h at hH hR ⊢
    cases hm : rd.malloc.1
    · simp [hl0, hne, RemoteDisplay.opsSince, hmo]
    · simp only [hl0, hne, ne_eq, not_false_eq_true, Bool.true_eq_false, and_false,
        if_false, false_or, not_true_eq_false]
      rcases hH with ⟨h1, h2, h3⟩ | ⟨h1, h2, h3⟩
      · rcases hR with ⟨r1, r2, r3⟩ | ⟨r1, r2, r3⟩
        · rw [h3] at r3
          have e := RemoteDisplay.opsSince_of_append rd r.2 _ (by rw [r3, List.append_assoc])
          simp [h1, r1, e, Protocol.updateLayersOps, Protocol.updateLayersHeader]
        · simp [h1, r1]
      · simp [h1]
        intro l n hmem
        rcases h3 with h3 | h3
        · rw [RemoteDisplay.opsSince_of_append rd h.2 [] (by simpa using h3)] at hmem
          simp at hmem
        · rw [RemoteDisplay.opsSince_of_append rd h.2 _ h3] at hmem
          simp [Protocol.updateLayersHeader] at hmem
/-- On a healthy session `presentLayers` succeeds, for an empty batch as well. -/
theorem RemoteDisplay.presentLayers_healthy (p : Protocol) (rd : RemoteDisplay)
    (bufs : List layer_buffer_info_t) (hp : p.sizesPositive) (hlen : bufs.length < 2 ^ 32)
    (hh : rd.healthy) : (rd.presentLayers p bufs).1 = 0 := by
  by_cases hne : bufs = []
  · subst hne
    obtain ⟨a1, a2, _⟩ := RemoteDisplay._send_ok rd
      (Payload.present_layers_req_event p.DD_EVENT_PRESENT_LAYERS_REQ
        (p.sizeof_present_layers_req_event_t % 2 ^ 32) 0)
      p.sizeof_present_layers_req_event_t hh hp.2.2.2.2.2.2.2.2.2.2.1
    generalize hr1 : rd._send
      (some (Payload.present_layers_req_event p.DD_EVENT_PRESENT_LAYERS_REQ
        (p.sizeof_present_layers_req_event_t % 2 ^ 32) 0))
      p.sizeof_present_layers_req_event_t = r1 at a1 a2
    have hc : r1.2.mDisconnected = false := a2.1
    simp only [RemoteDisplay.presentLayers, List.length_nil, Nat.zero_mod, ne_eq,
      not_true_eq_false, if_false, Nat.mul_zero, Nat.add_zero, Bool.not_true,
      Bool.false_eq_true, hr1, a1, lt_self_iff_false, RemoteDisplay._send_none r1.2 _ hc]
  · exact (RemoteDisplay.presentLayers_ok p rd bufs hp hh hne hlen).1

/-- The outcome of `presentLayers` on a batch of fewer than 2^32 records. -/
theorem RemoteDisplay.presentLayers_parts (p : Protocol) (rd : RemoteDisplay)
    (bufs : List layer_buffer_info_t) (hp : p.sizesPositive) (hlen : bufs.length < 2 ^ 32) :
    ((rd.presentLayers p bufs).1 = 0 ∨ (rd.presentLayers p bufs).1 = -1) ∧
    ((rd.presentLayers p bufs).1 = -1 ↔
      (bufs ≠ [] ∧ rd.malloc.1 = false) ∨ (rd.presentLayersHeaderSend p bufs).1 < 0 ∨
        (rd.presentLayersArraySend p bufs).1 < 0) ∧
    (bufs ≠ [] → rd.malloc.1 = false → rd.opsSince (rd.presentLayers p bufs).2 = []) ∧
    (¬ (bufs ≠ [] ∧ rd.malloc.1 = false) → (rd.presentLayersHeaderSend p bufs).1 < 0 →
      (rd.presentLayers p bufs).2 = (rd.presentLayersHeaderSend p bufs).2 ∧
      ∀ l n, SysOp.send (Payload.layer_buffer_infos l) n ∉ rd.opsSince (rd.presentLayers p bufs).2) ∧
    ((rd.presentLayers p bufs).1 = 0 → bufs ≠ [] →
      rd.opsSince (rd.presentLayers p bufs).2 = p.presentLayersOps bufs) ∧
    ((rd.presentLayers p bufs).1 = 0 → bufs = [] →
      rd.opsSince (rd.presentLayers p bufs).2 =
        [SysOp.send (p.presentLayersHeader 0) p.sizeof_present_layers_req_event_t]) := by
  have hmod : bufs.length % 2 ^ 32 = bufs.length := Nat.mod_eq_of_lt hlen
  have hsz1 : 0 < p.sizeof_present_layers_req_event_t := hp.2.2.2.2.2.2.2.2.2.2.1
  have hsz2 : 0 < p.sizeof_layer_buffer_info_t := hp.2.2.2.2.2.2.2.2.2.2.2.1
  have hH := RemoteDisplay._send_cases (rd.afterAlloc bufs.length)
    (p.presentLayersHeader (bufs.length % 2 ^ 32)) p.sizeof_present_layers_req_event_t hsz1
  rw [RemoteDisplay.afterAlloc_ops, hmod] at hH
  have hHdef : rd.presentLayersHeaderSend p bufs = (rd.afterAlloc bufs.length)._send
      (some (p.presentLayersHeader bufs.length)) p.sizeof_present_layers_req_event_t := by
    simp only [RemoteDisplay.presentLayersHeaderSend, hmod]
  rw [← hHdef] at hH
  rw [RemoteDisplay.presentLayers_eq, hmod]
  by_cases hne : bufs = []
  · subst hne
    have hR : rd.presentLayersArraySend p [] =
        if (rd.presentLayersHeaderSend p []).2.mDisconnected then
          (-1, (rd.presentLayersHeaderSend p []).2)
        else (0, (rd.presentLayersHeaderSend p []).2) := by
      simp [RemoteDisplay.presentLayersArraySend, RemoteDisplay._send]
    rw [hR]
    generalize rd.presentLayersHeaderSend p [] = h at hH ⊢
    simp only [List.length_nil] at hH
    rcases hH with ⟨h1, h2, h3⟩ | ⟨h1, h2, h3⟩
    · have e := RemoteDisplay.opsSince_of_append rd _ _ h3
      simp [h1, h2, e]
    · simp [h1, h2]
      intro l n hmem
      rcases h3 with h3 | h3
      · rw [RemoteDisplay.opsSince_of_append rd h.2 [] (by simpa using h3)] at hmem
        simp at hmem
      · rw [RemoteDisplay.opsSince_of_append rd h.2 _ h3] at hmem
        simp [Protocol.presentLayersHeader] at hmem
  · have hl0 : bufs.length ≠ 0 := fun h => hne (List.length_eq_zero.mp h)
    have hR := RemoteDisplay._send_cases (rd.presentLayersHeaderSend p bufs).2
      (Payload.layer_buffer_infos bufs) (p.sizeof_layer_buffer_info_t * bufs.length)
      (Nat.mul_pos hsz2 (by omega))
    have hRdef : rd.presentLayersArraySend p bufs = (rd.presentLayersHeaderSend p bufs).2._send
        (some (Payload.layer_buffer_infos bufs)) (p.sizeof_layer_buffer_info_t * bufs.length) := by
      simp only [RemoteDisplay.presentLayersArraySend, hmod, ne_eq, hl0, not_false_eq_true,
        if_true, List.take_length]
    rw [← hRdef] at hR
    have hmo := RemoteDisplay.malloc_ops rd
    generalize rd.presentLayersArraySend p bufs = r at hR ⊢
    generalize rd.presentLayersHeaderSend p bufs = h at hH hR ⊢
    cases hm : rd.malloc.1
    · simp [hl0, hne, RemoteDisplay.opsSince, hmo]
    · simp only [hl0, hne, ne_eq, not_false_eq_true, Bool.true_eq_false, and_false,
        if_false, false_or, not_true_eq_false]
      rcases hH with ⟨h1, h2, h3⟩ | ⟨h1, h2, h3⟩
      · rcases hR with ⟨r1, r2, r3⟩ | ⟨r1, r2, r3⟩
        · rw [h3] at r3
          have e := RemoteDisplay.opsSince_of_append rd r.2 _ (by rw [r3, List.append_assoc])
          simp [h1, r1, e, Protocol.presentLayersOps, Protocol.presentLayersHeader]
        · simp [h1, r1]
      · simp [h1]
        intro l n hmem
        rcases h3 with h3 | h3
        · rw [RemoteDisplay.opsSince_of_append rd h.2 [] (by simpa using h3)] at hmem
          simp at hmem
        · rw [RemoteDisplay.opsSince_of_append rd h.2 _ h3] at hmem
          simp [Protocol.presentLayersHeader] at hmem

/-- Claim C21: `updateLayers` and `presentLayers` on a batch of fewer than 2^32 records.
Each returns 0 or -1, and -1 exactly when the allocation of the scratch array fails (there
is none for an empty batch), the send of the header-and-count struct fails, or the send of
the record array fails.  After a failed allocation nothing is written; after a failed header
send nothing further is done and no record array has been written.  On success a non-empty
batch has written exactly two parts, the header-and-count struct with `numLayers` the length
of the batch and then the records in list order, and an empty batch exactly one part, the
header-and-count struct with `numLayers = 0`.  On a session whose writes and allocations
succeed the operation succeeds. -/
theorem batched_sends_outcome (p : Protocol) (rd : RemoteDisplay)
    (infos : List layer_info_t) (bufs : List layer_buffer_info_t) (hp : p.sizesPositive)
    (hi : infos.length < 2 ^ 32) (hb : bufs.length < 2 ^ 32) :
    (((rd.updateLayers p infos).1 = 0 ∨ (rd.updateLayers p infos).1 = -1) ∧
     ((rd.updateLayers p infos).1 = -1 ↔
       (infos ≠ [] ∧ rd.malloc.1 = false) ∨ (rd.updateLayersHeaderSend p infos).1 < 0 ∨
         (rd.updateLayersArraySend p infos).1 < 0) ∧
     (infos ≠ [] → rd.malloc.1 = false → rd.opsSince (rd.updateLayers p infos).2 = []) ∧
     (¬ (infos ≠ [] ∧ rd.malloc.1 = false) → (rd.updateLayersHeaderSend p infos).1 < 0 →
       (rd.updateLayers p infos).2 = (rd.updateLayersHeaderSend p infos).2 ∧
       ∀ l n, SysOp.send (Payload.layer_infos l) n ∉ rd.opsSince (rd.updateLayers p infos).2) ∧
     ((rd.updateLayers p infos).1 = 0 → infos ≠ [] →
       rd.opsSince (rd.updateLayers p infos).2 = p.updateLayersOps infos) ∧
     ((rd.updateLayers p infos).1 = 0 → infos = [] →
       rd.opsSince (rd.updateLayers p infos).2 =
         [SysOp.send (p.updateLayersHeader 0) p.sizeof_update_layers_event_t]) ∧
     (rd.healthy → (rd.updateLayers p infos).1 = 0)) ∧
    (((rd.presentLayers p bufs).1 = 0 ∨ (rd.presentLayers p bufs).1 = -1) ∧
     ((rd.presentLayers p bufs).1 = -1 ↔
       (bufs ≠ [] ∧ rd.malloc.1 = false) ∨ (rd.presentLayersHeaderSend p bufs).1 < 0 ∨
         (rd.presentLayersArraySend p bufs).1 < 0) ∧
     (bufs ≠ [] → rd.malloc.1 = false → rd.opsSince (rd.presentLayers p bufs).2 = []) ∧
     (¬ (bufs ≠ [] ∧ rd.malloc.1 = false) → (rd.presentLayersHeaderSend p bufs).1 < 0 →
       (rd.presentLayers p bufs).2 = (rd.presentLayersHeaderSend p bufs).2 ∧
       ∀ l n, SysOp.send (Payload.layer_buffer_infos l) n ∉
         rd.opsSince (rd.presentLayers p bufs).2) ∧
     ((rd.presentLayers p bufs).1 = 0 → bufs ≠ [] →
       rd.opsSince (rd.presentLayers p bufs).2 = p.presentLayersOps bufs) ∧
     ((rd.presentLayers p bufs).1 = 0 → bufs = [] →
       rd.opsSince (rd.presentLayers p bufs).2 =
         [SysOp.send (p.presentLayersHeader 0) p.sizeof_present_layers_req_event_t]) ∧
     (rd.healthy → (rd.presentLayers p bufs).1 = 0)) := by
  obtain ⟨u1, u2, u3, u4, u5, u6⟩ := RemoteDisplay.updateLayers_parts p rd infos hp hi
  obtain ⟨v1, v2, v3, v4, v5, v6⟩ := RemoteDisplay.presentLayers_parts p rd bufs hp hb
  exact ⟨⟨u1, u2, u3, u4, u5, u6, RemoteDisplay.updateLayers_healthy p rd infos hp hi⟩,
    ⟨v1, v2, v3, v4, v5, v6, RemoteDisplay.presentLayers_healthy p rd bufs hp hb⟩⟩

/-- On the sample session a batch of one attribute record is written as header-and-count
struct and record array, and an empty batch of buffer records as the header-and-count struct
alone; a failing first write makes the operation fail after the header attempt. -/
theorem batched_sends_outcome_witness :
    sampleProtocol.sizesPositive ∧
    (sampleSession.updateLayers sampleProtocol [sampleLayer.info]).1 = 0 ∧
    sampleSession.opsSince (sampleSession.updateLayers sampleProtocol [sampleLayer.info]).2 =
      sampleProtocol.updateLayersOps [sampleLayer.info] ∧
    (sampleSession.presentLayers sampleProtocol []).1 = 0 ∧
    sampleSession.opsSince (sampleSession.presentLayers sampleProtocol []).2 =
      [SysOp.send (sampleProtocol.presentLayersHeader 0)
        sampleProtocol.sizeof_present_layers_req_event_t] :=
  have h := batched_sends_outcome sampleProtocol sampleSession [sampleLayer.info] []
    (by decide) (by decide) (by decide)
  ⟨by decide, h.1.2.2.2.2.2.2 (by decide),
    h.1.2.2.2.2.1 (h.1.2.2.2.2.2.2 (by decide)) (by decide),
    h.2.2.2.2.2.2.2 (by decide),
    h.2.2.2.2.2.2.1 (h.2.2.2.2.2.2.2 (by decide)) rfl⟩

theorem RemoteDisplay.traceSince_of_append (rd rd1 : RemoteDisplay) (xs : List SysCall)
    (h : rd1.sock.trace = rd.sock.trace ++ xs) : rd.traceSince rd1 = xs := by
  unfold RemoteDisplay.traceSince
  rw [h, List.drop_left]

/-- The runs of the statements of `createBuffer` on a connected session: the system calls
made with their results, and the value returned. -/
theorem RemoteDisplay.createBufferSends_runs (p : Protocol) (rd : RemoteDisplay)
    (b : buffer_handle_t) (hp : p.sizesPositive) (hc : rd.mDisconnected = false) :
    ∃ r1 r2 r3 r4 : Int,
      (r1 ≤ 0 ∧ (rd.createBufferSends p b).1 = -1 ∧
        rd.traceSince (rd.createBufferSends p b).2 =
          [⟨SysOp.send (p.createBufferHeader b) p.sizeof_display_event_t, r1⟩]) ∨
      (0 < r1 ∧ r2 ≤ 0 ∧ (rd.createBufferSends p b).1 = -1 ∧
        rd.traceSince (rd.createBufferSends p b).2 =
          [⟨SysOp.send (p.createBufferHeader b) p.sizeof_display_event_t, r1⟩,
           ⟨SysOp.send (Payload.buffer_info b.addr) p.sizeof_buffer_info_t, r2⟩]) ∨
      (0 < r1 ∧ 0 < r2 ∧ r3 ≤ 0 ∧ (rd.createBufferSends p b).1 = -1 ∧
        rd.traceSince (rd.createBufferSends p b).2 =
          [⟨SysOp.send (p.createBufferHeader b) p.sizeof_display_event_t, r1⟩,
           ⟨SysOp.send (Payload.buffer_info b.addr) p.sizeof_buffer_info_t, r2⟩,
           ⟨SysOp.send (Payload.native_handle b)
             (p.sizeof_native_handle_t + (b.numFds + b.numInts) * 4), r3⟩]) ∨
      (0 < r1 ∧ 0 < r2 ∧ 0 < r3 ∧ b.numFds = 0 ∧ (rd.createBufferSends p b).1 = 0 ∧
        rd.traceSince (rd.createBufferSends p b).2 =
          [⟨SysOp.send (p.createBufferHeader b) p.sizeof_display_event_t, r1⟩,
           ⟨SysOp.send (Payload.buffer_info b.addr) p.sizeof_buffer_info_t, r2⟩,
           ⟨SysOp.send (Payload.native_handle b)
             (p.sizeof_native_handle_t + (b.numFds + b.numInts) * 4), r3⟩]) ∨
      (0 < r1 ∧ 0 < r2 ∧ 0 < r3 ∧ 0 < b.numFds ∧ r4 ≤ 0 ∧ (rd.createBufferSends p b).1 = -1 ∧
        rd.traceSince (rd.createBufferSends p b).2 =
          [⟨SysOp.send (p.createBufferHeader b) p.sizeof_display_event_t, r1⟩,
           ⟨SysOp.send (Payload.buffer_info b.addr) p.sizeof_buffer_info_t, r2⟩,
           ⟨SysOp.send (Payload.native_handle b)
             (p.sizeof_native_handle_t + (b.numFds + b.numInts) * 4), r3⟩,
           ⟨SysOp.sendmsg (b.data.take b.numFds) 16, r4⟩]) ∨
      (0 < r1 ∧ 0 < r2 ∧ 0 < r3 ∧ 0 < b.numFds ∧ 0 < r4 ∧ (rd.createBufferSends p b).1 = 0 ∧
        rd.traceSince (rd.createBufferSends p b).2 =
          [⟨SysOp.send (p.createBufferHeader b) p.sizeof_display_event_t, r1⟩,
           ⟨SysOp.send (Payload.buffer_info b.addr) p.sizeof_buffer_info_t, r2⟩,
           ⟨SysOp.send (Payload.native_handle b)
             (p.sizeof_native_handle_t + (b.numFds + b.numInts) * 4), r3⟩,
           ⟨SysOp.sendmsg (b.data.take b.numFds) 16, r4⟩]) := by
  have hsz3 : 0 < p.sizeof_native_handle_t + (b.numFds + b.numInts) * 4 := by
    have := hp.2.2.2.2.1
    omega
  have hneg : ∀ x : Int, x = -1 → x < 0 := by intro x hx; omega
  have hzero : ∀ x : Int, x = 0 → ¬ x < 0 := by intro x hx; omega
  rcases RemoteDisplay._send_step rd (p.createBufferHeader b) p.sizeof_display_event_t hp.1
    with ⟨hd, _⟩ | ⟨_, r1, t1, ⟨p1, e1, c1⟩ | ⟨n1, e1, c1⟩⟩
  · rw [hc] at hd
    exact absurd hd (by simp)
  · generalize hs1 : rd._send (some (p.createBufferHeader b)) p.sizeof_display_event_t = s1
      at t1 e1 c1
    rcases RemoteDisplay._send_step s1.2 (Payload.buffer_info b.addr) p.sizeof_buffer_info_t
      hp.2.2.1 with ⟨hd, _⟩ | ⟨_, r2, t2, ⟨p2, e2, c2⟩ | ⟨n2, e2, c2⟩⟩
    · rw [c1] at hd
      exact absurd hd (by simp)
    · generalize hs2 : s1.2._send (some (Payload.buffer_info b.addr)) p.sizeof_buffer_info_t
        = s2 at t2 e2 c2
      rcases RemoteDisplay._send_step s2.2 (Payload.native_handle b)
        (p.sizeof_native_handle_t + (b.numFds + b.numInts) * 4) hsz3
        with ⟨hd, _⟩ | ⟨_, r3, t3, ⟨p3, e3, c3⟩ | ⟨n3, e3, c3⟩⟩
      · rw [c2] at hd
        exact absurd hd (by simp)
      · generalize hs3 : s2.2._send (some (Payload.native_handle b))
          (p.sizeof_native_handle_t + (b.numFds + b.numInts) * 4) = s3 at t3 e3 c3
        by_cases hf : b.numFds > 0
        · rcases RemoteDisplay._sendFds_step s3.2 (b.data.take b.numFds)
            with ⟨hd, _⟩ | ⟨_, r4, t4, ⟨p4, e4, c4⟩ | ⟨n4, e4, c4⟩⟩
          · rw [c3] at hd
            exact absurd hd (by simp)
          · generalize hs4 : s3.2._sendFds (b.data.take b.numFds) = s4 at t4 e4 c4
            have hres : rd.createBufferSends p b = (0, s4.2) := by
              simp only [RemoteDisplay.createBufferSends, Protocol.createBufferHeader] at hs1 ⊢
              simp only [hs1, hs2, hs3, hs4, if_neg (hzero _ e1),
                if_neg (hzero _ e2), if_neg (hzero _ e3), if_neg (hzero _ e4), if_pos hf]
            refine ⟨r1, r2, r3, r4, Or.inr (Or.inr (Or.inr (Or.inr (Or.inr
              ⟨p1, p2, p3, hf, p4, by rw [hres], ?_⟩))))⟩
            rw [hres]
            apply RemoteDisplay.traceSince_of_append
            simp [t4, t3, t2, t1]
          · generalize hs4 : s3.2._sendFds (b.data.take b.numFds) = s4 at t4 e4 c4
            have hres : rd.createBufferSends p b = (-1, s4.2) := by
              simp only [RemoteDisplay.createBufferSends, Protocol.createBufferHeader] at hs1 ⊢
              simp only [hs1, hs2, hs3, hs4, if_neg (hzero _ e1),
                if_neg (hzero _ e2), if_neg (hzero _ e3), if_pos (hneg _ e4), if_pos hf]
            refine ⟨r1, r2, r3, r4, Or.inr (Or.inr (Or.inr (Or.inr (Or.inl
              ⟨p1, p2, p3, hf, n4, by rw [hres], ?_⟩))))⟩
            rw [hres]
            apply RemoteDisplay.traceSince_of_append
            simp [t4, t3, t2, t1]
        · have hres : rd.createBufferSends p b = (0, s3.2) := by
            simp only [RemoteDisplay.createBufferSends, Protocol.createBufferHeader] at hs1 ⊢
            simp only [hs1, hs2, hs3, if_neg (hzero _ e1),
              if_neg (hzero _ e2), if_neg (hzero _ e3), if_neg hf]
          refine ⟨r1, r2, r3, 0, Or.inr (Or.inr (Or.inr (Or.inl
            ⟨p1, p2, p3, by omega, by rw [hres], ?_⟩)))⟩
          rw [hres]
          apply RemoteDisplay.traceSince_of_append
          simp [t3, t2, t1]
      · generalize hs3 : s2.2._send (some (Payload.native_handle b))
          (p.sizeof_native_handle_t + (b.numFds + b.numInts) * 4) = s3 at t3 e3 c3
        have hres : rd.createBufferSends p b = (-1, s3.2) := by
          simp only [RemoteDisplay.createBufferSends, Protocol.createBufferHeader] at hs1 ⊢
          simp only [hs1, hs2, hs3, if_neg (hzero _ e1),
            if_neg (hzero _ e2), if_pos (hneg _ e3)]
        refine ⟨r1, r2, r3, 0, Or.inr (Or.inr (Or.inl ⟨p1, p2, n3, by rw [hres], ?_⟩))⟩
        rw [hres]
        apply RemoteDisplay.traceSince_of_append
        simp [t3, t2, t1]
    · generalize hs2 : s1.2._send (some (Payload.buffer_info b.addr)) p.sizeof_buffer_info_t
        = s2 at t2 e2 c2
      have hres : rd.createBufferSends p b = (-1, s2.2) := by
        simp only [RemoteDisplay.createBufferSends, Protocol.createBufferHeader] at hs1 ⊢
        simp only [hs1, hs2, if_neg (hzero _ e1), if_pos (hneg _ e2)]
      refine ⟨r1, r2, 0, 0, Or.inr (Or.inl ⟨p1, n2, by rw [hres], ?_⟩)⟩
      rw [hres]
      apply RemoteDisplay.traceSince_of_append
      simp [t2, t1]
  · generalize hs1 : rd._send (some (p.createBufferHeader b)) p.sizeof_display_event_t = s1
      at t1 e1 c1
    have hres : rd.createBufferSends p b = (-1, s1.2) := by
      simp only [RemoteDisplay.createBufferSends, Protocol.createBufferHeader] at hs1 ⊢
      simp only [hs1, if_pos (hneg _ e1)]
    refine ⟨r1, 0, 0, 0, Or.inl ⟨n1, by rw [hres], ?_⟩⟩
    rw [hres]
    exact RemoteDisplay.traceSince_of_append rd _ _ t1

/-- Claim C22: `createBuffer` for a non-null buffer on a connected session.  It returns, with
0 or -1; the system calls it makes are an initial part of the complete message (header,
buffer id, native handle, then the descriptor transfer when `numFds > 0`); every call but
the last it makes has succeeded, so nothing is attempted after a failure; it returns 0
exactly when every call it made succeeded, and then the message is complete.  The descriptor
transfer is made exactly when `numFds > 0` and the three in-band writes were made and
succeeded, and it carries the first `numFds` entries of the handle's data. -/
theorem createBuffer_descriptor_transfer (p : Protocol) (rd : RemoteDisplay)
    (b : buffer_handle_t) (hp : p.sizesPositive) (hb : b.addr ≠ 0)
    (hc : rd.mDisconnected = false) :
    ∃ r, rd.createBuffer p b = some r ∧
    (r.1 = 0 ∨ r.1 = -1) ∧
    (rd.traceSince r.2).map (fun c => c.op) <+: p.createBufferOps b ∧
    (∀ c ∈ (rd.traceSince r.2).dropLast, 0 < c.ret) ∧
    (r.1 = 0 ↔ ∀ c ∈ rd.traceSince r.2, 0 < c.ret) ∧
    ((∃ c ∈ rd.traceSince r.2, c.op.isSendmsg = true) ↔
      0 < b.numFds ∧ ∃ r1 r2 r3 : Int, 0 < r1 ∧ 0 < r2 ∧ 0 < r3 ∧
        (rd.traceSince r.2).take 3 =
          [⟨SysOp.send (p.createBufferHeader b) p.sizeof_display_event_t, r1⟩,
           ⟨SysOp.send (Payload.buffer_info b.addr) p.sizeof_buffer_info_t, r2⟩,
           ⟨SysOp.send (Payload.native_handle b)
             (p.sizeof_native_handle_t + (b.numFds + b.numInts) * 4), r3⟩]) ∧
    (∀ c ∈ rd.traceSince r.2, c.op.isSendmsg = true →
      c.op = SysOp.sendmsg (b.data.take b.numFds) 16) ∧
    (r.1 = 0 → (rd.traceSince r.2).map (fun c => c.op) = p.createBufferOps b) := by
  refine ⟨rd.createBufferSends p b, RemoteDisplay.createBuffer_some p rd b hb, ?_⟩
  obtain ⟨r1, r2, r3, r4, h⟩ := RemoteDisplay.createBufferSends_runs p rd b hp hc
  rcases h with ⟨n1, e, t⟩ | ⟨p1, n2, e, t⟩ | ⟨p1, p2, n3, e, t⟩ | ⟨p1, p2, p3, hf, e, t⟩ |
    ⟨p1, p2, p3, hf, n4, e, t⟩ | ⟨p1, p2, p3, hf, p4, e, t⟩
  · rw [e, t]
    refine ⟨Or.inr rfl, ?_, ?_, ?_, ?_, ?_, ?_⟩
    · exact ⟨_, rfl⟩
    · simp
    · simp; omega
    · simp [SysOp.isSendmsg]
    · simp [SysOp.isSendmsg]
    · simp
  · rw [e, t]
    refine ⟨Or.inr rfl, ?_, ?_, ?_, ?_, ?_, ?_⟩
    · exact ⟨_, rfl⟩
    · simp [p1]
    · simp; omega
    · simp [SysOp.isSendmsg]
    · simp [SysOp.isSendmsg]
    · simp
  · rw [e, t]
    refine ⟨Or.inr rfl, ?_, ?_, ?_, ?_, ?_, ?_⟩
    · exact ⟨_, rfl⟩
    · simp [p1, p2]
    · simp; omega
    · simp [SysOp.isSendmsg]
      intro _ x1 x2 x3 _ _ _ h1 h2 h3
      omega
    · simp [SysOp.isSendmsg]
    · simp
  · rw [e, t]
    refine ⟨Or.inl rfl, ?_, ?_, ?_, ?_, ?_, ?_⟩
    · simp [Protocol.createBufferOps, hf]
    · simp [p1, p2]
    · simp [p1, p2, p3]
    · simp [SysOp.isSendmsg, hf]
    · simp [SysOp.isSendmsg]
    · simp [Protocol.createBufferOps, hf]
  · rw [e, t]
    refine ⟨Or.inr rfl, ?_, ?_, ?_, ?_, ?_, ?_⟩
    · simp [Protocol.createBufferOps, hf]
    · simp [p1, p2, p3]
    · simp; omega
    · simp [SysOp.isSendmsg, hf]
      exact ⟨r1, p1, r2, p2, r3, p3, rfl, rfl, rfl⟩
    · simp [SysOp.isSendmsg]
    · simp
  · rw [e, t]
    refine ⟨Or.inl rfl, ?_, ?_, ?_, ?_, ?_, ?_⟩
    · simp [Protocol.createBufferOps, hf]
    · simp [p1, p2, p3]
    · simp [p1, p2, p3, p4]
    · simp [SysOp.isSendmsg, hf]
      exact ⟨r1, p1, r2, p2, r3, p3, rfl, rfl, rfl⟩
    · simp [SysOp.isSendmsg]
    · simp [Protocol.createBufferOps, hf]

/-- On the sample session the buffer with one descriptor is registered by the three in-band
writes and the transfer of descriptor 9; when the third write fails, `createBuffer` returns
-1 after three calls and makes no descriptor transfer. -/
theorem createBuffer_descriptor_transfer_witness :
    (sampleSession.createBuffer sampleProtocol fdBuffer).map
        (fun r => (sampleSession.traceSince r.2).map (fun c => c.op)) =
      some [SysOp.send (sampleProtocol.createBufferHeader fdBuffer) 8,
       SysOp.send (Payload.buffer_info 0x6000) 8,
       SysOp.send (Payload.native_handle fdBuffer) 20,
       SysOp.sendmsg [9] 16] ∧
    (thirdWriteFailsSession.createBuffer sampleProtocol fdBuffer).map
        (fun r => (r.1, (thirdWriteFailsSession.traceSince r.2).length)) = some (-1, 3) := by
  obtain ⟨r, hr, h⟩ := createBuffer_descriptor_transfer sampleProtocol sampleSession fdBuffer
    (by decide) (by decide) (by decide)
  have e : (sampleSession.createBuffer sampleProtocol fdBuffer).map (fun r => r.1) = some 0 := by
    decide
  rw [hr] at e
  have h0 : r.1 = 0 := Option.some.inj e
  refine ⟨?_, by decide⟩
  rw [hr]
  exact congrArg some ((h.2.2.2.2.2.2 h0).trans (by decide))

/-! ## Detaching a session (C23) -/

/-- Claim C23: `detach(rd)` returns 0; when `rd` is the display's current session it empties
the client-target registration history, resets the cached transform to 0 and clears the
session reference, and leaves the layer collection (every layer with its flags), the
dimensions, frame rate, densities, version, mode, configuration, layer counter, client target
and frame counter as they were; when `rd` is another pointer the whole display is unchanged. -/
theorem detach_frame (d : Hwc2Display) (ptr : Option Nat) :
    (d.detach ptr).1 = 0 ∧
    (ptr = d.mRemoteDisplay →
      (d.detach ptr).2.mFbtBuffers = [] ∧ (d.detach ptr).2.mTransform = 0 ∧
      (d.detach ptr).2.mRemoteDisplay = none ∧
      (d.detach ptr).2 =
        { d with mFbtBuffers := [], mTransform := 0, mRemoteDisplay := none }) ∧
    (ptr ≠ d.mRemoteDisplay → (d.detach ptr).2 = d) ∧
    (d.detach ptr).2.mLayers = d.mLayers ∧
    (d.detach ptr).2.mWidth = d.mWidth ∧ (d.detach ptr).2.mHeight = d.mHeight ∧
    (d.detach ptr).2.mFramerate = d.mFramerate ∧
    (d.detach ptr).2.mXDpi = d.mXDpi ∧ (d.detach ptr).2.mYDpi = d.mYDpi ∧
    (d.detach ptr).2.mVersion = d.mVersion ∧ (d.detach ptr).2.mMode = d.mMode ∧
    (d.detach ptr).2.mConfig = d.mConfig ∧ (d.detach ptr).2.mLayerIndex = d.mLayerIndex ∧
    (d.detach ptr).2.mFbTarget = d.mFbTarget ∧ (d.detach ptr).2.mFrameNum = d.mFrameNum := by
  by_cases h : ptr = d.mRemoteDisplay <;> simp [Hwc2Display.detach, h]

/-! ## Layer ids (C24) -/

theorem LayerMap.emplace_above (m : LayerMap) (k : Nat) (v : Hwc2Layer)
    (h : ∀ e ∈ m, e.1 < k) : LayerMap.emplace m k v = m ++ [(k, v)] := by
  induction m with
  | nil => rfl
  | cons e rest ih =>
    have he : e.1 < k := h e (List.mem_cons_self _ _)
    have h1 : ¬ k < e.1 := by omega
    have h2 : ¬ k = e.1 := by omega
    simp only [LayerMap.emplace, if_neg h1, if_neg h2, List.cons_append]
    rw [ih (fun x hx => h x (List.mem_cons_of_mem _ hx))]

theorem LayerMap.modify_above (m : LayerMap) (k : Nat) (v : Hwc2Layer)
    (f : Hwc2Layer → Hwc2Layer) (h : ∀ e ∈ m, e.1 < k) :
    LayerMap.modify (m ++ [(k, v)]) k f = m ++ [(k, f v)] := by
  induction m with
  | nil => simp [LayerMap.modify]
  | cons e rest ih =>
    have he : e.1 < k := h e (List.mem_cons_self _ _)
    have h1 : ¬ e.1 = k := by omega
    simp only [List.cons_append, LayerMap.modify, if_neg h1, List.append_eq]
    rw [ih (fun x hx => h x (List.mem_cons_of_mem _ hx))]

/-- On a display whose keys are all below the counter, `createLayer` appends one record,
keyed by the counter value, which it returns. -/
theorem Hwc2Display.createLayer_fresh (p : Protocol) (init : Hwc2Layer) (d : Hwc2Display)
    (rd : RemoteDisplay) (hinv : d.idsBelowCounter) :
    (Hwc2Display.createLayer p init d rd).1 = Error.None ∧
    (Hwc2Display.createLayer p init d rd).2.1 = d.mLayerIndex ∧
    (Hwc2Display.createLayer p init d rd).2.2.1.mLayers =
      d.mLayers ++ [(d.mLayerIndex,
        (Hwc2Layer.ctor init d.mLayerIndex).setRemoteDisplay d.mRemoteDisplay)] ∧
    (Hwc2Display.createLayer p init d rd).2.2.1.mLayerIndex = (d.mLayerIndex + 1) % 2 ^ 64 := by
  have h : ∀ e ∈ d.mLayers, e.1 < d.mLayerIndex := by
    intro e he
    exact hinv e.1 (List.mem_map_of_mem _ he)
  simp only [Hwc2Display.createLayer, LayerMap.emplace_above _ _ _ h,
    LayerMap.modify_above _ _ _ _ h]
  exact ⟨trivial, trivial, trivial, trivial⟩

theorem Hwc2Display.layerCalls_append (p : Protocol) (init : Hwc2Layer) (d : Hwc2Display)
    (rd : RemoteDisplay) (xs ys : List LayerCall) :
    Hwc2Display.layerCalls p init d rd (xs ++ ys) =
      ((Hwc2Display.layerCalls p init d rd xs).1 ++
        (Hwc2Display.layerCalls p init (Hwc2Display.layerCalls p init d rd xs).2.1
          (Hwc2Display.layerCalls p init d rd xs).2.2 ys).1,
       (Hwc2Display.layerCalls p init (Hwc2Display.layerCalls p init d rd xs).2.1
          (Hwc2Display.layerCalls p init d rd xs).2.2 ys).2) := by
  induction xs generalizing d rd with
  | nil => simp [Hwc2Display.layerCalls]
  | cons c cs ih =>
    cases c with
    | create =>
      simp only [List.cons_append, Hwc2Display.layerCalls, List.append_eq]
      rw [ih]
    | destroy l =>
      simp only [List.cons_append, Hwc2Display.layerCalls, List.append_eq]
      rw [ih]

/-- A run of layer calls without counter wrap-around keeps every key below the counter,
never lowers the counter, and returns ids that lie between the counter before and the
counter after and ascend strictly. -/
theorem Hwc2Display.layerCalls_inv (p : Protocol) (init : Hwc2Layer) (d : Hwc2Display)
    (rd : RemoteDisplay) (cs : List LayerCall) (hinv : d.idsBelowCounter)
    (hwrap : d.mLayerIndex + cs.length < 2 ^ 64) :
    (Hwc2Display.layerCalls p init d rd cs).2.1.idsBelowCounter ∧
    d.mLayerIndex ≤ (Hwc2Display.layerCalls p init d rd cs).2.1.mLayerIndex ∧
    (Hwc2Display.layerCalls p init d rd cs).2.1.mLayerIndex ≤ d.mLayerIndex + cs.length ∧
    (∀ id ∈ (Hwc2Display.layerCalls p init d rd cs).1,
      d.mLayerIndex ≤ id ∧ id < (Hwc2Display.layerCalls p init d rd cs).2.1.mLayerIndex) ∧
    (Hwc2Display.layerCalls p init d rd cs).1.Pairwise (· < ·) := by
  induction cs generalizing d rd with
  | nil => simp [Hwc2Display.layerCalls, hinv]
  | cons c cs ih =>
    simp only [List.length_cons] at hwrap
    cases c with
    | create =>
      obtain ⟨_, c2, c3, c4⟩ := Hwc2Display.createLayer_fresh p init d rd hinv
      have hidx : (Hwc2Display.createLayer p init d rd).2.2.1.mLayerIndex =
          d.mLayerIndex + 1 := by
        rw [c4]
        exact Nat.mod_eq_of_lt (by omega)
      have hinv1 : (Hwc2Display.createLayer p init d rd).2.2.1.idsBelowCounter := by
        intro k hk
        rw [hidx]
        simp only [Hwc2Display.layerIds, c3, List.map_append, List.map_cons, List.map_nil,
          List.mem_append, List.mem_singleton] at hk
        rcases hk with hk | hk
        · have := hinv k hk
          omega
        · omega
      obtain ⟨i1, i2, i3, i4, i5⟩ := ih (Hwc2Display.createLayer p init d rd).2.2.1
        (Hwc2Display.createLayer p init d rd).2.2.2 hinv1 (by rw [hidx]; omega)
      rw [hidx] at i2 i3 i4
      simp only [Hwc2Display.layerCalls, List.length_cons]
      refine ⟨i1, by omega, by omega, ?_, ?_⟩
      · intro id hid
        rcases List.mem_cons.mp hid with h | h
        · rw [h, c2]
          omega
        · have := i4 id h
          omega
      · refine List.pairwise_cons.mpr ⟨?_, i5⟩
        intro id hid
        have := i4 id hid
        rw [c2]
        omega
    | destroy l =>
      have hinv1 : (Hwc2Display.destroyLayer p d rd l).2.1.idsBelowCounter := by
        intro k hk
        simp only [Hwc2Display.layerIds, Hwc2Display.destroyLayer, LayerMap.erase,
          List.mem_map] at hk
        obtain ⟨e, he, hek⟩ := hk
        have := hinv e.1 (List.mem_map_of_mem _ (List.mem_of_mem_filter he))
        simp only [Hwc2Display.destroyLayer]
        omega
      have hidx : (Hwc2Display.destroyLayer p d rd l).2.1.mLayerIndex = d.mLayerIndex := rfl
      obtain ⟨i1, i2, i3, i4, i5⟩ := ih (Hwc2Display.destroyLayer p d rd l).2.1
        (Hwc2Display.destroyLayer p d rd l).2.2 hinv1 (by rw [hidx]; omega)
      rw [hidx] at i2 i3 i4
      simp only [Hwc2Display.layerCalls, List.length_cons]
      exact ⟨i1, i2, by omega, i4, i5⟩

/-- Claim C24: a sequence of `createLayer` and `destroyLayer` calls, cut at any point into
the calls made so far (`pre`) and the calls still to come (`post`), on a display whose keys
are all below its layer counter (as on a new display) and whose counter does not wrap.  The
ids returned ascend strictly over the whole sequence.  Every id returned from the cut on is
greater than every key the collection holds at the cut and every id returned before it, so
an id freed by `destroyLayer` is never returned again.  A `createLayer` made at the cut
returns `Error::None` and an id that is no key of the collection and is greater than every
id returned before, and it adds exactly one record, keyed by that id, leaving the others as
they were. -/
theorem layer_ids_fresh_and_increasing (p : Protocol) (init : Hwc2Layer) (d : Hwc2Display)
    (rd : RemoteDisplay) (pre post : List LayerCall) (hinv : d.idsBelowCounter)
    (hwrap : d.mLayerIndex + (pre ++ post).length < 2 ^ 64) :
    (Hwc2Display.layerCalls p init d rd (pre ++ post)).1.Pairwise (· < ·) ∧
    (Hwc2Display.layerCalls p init d rd (pre ++ post)).1 =
      (Hwc2Display.layerCalls p init d rd pre).1 ++
        (Hwc2Display.layerCalls p init (Hwc2Display.layerCalls p init d rd pre).2.1
          (Hwc2Display.layerCalls p init d rd pre).2.2 post).1 ∧
    (∀ id ∈ (Hwc2Display.layerCalls p init (Hwc2Display.layerCalls p init d rd pre).2.1
          (Hwc2Display.layerCalls p init d rd pre).2.2 post).1,
      (∀ k ∈ (Hwc2Display.layerCalls p init d rd pre).2.1.layerIds, k < id) ∧
      (∀ k ∈ (Hwc2Display.layerCalls p init d rd pre).1, k < id)) ∧
    (∀ k rest, post = LayerCall.destroy k :: rest →
      k ∈ (Hwc2Display.layerCalls p init d rd pre).2.1.layerIds →
      k ∉ (Hwc2Display.destroyLayer p (Hwc2Display.layerCalls p init d rd pre).2.1
          (Hwc2Display.layerCalls p init d rd pre).2.2 k).2.1.layerIds ∧
      k ∉ (Hwc2Display.layerCalls p init (Hwc2Display.layerCalls p init d rd pre).2.1
          (Hwc2Display.layerCalls p init d rd pre).2.2 post).1) ∧
    ((Hwc2Display.createLayer p init (Hwc2Display.layerCalls p init d rd pre).2.1
        (Hwc2Display.layerCalls p init d rd pre).2.2).1 = Error.None ∧
     (Hwc2Display.createLayer p init (Hwc2Display.layerCalls p init d rd pre).2.1
        (Hwc2Display.layerCalls p init d rd pre).2.2).2.1 ∉
        (Hwc2Display.layerCalls p init d rd pre).2.1.layerIds ∧
     (∀ k ∈ (Hwc2Display.layerCalls p init d rd pre).1,
        k < (Hwc2Display.createLayer p init (Hwc2Display.layerCalls p init d rd pre).2.1
          (Hwc2Display.layerCalls p init d rd pre).2.2).2.1) ∧
     (Hwc2Display.createLayer p init (Hwc2Display.layerCalls p init d rd pre).2.1
        (Hwc2Display.layerCalls p init d rd pre).2.2).2.2.1.mLayers =
       (Hwc2Display.layerCalls p init d rd pre).2.1.mLayers ++
         [((Hwc2Display.createLayer p init (Hwc2Display.layerCalls p init d rd pre).2.1
            (Hwc2Display.layerCalls p init d rd pre).2.2).2.1,
           (Hwc2Layer.ctor init
              (Hwc2Display.createLayer p init (Hwc2Display.layerCalls p init d rd pre).2.1
                (Hwc2Display.layerCalls p init d rd pre).2.2).2.1).setRemoteDisplay
             (Hwc2Display.layerCalls p init d rd pre).2.1.mRemoteDisplay)] ∧
     (Hwc2Display.createLayer p init (Hwc2Display.layerCalls p init d rd pre).2.1
        (Hwc2Display.layerCalls p init d rd pre).2.2).2.2.1.layerIds.length =
       (Hwc2Display.layerCalls p init d rd pre).2.1.layerIds.length + 1) := by
  have hlen : (pre ++ post).length = pre.length + post.length := List.length_append _ _
  obtain ⟨w1, _, _, _, w5⟩ := Hwc2Display.layerCalls_inv p init d rd (pre ++ post) hinv hwrap
  obtain ⟨a1, a2, a3, a4, _⟩ := Hwc2Display.layerCalls_inv p init d rd pre hinv (by omega)
  have happ := Hwc2Display.layerCalls_append p init d rd pre post
  generalize Hwc2Display.layerCalls p init d rd pre = A at a1 a2 a3 a4 happ ⊢
  obtain ⟨b1, b2, b3, b4, _⟩ := Hwc2Display.layerCalls_inv p init A.2.1 A.2.2 post a1
    (by omega)
  obtain ⟨c1, c2, c3, _⟩ := Hwc2Display.createLayer_fresh p init A.2.1 A.2.2 a1
  have hpost : ∀ id ∈ (Hwc2Display.layerCalls p init A.2.1 A.2.2 post).1,
      (∀ k ∈ A.2.1.layerIds, k < id) ∧ (∀ k ∈ A.1, k < id) := by
    intro id hid
    have h1 := b4 id hid
    refine ⟨?_, ?_⟩
    · intro k hk
      have := a1 k hk
      omega
    · intro k hk
      have := a4 k hk
      omega
  refine ⟨w5, by rw [happ], hpost, ?_, c1, ?_, ?_, ?_, ?_⟩
  · intro k rest _ hk
    refine ⟨?_, ?_⟩
    · simp [Hwc2Display.layerIds, Hwc2Display.destroyLayer, LayerMap.erase, List.mem_filter]
    · intro hmem
      have := (hpost k hmem).1 k hk
      omega
  · rw [c2]
    intro hmem
    have := a1 _ hmem
    omega
  · rw [c2]
    intro k hk
    exact (a4 k hk).2
  · rw [c3, c2]
  · rw [Hwc2Display.layerIds, c3]
    simp [Hwc2Display.layerIds]

/-- On the sample display, creating two layers, destroying layer 0 and creating one more
returns the ids 0, 1, 2: the freed id 0 is not handed out again. -/
theorem layer_ids_fresh_and_increasing_witness :
    (Hwc2Display.layerCalls sampleProtocol sampleLayerInit sampleDisplay sampleSession
      ([LayerCall.create, LayerCall.create, LayerCall.destroy 0] ++ [LayerCall.create])).1.Pairwise
        (· < ·) ∧
    (Hwc2Display.layerCalls sampleProtocol sampleLayerInit sampleDisplay sampleSession
      ([LayerCall.create, LayerCall.create, LayerCall.destroy 0] ++ [LayerCall.create])).1 =
        [0, 1, 2] ∧
    (Hwc2Display.layerCalls sampleProtocol sampleLayerInit sampleDisplay sampleSession
      ([LayerCall.create, LayerCall.create, LayerCall.destroy 0] ++
        [LayerCall.create])).2.1.layerIds = [1, 2] :=
  ⟨(layer_ids_fresh_and_increasing sampleProtocol sampleLayerInit sampleDisplay sampleSession
      [LayerCall.create, LayerCall.create, LayerCall.destroy 0] [LayerCall.create]
      (by decide) (by decide)).1,
    by decide, by decide⟩

/-! ## The result of the event loop (C25) -/

/-- C26 fails in the code.  `attach` leaves the layers as they are, so a layer created before
the attachment keeps its null session pointer, and `setBuffer` on a layer with a null session
pointer returns and sends nothing.  On the sample display: create a layer, attach a session in mode 1,
give the layer `sampleBuffer`, present.  The PresentLayersRequest carries the buffer id
0x5000 and no part naming that buffer has ever been written on the session; with the
attachment made before `createLayer`, the same `setBuffer` writes the CreateBuffer
message. -/
theorem late_attached_layer_presents_unregistered_buffer :
    (∀ (p : Protocol) (d : Hwc2Display) (ptr : Option Nat) (rd : RemoteDisplay),
      (Hwc2Display.attach p d ptr rd).2.mLayers = d.mLayers) ∧
    (∀ (p : Protocol) (l : Hwc2Layer) (rd : RemoteDisplay) (b : buffer_handle_t) (f : Int),
      l.mRemoteDisplay = none → ∃ r, l.setBuffer p rd b f = some r ∧ r.2.2 = rd) ∧
    lateAttachRun.1.mRemoteDisplay = some 1 ∧ lateAttachRun.1.mMode = 1 ∧
    lateAttachRun.2.healthy ∧
    lateAttachRun.2.opsSince (lateAttachRun.1.present sampleProtocol lateAttachRun.2).2.2.2 =
      sampleProtocol.updateLayersOps [(Hwc2Layer.ctor sampleLayerInit 0).info] ++
        sampleProtocol.presentLayersOps
          [{ layerId := 0, bufferId := sampleBuffer.addr, fence := -1, changed := true }] ∧
    (lateAttachRun.1.present sampleProtocol lateAttachRun.2).2.2.2.bufferSends
      sampleBuffer.addr = 0 ∧
    earlyAttachRun.2.bufferSends sampleBuffer.addr = 1 := by
  refine ⟨?_, ?_, by decide, by decide, by decide, by decide, by decide, by decide⟩
  · intro p d ptr rd
    cases ptr <;> rfl
  · intro p l rd b f hl
    have h1 : (if l.mAcquireFence ≥ 0 then { l with closed := l.closed ++ [l.mAcquireFence] }
        else l).mRemoteDisplay = none := by
      split_ifs <;> exact hl
    simp only [Hwc2Layer.setBuffer, h1, Option.isSome_none, Bool.false_eq_true, if_false]
    split_ifs <;> exact ⟨_, rfl, rfl⟩

/-! ## Rotation reconciliation run twice (C27) -/

/-- The scan of `updateRotation` run with its own result as the cached transform gives that
result again. -/
theorem Hwc2Display.scanTransform_idem (c : Nat) (m : LayerMap) (x : Nat) :
    Hwc2Display.scanTransform (Hwc2Display.scanTransform c m x) m x =
      Hwc2Display.scanTransform c m x := by
  induction m generalizing x with
  | nil => simp [Hwc2Display.scanTransform]
  | cons e rest ih =>
    by_cases hb : e.2.layerBuffer.bufferId ≠ 0 ∧ (e.2.info.transform % 2 ^ 32).toNat = c
    · have h1 : Hwc2Display.scanTransform c (e :: rest) x =
          (e.2.info.transform % 2 ^ 32).toNat := by
        simp only [Hwc2Display.scanTransform]
        rw [if_pos hb]
      rw [h1]
      simp only [Hwc2Display.scanTransform]
      rw [if_pos ⟨hb.1, trivial⟩]
    · have h1 : Hwc2Display.scanTransform c (e :: rest) x =
          Hwc2Display.scanTransform c rest (e.2.info.transform % 2 ^ 32).toNat := by
        simp only [Hwc2Display.scanTransform]
        rw [if_neg hb]
      rw [h1]
      by_cases hb2 : e.2.layerBuffer.bufferId ≠ 0 ∧ (e.2.info.transform % 2 ^ 32).toNat =
          Hwc2Display.scanTransform c rest (e.2.info.transform % 2 ^ 32).toNat
      · simp only [Hwc2Display.scanTransform]
        rw [if_pos hb2]
        exact hb2.2
      · simp only [Hwc2Display.scanTransform]
        rw [if_neg hb2]
        exact ih _

/-- Claim C27: `updateRotation` run twice in succession.  The second run returns 0, sends
nothing and leaves the display, its cached transform included, and the session exactly as
the first run left them; the first run performs no system call or the one write of a
SetRotation message, whose rotation code is 0, 1, 2 or 3; so the two runs together send at
most one SetRotation. -/
theorem updateRotation_idempotent (p : Protocol) (d : Hwc2Display) (rd : RemoteDisplay) :
    ((d.updateRotation p rd).2.1.updateRotation p (d.updateRotation p rd).2.2) =
      (0, (d.updateRotation p rd).2.1, (d.updateRotation p rd).2.2) ∧
    ((d.updateRotation p rd).2.1.updateRotation p (d.updateRotation p rd).2.2).2.1.mTransform =
      (d.updateRotation p rd).2.1.mTransform ∧
    (d.updateRotation p rd).2.2.opsSince
      ((d.updateRotation p rd).2.1.updateRotation p (d.updateRotation p rd).2.2).2.2 = [] ∧
    (rd.opsSince (d.updateRotation p rd).2.2 = [] ∨
      ∃ rot : Int, (rot = 0 ∨ rot = 1 ∨ rot = 2 ∨ rot = 3) ∧
        rd.opsSince (d.updateRotation p rd).2.2 = [p.setRotationOp rot]) ∧
    (rd.opsSince
      ((d.updateRotation p rd).2.1.updateRotation p (d.updateRotation p rd).2.2).2.2).length
        ≤ 1 := by
  have hsecond : ((d.updateRotation p rd).2.1.updateRotation p (d.updateRotation p rd).2.2) =
      (0, (d.updateRotation p rd).2.1, (d.updateRotation p rd).2.2) := by
    by_cases hn : d.mRemoteDisplay.isNone = true
    · simp [Hwc2Display.updateRotation, hn]
    · by_cases hne : Hwc2Display.scanTransform d.mTransform d.mLayers 0 ≠ d.mTransform
      · have h1 : d.updateRotation p rd =
            (0, { d with mTransform := Hwc2Display.scanTransform d.mTransform d.mLayers 0 },
              (rd.setRotation p (Hwc2Display.rotationCode
                (Hwc2Display.scanTransform d.mTransform d.mLayers 0))).2) := by
          simp only [Hwc2Display.updateRotation, Hwc2Display.rotationCode]
          rw [if_neg hn, if_pos hne]
        rw [h1]
        simp only [Hwc2Display.updateRotation]
        rw [if_neg hn]
        simp only [Hwc2Display.scanTransform_idem, ne_eq, not_true_eq_false, if_false]
      · have h1 : d.updateRotation p rd = (0, d, rd) := by
          simp only [Hwc2Display.updateRotation]
          rw [if_neg hn, if_neg hne]
        rw [h1]
        exact h1
  have hfirst : rd.opsSince (d.updateRotation p rd).2.2 = [] ∨
      ∃ rot : Int, (rot = 0 ∨ rot = 1 ∨ rot = 2 ∨ rot = 3) ∧
        rd.opsSince (d.updateRotation p rd).2.2 = [p.setRotationOp rot] := by
    by_cases hn : d.mRemoteDisplay.isNone = true
    · left
      simp [Hwc2Display.updateRotation, hn, RemoteDisplay.opsSince]
    · by_cases hne : Hwc2Display.scanTransform d.mTransform d.mLayers 0 ≠ d.mTransform
      · have h1 : (d.updateRotation p rd).2.2 =
            (rd._send (some (Payload.rotation_event p.DD_EVENT_SET_ROTATION
              (p.sizeof_rotation_event_t % 2 ^ 32) (Hwc2Display.rotationCode
                (Hwc2Display.scanTransform d.mTransform d.mLayers 0))))
              p.sizeof_rotation_event_t).2 := by
          simp only [Hwc2Display.updateRotation, Hwc2Display.rotationCode,
            RemoteDisplay.setRotation]
          rw [if_neg hn, if_pos hne]
          split_ifs <;> rfl
        rw [h1]
        rcases RemoteDisplay._send_ops rd
          (some (Payload.rotation_event p.DD_EVENT_SET_ROTATION
              (p.sizeof_rotation_event_t % 2 ^ 32) (Hwc2Display.rotationCode
                (Hwc2Display.scanTransform d.mTransform d.mLayers 0))))
          p.sizeof_rotation_event_t with h | ⟨b, hb, h⟩
        · left
          exact RemoteDisplay.opsSince_of_append rd _ [] (by simpa using h)
        · right
          refine ⟨Hwc2Display.rotationCode
            (Hwc2Display.scanTransform d.mTransform d.mLayers 0), ?_, ?_⟩
          · unfold Hwc2Display.rotationCode
            split_ifs <;> simp
          · have hb2 := Option.some.inj hb
            rw [RemoteDisplay.opsSince_of_append rd _ _ h, ← hb2]
            rfl
      · left
        have h1 : d.updateRotation p rd = (0, d, rd) := by
          simp only [Hwc2Display.updateRotation]
          rw [if_neg hn, if_neg hne]
        rw [h1]
        simp [RemoteDisplay.opsSince]
  refine ⟨hsecond, ?_, ?_, hfirst, ?_⟩
  · rw [hsecond]
  · rw [hsecond]
    simp [RemoteDisplay.opsSince]
  · rw [hsecond]
    rcases hfirst with h | ⟨rot, _, h⟩
    · simp only at h ⊢
      rw [h]
      simp
    · simp only at h ⊢
      rw [h]
      simp

/-! ## The colour word (C28) -/

/-- C28 fails in the code: the word `setColor` stores for the wire holds the green channel
twice and the blue channel nowhere.  For a colour that differs from the stored one the word
is `r | g << 8 | g << 16 | a << 24`; a second colour that differs from the first in blue
alone gives the same word, so blue cannot be recovered from it. -/
theorem setColor_word_loses_blue (l : Hwc2Layer) (c : hwc_color_t) (b : Nat)
    (hc : l.mColor ≠ c) (hb : l.mColor ≠ { c with b := b }) :
    (l.setColor c).2.mInfo.color =
      (c.r ||| (c.g <<< 8) ||| (c.g <<< 16) ||| (c.a <<< 24)) % 2 ^ 32 ∧
    (l.setColor { c with b := b }).2.mInfo.color = (l.setColor c).2.mInfo.color ∧
    (l.setColor c).2.mColor = c ∧ (l.setColor c).2.mInfo.changed = true := by
  have h1 : l.mColor.r ≠ c.r ∨ l.mColor.g ≠ c.g ∨ l.mColor.b ≠ c.b ∨ l.mColor.a ≠ c.a := by
    by_contra hn
    push_neg at hn
    apply hc
    cases hl : l.mColor
    cases c
    simp_all
  have h2 : l.mColor.r ≠ c.r ∨ l.mColor.g ≠ c.g ∨ l.mColor.b ≠ b ∨ l.mColor.a ≠ c.a := by
    by_contra hn
    push_neg at hn
    apply hb
    cases hl : l.mColor
    cases c
    simp_all
  simp only [Hwc2Layer.setColor, if_pos h1, if_pos h2]
  exact ⟨trivial, trivial, trivial, trivial⟩

/-- The colour (1, 2, 3, 255) set on a layer whose stored colour is (0, 0, 0, 0) gives the
word 0xFF020201, not 0xFF030201: bits 16 to 23 hold the green value 2, and the colour
(1, 2, 77, 255) gives the same word. -/
theorem setColor_word_loses_blue_witness :
    (sampleLayer.setColor ⟨1, 2, 3, 255⟩).2.mInfo.color = 0xFF020201 ∧
    (1 ||| (2 <<< 8) ||| (3 <<< 16) ||| (255 <<< 24)) = 0xFF030201 ∧
    ((sampleLayer.setColor ⟨1, 2, 3, 255⟩).2.mInfo.color / 2 ^ 16) % 256 = 2 ∧
    (sampleLayer.setColor ⟨1, 2, 77, 255⟩).2.mInfo.color =
      (sampleLayer.setColor ⟨1, 2, 3, 255⟩).2.mInfo.color :=
  ⟨by decide, by decide, by decide,
    (setColor_word_loses_blue sampleLayer ⟨1, 2, 3, 255⟩ 77 (by decide) (by decide)).2.1⟩

/-! ## The fence of the wire record (C29) -/

/-- C29 fails in the code: `setBuffer(b, f)` with `b` the layer's current buffer returns,
stores `f` as the layer's acquire fence and closes the previous one, but leaves the
layer-buffer wire record as it was, its fence field included: the record keeps the fence
that came with the last change of buffer, whatever `f` is. -/
theorem setBuffer_same_buffer_keeps_wire_fence (p : Protocol) (l : Hwc2Layer)
    (rd : RemoteDisplay) (b : buffer_handle_t) (f : Int) (hsame : l.mBuffer.addr = b.addr) :
    ∃ r, l.setBuffer p rd b f = some r ∧
    r.2.1.mAcquireFence = f ∧
    r.2.1.layerBuffer = l.layerBuffer ∧
    r.2.1.layerBuffer.fence = l.layerBuffer.fence ∧
    (0 ≤ l.mAcquireFence → l.mAcquireFence ∈ r.2.1.closed) ∧
    r.2.2 = rd := by
  by_cases hf : l.mAcquireFence ≥ 0 <;>
    simp [Hwc2Layer.setBuffer, Hwc2Layer.layerBuffer, hsame, hf]

/-- A layer holds `sampleBuffer` with fence 5; `setBuffer(sampleBuffer, 9)` leaves 5 in the
wire record although 9 is the fence supplied and descriptor 5 has been closed, and the next
present ships the record with fence 5. -/
theorem setBuffer_same_buffer_keeps_wire_fence_witness :
    (fencedLayer.afterSetBuffer sampleProtocol sampleSession sampleBuffer 9).layerBuffer.fence
      = 5 ∧
    (fencedLayer.afterSetBuffer sampleProtocol sampleSession sampleBuffer 9).mAcquireFence = 9 ∧
    5 ∈ (fencedLayer.afterSetBuffer sampleProtocol sampleSession sampleBuffer 9).closed ∧
    (refencedDisplay.present sampleProtocol sampleSession).2.2.2.ops =
      sampleProtocol.updateLayersOps [fencedLayer.info] ++
        sampleProtocol.presentLayersOps
          [{ layerId := 0, bufferId := sampleBuffer.addr, fence := 5, changed := true }] := by
  obtain ⟨r, hr, h⟩ := setBuffer_same_buffer_keeps_wire_fence sampleProtocol fencedLayer
    sampleSession sampleBuffer 9 (by decide)
  have e : fencedLayer.afterSetBuffer sampleProtocol sampleSession sampleBuffer 9 = r.2.1 := by
    unfold Hwc2Layer.afterSetBuffer
    rw [hr]
  rw [e]
  exact ⟨h.2.2.1.trans (by decide), h.1, h.2.2.2.1 (by decide), by decide⟩

/-! ## Display attributes and the vsync period (C30) -/

theorem intDiv_billion (b : Int) (hb : b ≠ 0) :
    intDiv 1000000000 b = some ((1000000000 : Int).tdiv b) := by
  have h := Int.natAbs_tdiv 1000000000 b
  have h2 : (Int.natAbs 1000000000).div (Int.natAbs b) ≤ 1000000000 := Nat.div_le_self _ _
  rw [← h] at h2
  have h3 : ¬ ((1000000000 : Int).tdiv b < -(2 ^ 31) ∨ 2 ^ 31 ≤ (1000000000 : Int).tdiv b) := by
    omega
  unfold intDiv
  rw [if_neg hb, if_neg h3]

/-- C30 fails in the code: a session that reads a DisplayInfoAck with frame rate 0 accepts
it, `attach` copies the 0, and both `getVsyncPeriod` and `getAttribute` for the vsync period
of the active configuration then divide by zero. -/
theorem zero_frame_rate_divides_by_zero :
    (zeroFpsSession.onDisplayEvent sampleProtocol).1 = 0 ∧
    (zeroFpsSession.onDisplayEvent sampleProtocol).2.mFramerate = 0 ∧
    (zeroFpsSession.onDisplayEvent sampleProtocol).2.calls = [Callback.onConnect 7] ∧
    zeroFpsDisplay.mRemoteDisplay = some 1 ∧ zeroFpsDisplay.mFramerate = 0 ∧
    zeroFpsDisplay.getVsyncPeriod = none ∧
    zeroFpsDisplay.getAttribute zeroFpsDisplay.mConfig Attribute.VsyncPeriod true = none := by
  decide

/-- C30, as the code has it.  `attach` copies the frame rate the session holds, whatever it
is.  When the frame rate of the display is not 0, `getVsyncPeriod` returns `Error::None` with
1000000000 / framerate (quotient truncated toward zero, stored as a 32-bit unsigned value)
and `getAttribute` for the vsync period of the active configuration returns `Error::None`
with the same quotient; when it is 0 both divide by zero.  Whenever `getAttribute` is
defined it returns `None` or `BadConfig`, and `BadConfig` exactly when the configuration is
not the active one, the output pointer is null, or the attribute is none of Width, Height,
VsyncPeriod, DpiX, DpiY.  For the active configuration and a non-null pointer, Width and
Height give the display's width and height, and DpiX and DpiY give xdpi * 1000 and
ydpi * 1000 when the product fits a 32-bit signed integer. -/
theorem vsync_period_and_attributes (d : Hwc2Display) :
    (∀ (p : Protocol) (a : Nat) (rd : RemoteDisplay),
      (Hwc2Display.attach p d (some a) rd).2.mFramerate = rd.mFramerate) ∧
    (d.mFramerate ≠ 0 →
      d.getVsyncPeriod =
        some (Error.None, (((1000000000 : Int).tdiv d.mFramerate) % 2 ^ 32).toNat) ∧
      d.getAttribute d.mConfig Attribute.VsyncPeriod true =
        some (Error.None, some ((1000000000 : Int).tdiv d.mFramerate))) ∧
    (d.mFramerate = 0 →
      d.getVsyncPeriod = none ∧
      d.getAttribute d.mConfig Attribute.VsyncPeriod true = none) ∧
    (∀ (config : Nat) (attr : Int) (value : Bool) (r : Error × Option Int),
      d.getAttribute config attr value = some r →
      (r.1 = Error.None ∨ r.1 = Error.BadConfig) ∧
      (r.1 = Error.BadConfig ↔
        config ≠ d.mConfig ∨ value = false ∨
          (attr ≠ Attribute.Width ∧ attr ≠ Attribute.Height ∧ attr ≠ Attribute.VsyncPeriod ∧
            attr ≠ Attribute.DpiX ∧ attr ≠ Attribute.DpiY))) ∧
    d.getAttribute d.mConfig Attribute.Width true = some (Error.None, some d.mWidth) ∧
    d.getAttribute d.mConfig Attribute.Height true = some (Error.None, some d.mHeight) ∧
    (-(2 ^ 31) ≤ d.mXDpi * 1000 ∧ d.mXDpi * 1000 < 2 ^ 31 →
      d.getAttribute d.mConfig Attribute.DpiX true =
        some (Error.None, some (d.mXDpi * 1000))) ∧
    (-(2 ^ 31) ≤ d.mYDpi * 1000 ∧ d.mYDpi * 1000 < 2 ^ 31 →
      d.getAttribute d.mConfig Attribute.DpiY true =
        some (Error.None, some (d.mYDpi * 1000))) := by
  refine ⟨fun _ _ _ => rfl, ?_, ?_, ?_, ?_, ?_, ?_, ?_⟩
  · intro hf
    constructor
    · simp [Hwc2Display.getVsyncPeriod, intDiv_billion _ hf]
    · simp [Hwc2Display.getAttribute, Attribute.VsyncPeriod, Attribute.Width, Attribute.Height,
        intDiv_billion _ hf]
  · intro hf
    constructor
    · simp [Hwc2Display.getVsyncPeriod, intDiv, hf]
    · simp [Hwc2Display.getAttribute, Attribute.VsyncPeriod, Attribute.Width, Attribute.Height,
        intDiv, hf]
  · intro config attr value r hr
    unfold Hwc2Display.getAttribute at hr
    by_cases hc : config ≠ d.mConfig ∨ (!value) = true
    · rw [if_pos hc] at hr
      have hr2 := Option.some.inj hr
      subst hr2
      refine ⟨Or.inr rfl, ?_⟩
      simp only [true_iff]
      rcases hc with hc | hc
      · exact Or.inl hc
      · exact Or.inr (Or.inl (by simpa using hc))
    · rw [if_neg hc] at hr
      have hc1 : ¬ config ≠ d.mConfig := fun h => hc (Or.inl h)
      have hc2 : ¬ value = false := fun h => hc (Or.inr (by simp [h]))
      by_cases h1 : attr = Attribute.Width
      · rw [if_pos h1] at hr
        have hr2 := Option.some.inj hr
        subst hr2
        simp [h1, hc1, hc2]
      · rw [if_neg h1] at hr
        by_cases h2 : attr = Attribute.Height
        · rw [if_pos h2] at hr
          have hr2 := Option.some.inj hr
          subst hr2
          simp [h2, hc1, hc2]
        · rw [if_neg h2] at hr
          by_cases h3 : attr = Attribute.VsyncPeriod
          · rw [if_pos h3] at hr
            obtain ⟨v, _, hv⟩ := Option.map_eq_some'.mp hr
            subst hv
            simp [h3, hc1, hc2]
          · rw [if_neg h3] at hr
            by_cases h4 : attr = Attribute.DpiX
            · rw [if_pos h4] at hr
              obtain ⟨v, _, hv⟩ := Option.map_eq_some'.mp hr
              subst hv
              simp [h4, hc1, hc2]
            · rw [if_neg h4] at hr
              by_cases h5 : attr = Attribute.DpiY
              · rw [if_pos h5] at hr
                obtain ⟨v, _, hv⟩ := Option.map_eq_some'.mp hr
                subst hv
                simp [h5, hc1, hc2]
              · rw [if_neg h5] at hr
                have hr2 := Option.some.inj hr
                subst hr2
                simp [h1, h2, h3, h4, h5]
  · simp [Hwc2Display.getAttribute]
  · simp [Hwc2Display.getAttribute, Attribute.Width, Attribute.Height]
  · intro hx
    have hx2 : ¬ (d.mXDpi * 1000 < -(2 ^ 31) ∨ 2 ^ 31 ≤ d.mXDpi * 1000) := by omega
    simp only [Hwc2Display.getAttribute, intMul, if_neg hx2]
    simp [Attribute.DpiX, Attribute.Width, Attribute.Height, Attribute.VsyncPeriod]
  · intro hy
    have hy2 : ¬ (d.mYDpi * 1000 < -(2 ^ 31) ∨ 2 ^ 31 ≤ d.mYDpi * 1000) := by omega
    simp only [Hwc2Display.getAttribute, intMul, if_neg hy2]
    simp [Attribute.DpiY, Attribute.DpiX, Attribute.Width, Attribute.Height,
      Attribute.VsyncPeriod]

end HwcVhal
